import Mathlib

/-!
# The XA transaction coordinator of `sql/xa.cc`

A shallow embedding of the XA coordinator: XID classification, the crash
recovery resolver (`ha_recover`, `xarecover_handlerton`), the process-wide
transaction cache and the session command handlers (`XA START`, `XA END`,
`XA PREPARE`, `XA COMMIT`, `XA ROLLBACK`).

Conventions of the embedding.

* Bytes are natural numbers; a C `char` buffer is a `List Nat`.
* A pointer that may be `NULL` is an `Option`.
* C++ `bool` results keep the polarity of the source: `true` is failure.
* `std::set<std::string>` and `memroot_unordered_set<my_xid>` are lists read
  through membership only.
* Objects that are shared through pointers (`Transaction_ctx`) live in an
  explicit memory `Server.heap`, addressed by natural numbers; the
  transaction cache maps keys to addresses, so pointer identity is address
  equality.
* Functions of other translation units (MDL, engines, binlog, GTID) are
  collaborators: their outcome is supplied by a record of results.
-/

namespace XA

/-! ## XID -/

/-- The constant XIDDATASIZE: number of bytes in the data array of an XID. -/
def XIDDATASIZE : Nat := 128

/-- The struct xid_t: format id, the two lengths and the data array holding
gtrid followed by bqual. -/
structure XID where
  formatID : Int
  gtrid_length : Int
  bqual_length : Int
  data : List Nat
deriving DecidableEq, Repr

instance : Inhabited XID := ⟨⟨-1, 0, 0, []⟩⟩

/-- Modelled from the spec: the macro MYSQL_XID_PREFIX of sql/xa.h is not among
the sources; the spec fixes only that it is an 8-byte prefix. The bytes are
those of the text MySQLXid. -/
def MYSQL_XID_PREFIX_BYTES : List Nat := [77, 121, 83, 81, 76, 88, 105, 100]

/-- The constant MYSQL_XID_PREFIX_LEN. -/
def MYSQL_XID_PREFIX_LEN : Nat := 8

/-- Modelled from the spec: the declaration of server_id (sql/mysqld.h) is not
among the sources; the spec gives the server id 4 bytes. -/
def sizeof_server_id : Nat := 4

/-- The size of my_xid, an unsigned 64-bit integer. -/
def sizeof_my_xid : Nat := 8

/-- The constant MYSQL_XID_OFFSET. -/
def MYSQL_XID_OFFSET : Nat := MYSQL_XID_PREFIX_LEN + sizeof_server_id

/-- The constant MYSQL_XID_GTRID_LEN. -/
def MYSQL_XID_GTRID_LEN : Nat := MYSQL_XID_OFFSET + sizeof_my_xid

/-- Value of a little-endian byte sequence (memcpy into an integer on the
little-endian targets of the server). -/
def le_value : List Nat → Nat
  | [] => 0
  | b :: bs => b + 256 * le_value bs

/-- The method xid_t::get_my_xid: the embedded id of an internal XID, 0 for an
external one. -/
def XID.get_my_xid (x : XID) : Nat :=
  if x.gtrid_length = (MYSQL_XID_GTRID_LEN : Int) ∧ x.bqual_length = 0 ∧
      x.data.take MYSQL_XID_PREFIX_LEN = MYSQL_XID_PREFIX_BYTES then
    le_value ((x.data.drop MYSQL_XID_OFFSET).take sizeof_my_xid)
  else 0

/-- The string built as std::string(xid.get_data(), xid.get_gtrid_length()):
the gtrid bytes of the XID (used by the resolver and by get_xa_txnid). -/
def XID.xid_data (x : XID) : List Nat :=
  x.data.take x.gtrid_length.toNat

/-- The bytes of an unsigned integer of the given size in memory, least
significant first (little-endian targets). -/
def le_bytes : Nat → Nat → List Nat
  | 0, _ => []
  | k + 1, n => n % 256 :: le_bytes k (n / 256)

/-- The call memcpy(dst + off, src, n) on a byte array held as a list: the n
bytes of src replace those of dst from offset off on; a list shorter than the
array is read as padded with zero bytes. -/
def memcpy (dst : List Nat) (off : Nat) (src : List Nat) : List Nat :=
  (dst ++ List.replicate (off - dst.length) 0).take off ++ src ++ dst.drop (off + src.length)

/-- The constant INTERNAL_MYSQL_SYSTEM_XID, an int. -/
def INTERNAL_MYSQL_SYSTEM_XID : Int := -1

/-- The conversion of an int to my_xid, an unsigned 64-bit integer. -/
def my_xid_of_int (i : Int) : Nat :=
  (i % (2 ^ 64 : Int)).toNat

/-- The method xid_t::set(my_xid): the XID of an internal transaction. The
global server_id is a parameter. -/
def XID.set (x : XID) (server_id : Nat) (xid : Nat) : XID :=
  let xid1 := if xid = 0 then my_xid_of_int INTERNAL_MYSQL_SYSTEM_XID else xid
  let data1 := memcpy x.data 0 MYSQL_XID_PREFIX_BYTES
  let data2 := memcpy data1 MYSQL_XID_PREFIX_LEN (le_bytes sizeof_server_id server_id)
  let data3 := memcpy data2 MYSQL_XID_OFFSET (le_bytes sizeof_my_xid xid1)
  { formatID := 1, gtrid_length := (MYSQL_XID_GTRID_LEN : Int), bqual_length := 0,
    data := data3 }

/-! ## Engines -/

/-- The state of a storage engine plugin (handlerton::state). -/
inductive SHOW_COMP_OPTION where
  | SHOW_OPTION_YES
  | SHOW_OPTION_NO
  | SHOW_OPTION_DISABLED
deriving DecidableEq, Repr

/-- Status codes returned by the engines for commit_by_xid / rollback_by_xid. -/
inductive xa_status_code where
  | XA_OK
  | XAER_ASYNC
  | XAER_RMERR
  | XAER_NOTA
  | XAER_INVAL
  | XAER_PROTO
  | XAER_RMFAIL
  | XAER_DUPID
  | XAER_OUTSIDE
deriving DecidableEq, Repr

/-- A prepared branch as reported by an engine (struct XA_recover_txn): its
XID, the tables it modified and whether it was prepared by a one-phase
commit. -/
structure XA_recover_txn where
  id : XID
  mod_tables : List (String × String)
  one_phase_prepared : Bool
deriving DecidableEq, Repr

/-- The capability record of a storage engine. The member recover is a
function pointer that may be null; when present it yields the count got and
the list of branches placed at the head of the transaction list. -/
structure handlerton where
  slot : Nat
  state : SHOW_COMP_OPTION
  recover : Option (Int × List XA_recover_txn)
  commit_by_xid : XID → xa_status_code
  rollback_by_xid : XID → xa_status_code

/-- A call made into an engine during recovery or by-xid finalisation. -/
inductive Engine_call where
  | commit_by_xid (slot : Nat) (xid : XID)
  | rollback_by_xid (slot : Nat) (xid : XID)
deriving DecidableEq, Repr

/-- The policy variable tc_heuristic_recover. -/
inductive TC_HEURISTIC where
  | TC_HEURISTIC_NOT_USED
  | TC_HEURISTIC_RECOVER_COMMIT
  | TC_HEURISTIC_RECOVER_ROLLBACK
deriving DecidableEq, Repr

/-! ## Recovery resolver -/

/-- The singleton Recovered_xa_transactions: the branches retained for
insertion into the transaction cache, and whether its memory root is
initialised. -/
structure Recovered_xa_transactions where
  m_prepared_xa_trans : List XA_recover_txn
  m_mem_root_inited : Bool
deriving DecidableEq, Repr

/-- The method Recovered_xa_transactions::add_prepared_xa_transaction. The
allocation on the memory root fails when alloc_fails says so for the current
number of recorded branches; the copy takes the id and the table list. -/
def Recovered_xa_transactions.add_prepared_xa_transaction (alloc_fails : Nat → Bool)
    (r : Recovered_xa_transactions) (prepared_xa_trn_arg : XA_recover_txn) :
    Bool × Recovered_xa_transactions :=
  if alloc_fails r.m_prepared_xa_trans.length then (true, r)
  else
    (false, { r with m_prepared_xa_trans := r.m_prepared_xa_trans ++
        [{ id := prepared_xa_trn_arg.id, mod_tables := prepared_xa_trn_arg.mod_tables,
           one_phase_prepared := false }] })

/-- The method Recovered_xa_transactions::get_allocated_memroot (its effect on
the singleton). -/
def Recovered_xa_transactions.get_allocated_memroot (r : Recovered_xa_transactions) :
    Recovered_xa_transactions :=
  { r with m_mem_root_inited := true }

/-- Insertion into a std::set of strings. -/
def set_insert (s : List (List Nat)) (x : List Nat) : List (List Nat) :=
  if x ∈ s then s else s ++ [x]

/-- The struct xarecover_st: the inputs of the scan and its counters. -/
structure xarecover_st where
  found_foreign_xids : Int
  found_my_xids : Int
  commit_list : Option (List Nat)
  binlog_xa_prepared_engine : Option (List (List Nat))
  binlog_xa_prepared : Option (List (List Nat))
  binlog_xa_cop : Option (List (List Nat))
  binlog_xa_committed : Option (List (List Nat))
  binlog_xa_aborted : Option (List (List Nat))
  dry_run : Bool
  m_do_binlog_recovery : Bool
deriving DecidableEq, Repr

/-- The constructor of xarecover_st. -/
def xarecover_st.create (clist : Option (List Nat)) (xap_engine xap cop committed aborted :
    Option (List (List Nat))) : xarecover_st :=
  { found_foreign_xids := 0, found_my_xids := 0, commit_list := clist,
    binlog_xa_prepared_engine := xap_engine, binlog_xa_prepared := xap,
    binlog_xa_cop := cop, binlog_xa_committed := committed, binlog_xa_aborted := aborted,
    dry_run := false, m_do_binlog_recovery := clist.isSome }

/-- The method xarecover_st::do_binlog_recovery. -/
def xarecover_st.do_binlog_recovery (info : xarecover_st) : Bool :=
  info.m_do_binlog_recovery

/-- The test (set && set->find(x) != set->end()) on a set pointer. -/
def set_has (s : Option (List (List Nat))) (x : List Nat) : Bool :=
  match s with
  | some l => decide (x ∈ l)
  | none => false

/-- The test (set && set->find(x) == set->end()) on a set pointer. -/
def set_lacks (s : Option (List (List Nat))) (x : List Nat) : Bool :=
  match s with
  | some l => decide (x ∉ l)
  | none => false

/-- Everything the scan of xarecover_handlerton reads and writes: the info
record, the singleton of retained branches and the engine calls made so far
(oldest first). -/
structure Recover_state where
  info : xarecover_st
  recovered : Recovered_xa_transactions
  calls : List Engine_call

/-- The commit arm of the recovery-mode test: hton->commit_by_xid. -/
def xarecover_commit (hton : handlerton) (target_xid : XID) (st : Recover_state) :
    Recover_state :=
  { st with calls := st.calls ++ [Engine_call.commit_by_xid hton.slot target_xid] }

/-- The label abort_i: hton->rollback_by_xid. -/
def xarecover_abort (hton : handlerton) (target_xid : XID) (st : Recover_state) :
    Recover_state :=
  { st with calls := st.calls ++ [Engine_call.rollback_by_xid hton.slot target_xid] }

/-- The recovery-mode test at the end of the loop body of xarecover_handlerton,
reached with the flag commit_i. -/
def xarecover_recovery_mode (heuristic : TC_HEURISTIC) (hton : handlerton)
    (target_xid : XID) (x : Nat) (commit_i : Bool) (st : Recover_state) : Recover_state :=
  if commit_i ||
      (if st.info.do_binlog_recovery then
        (match st.info.commit_list with
         | some l => decide (x ∈ l)
         | none => false)
       else decide (heuristic = TC_HEURISTIC.TC_HEURISTIC_RECOVER_COMMIT)) then
    xarecover_commit hton target_xid st
  else
    xarecover_abort hton target_xid st

/-- One iteration of the loop of xarecover_handlerton over a reported branch.
The first component is true when the function returns true from inside the
loop (allocation failure), false when the loop goes on. -/
def xarecover_txn (alloc_fails : Nat → Bool) (heuristic : TC_HEURISTIC) (hton : handlerton)
    (target_xrt : XA_recover_txn) (st : Recover_state) : Bool × Recover_state :=
  let target_xid := target_xrt.id
  let x := target_xid.get_my_xid
  if x = 0 then
    if st.info.dry_run then
      (false, { st with info := { st.info with
          found_foreign_xids := st.info.found_foreign_xids + 1 } })
    else
      let xid_data := target_xid.xid_data
      if set_has st.info.binlog_xa_cop xid_data then
        (false, xarecover_recovery_mode heuristic hton target_xid x true st)
      else if set_lacks st.info.binlog_xa_prepared xid_data then
        (false, xarecover_abort hton target_xid st)
      else if set_has st.info.binlog_xa_committed xid_data then
        (false, xarecover_recovery_mode heuristic hton target_xid x true st)
      else if set_has st.info.binlog_xa_aborted xid_data then
        (false, xarecover_abort hton target_xid st)
      else if target_xrt.one_phase_prepared then
        (false, xarecover_abort hton target_xid st)
      else
        match st.recovered.add_prepared_xa_transaction alloc_fails target_xrt with
        | (true, r) => (true, { st with recovered := r })
        | (false, r) =>
          (false, { st with
            recovered := r
            info := { st.info with
              found_foreign_xids := st.info.found_foreign_xids + 1
              binlog_xa_prepared_engine :=
                match st.info.binlog_xa_prepared_engine with
                | some s => some (set_insert s xid_data)
                | none => none } })
  else if st.info.dry_run then
    (false, { st with info := { st.info with found_my_xids := st.info.found_my_xids + 1 } })
  else
    (false, xarecover_recovery_mode heuristic hton target_xid x false st)

/-- The loop of xarecover_handlerton over the reported branches. -/
def xarecover_loop (alloc_fails : Nat → Bool) (heuristic : TC_HEURISTIC) (hton : handlerton) :
    List XA_recover_txn → Recover_state → Bool × Recover_state
  | [], st => (false, st)
  | target_xrt :: rest, st =>
    match xarecover_txn alloc_fails heuristic hton target_xrt st with
    | (true, st1) => (true, st1)
    | (false, st1) => xarecover_loop alloc_fails heuristic hton rest st1

/-- The branches an engine reports to the scan: the first got entries of the
list filled by its recover function, for an enabled engine that has one. -/
def handlerton.reported (hton : handlerton) : List XA_recover_txn :=
  if hton.state = SHOW_COMP_OPTION.SHOW_OPTION_YES then
    match hton.recover with
    | some (got, txn_list) => if got > 0 then txn_list.take got.toNat else []
    | none => []
  else []

/-- The function xarecover_handlerton, the callback run on every engine. -/
def xarecover_handlerton (alloc_fails : Nat → Bool) (heuristic : TC_HEURISTIC)
    (hton : handlerton) (st : Recover_state) : Bool × Recover_state :=
  if hton.state = SHOW_COMP_OPTION.SHOW_OPTION_YES then
    match hton.recover with
    | some (got, txn_list) =>
      let st1 := { st with recovered := st.recovered.get_allocated_memroot }
      if got > 0 then
        xarecover_loop alloc_fails heuristic hton (txn_list.take got.toNat) st1
      else (false, st1)
    | none => (false, st)
  else (false, st)

/-- Modelled from the spec: plugin_foreach lives in sql/sql_plugin.cc, which is
not among the sources. It runs the callback on every engine plugin in turn and
stops with true at the first callback that returns true. -/
def plugin_foreach {σ : Type} (func : handlerton → σ → Bool × σ) :
    List handlerton → σ → Bool × σ
  | [], st => (false, st)
  | hton :: rest, st =>
    match func hton st with
    | (true, st1) => (true, st1)
    | (false, st1) => plugin_foreach func rest st1

/-- The global variables read and written by ha_recover. -/
structure Recover_globals where
  total_ha_2pc : Nat
  opt_bin_log : Bool
  tc_heuristic_recover : TC_HEURISTIC
  g_did_binlog_recovery : Int
deriving DecidableEq, Repr

/-- The function ha_recover. The result is the returned int, the globals
afterwards and the state of the scan. -/
def ha_recover (alloc_fails : Nat → Bool) (plugins : List handlerton) (g : Recover_globals)
    (recovered : Recovered_xa_transactions)
    (commit_list : Option (List Nat))
    (xa_prepared xa_cop xa_committed xa_aborted engine_prepared : Option (List (List Nat))) :
    Int × Recover_globals × Recover_state :=
  let info0 := xarecover_st.create commit_list engine_prepared xa_prepared xa_cop
    xa_committed xa_aborted
  let info1 := { info0 with dry_run :=
    (info0.do_binlog_recovery == false &&
      decide (g.tc_heuristic_recover = TC_HEURISTIC.TC_HEURISTIC_NOT_USED)) }
  let st1 : Recover_state := { info := info1, recovered := recovered, calls := [] }
  if g.total_ha_2pc ≤ g.opt_bin_log.toNat then (0, g, st1)
  else if g.total_ha_2pc > g.opt_bin_log.toNat + 1 ∧
      g.tc_heuristic_recover = TC_HEURISTIC.TC_HEURISTIC_RECOVER_ROLLBACK then (1, g, st1)
  else
    let g2 : Recover_globals :=
      if g.total_ha_2pc > g.opt_bin_log.toNat + 1 then g
      else { g with tc_heuristic_recover := TC_HEURISTIC.TC_HEURISTIC_RECOVER_ROLLBACK }
    let st2 : Recover_state :=
      if g.total_ha_2pc > g.opt_bin_log.toNat + 1 then st1
      else { st1 with info := { st1.info with dry_run := false } }
    match plugin_foreach (xarecover_handlerton alloc_fails g2.tc_heuristic_recover)
        plugins st2 with
    | (true, st3) => (1, g2, st3)
    | (false, st3) =>
      let g3 : Recover_globals :=
        if st3.info.do_binlog_recovery then { g2 with g_did_binlog_recovery := 1 } else g2
      if st3.info.dry_run ∧ st3.info.found_my_xids ≠ 0 then (1, g3, st3)
      else (0, g3, st3)

/-! ## Error codes -/

/-- Modelled from the spec: the error catalogue (mysqld_error.h) is not among
the sources; the codes below are the server's numbers for the mnemonics the
spec lists, and only their being distinct and non-zero matters. -/
def ER_OUTOFMEMORY : Nat := 1037
/-- Error number of ER_LOCK_WAIT_TIMEOUT (see ER_OUTOFMEMORY). -/
def ER_LOCK_WAIT_TIMEOUT : Nat := 1205
/-- Error number of ER_LOCK_DEADLOCK (see ER_OUTOFMEMORY). -/
def ER_LOCK_DEADLOCK : Nat := 1213
/-- Error number of ER_XAER_NOTA (see ER_OUTOFMEMORY). -/
def ER_XAER_NOTA : Nat := 1397
/-- Error number of ER_XAER_INVAL (see ER_OUTOFMEMORY). -/
def ER_XAER_INVAL : Nat := 1398
/-- Error number of ER_XAER_RMFAIL (see ER_OUTOFMEMORY). -/
def ER_XAER_RMFAIL : Nat := 1399
/-- Error number of ER_XAER_OUTSIDE (see ER_OUTOFMEMORY). -/
def ER_XAER_OUTSIDE : Nat := 1400
/-- Error number of ER_XAER_RMERR (see ER_OUTOFMEMORY). -/
def ER_XAER_RMERR : Nat := 1401
/-- Error number of ER_XA_RBROLLBACK (see ER_OUTOFMEMORY). -/
def ER_XA_RBROLLBACK : Nat := 1402
/-- Error number of ER_XAER_DUPID (see ER_OUTOFMEMORY). -/
def ER_XAER_DUPID : Nat := 1440
/-- Error number of ER_XA_RBTIMEOUT (see ER_OUTOFMEMORY). -/
def ER_XA_RBTIMEOUT : Nat := 1613
/-- Error number of ER_XA_RBDEADLOCK (see ER_OUTOFMEMORY). -/
def ER_XA_RBDEADLOCK : Nat := 1614
/-- Error number of ER_XA_RETRY (see ER_OUTOFMEMORY). -/
def ER_XA_RETRY : Nat := 3197
/-- Error number of ER_XA_REPLICATION_FILTERS (see ER_OUTOFMEMORY). -/
def ER_XA_REPLICATION_FILTERS : Nat := 3227

/-! ## XID_STATE and Transaction_ctx -/

/-- The enum XID_STATE::xa_states. -/
inductive xa_states where
  | XA_NOTR
  | XA_ACTIVE
  | XA_IDLE
  | XA_PREPARED
  | XA_ROLLBACK_ONLY
deriving DecidableEq, Repr

/-- Modelled from the spec: the enum behind XID_STATE::set_xa_type is declared
in sql/xa.h, which is not among the sources; the spec gives the two values. -/
inductive xa_type_t where
  | XA_INTERNAL
  | XA_EXTERNAL
deriving DecidableEq, Repr

/-- The options of the XA statements (enum xa_option_words). -/
inductive xa_option_words where
  | XA_NONE
  | XA_JOIN
  | XA_RESUME
  | XA_ONE_PHASE
  | XA_SUSPEND
  | XA_FOR_MIGRATE
deriving DecidableEq, Repr

/-- The class XID_STATE (the mutex m_xa_lock is left out: the embedding is
sequential). -/
structure XID_STATE where
  xa_state : xa_states
  m_xid : XID
  rm_error : Nat
  m_is_binlogged : Bool
  in_recovery : Bool
  m_xa_type : xa_type_t
deriving DecidableEq, Repr

/-- The part of Transaction_ctx the coordinator touches: its XID_STATE and the
session-scope unsafe-rollback flags. -/
structure Transaction_ctx where
  m_xid_state : XID_STATE
  m_unsafe_rollback_flags : Nat
deriving DecidableEq, Repr

/-- Modelled from the spec: the method XID::key of sql/xa.h is not among the
sources. The spec makes the cache key the concatenation of the length prefixes
with gtrid and bqual, so that equal XIDs produce equal keys. -/
def XID.key (x : XID) : Int × Int × List Nat :=
  (x.gtrid_length, x.bqual_length, x.data.take (x.gtrid_length + x.bqual_length).toNat)

/-- Modelled from the spec: the method XID::eq of sql/xa.h is not among the
sources. The spec: two XIDs are equal iff all three fields match
byte-exactly. -/
def XID.eq (x y : XID) : Bool :=
  decide (x.formatID = y.formatID) && decide (x.key = y.key)

/-- Modelled from the spec: the method XID::null of sql/xa.h is not among the
sources; a null XID is one whose format id is -1. -/
def XID.null (x : XID) : XID :=
  { x with formatID := -1 }

/-- Modelled from the spec: the accessors of XID_STATE are declared in sql/xa.h,
which is not among the sources. has_state compares the state. -/
def XID_STATE.has_state (xs : XID_STATE) (s : xa_states) : Bool :=
  decide (xs.xa_state = s)

/-- Modelled from the spec: set_state of sql/xa.h (see has_state). -/
def XID_STATE.set_state (xs : XID_STATE) (s : xa_states) : XID_STATE :=
  { xs with xa_state := s }

/-- Modelled from the spec: has_same_xid of sql/xa.h (see has_state) compares
the stored XID with the given one. -/
def XID_STATE.has_same_xid (xs : XID_STATE) (xid : XID) : Bool :=
  xs.m_xid.eq xid

/-- Modelled from the spec: start_normal_xa of sql/xa.h (see has_state):
postcondition state == ACTIVE, stores xid. -/
def XID_STATE.start_normal_xa (xs : XID_STATE) (xid : XID) : XID_STATE :=
  { xs with xa_state := xa_states.XA_ACTIVE, m_xid := xid }

/-- Modelled from the spec: start_recovery_xa of sql/xa.h (see has_state): a
recovery-owned branch is initialised with state PREPARED, in_recovery set, no
error and the given binlogged flag. -/
def XID_STATE.start_recovery_xa (xs : XID_STATE) (xid : XID) (binlogged_arg : Bool) :
    XID_STATE :=
  { xs with xa_state := xa_states.XA_PREPARED, m_xid := xid, in_recovery := true,
            rm_error := 0, m_is_binlogged := binlogged_arg }

/-- Modelled from the spec: reset of sql/xa.h (see has_state): back to NOTR
with a null XID and the recovery and binlogged flags cleared. -/
def XID_STATE.reset (xs : XID_STATE) : XID_STATE :=
  { xs with xa_state := xa_states.XA_NOTR, m_xid := xs.m_xid.null, in_recovery := false,
            m_is_binlogged := false }

/-- Modelled from the spec: reset_error of sql/xa.h (see has_state). -/
def XID_STATE.reset_error (xs : XID_STATE) : XID_STATE :=
  { xs with rm_error := 0 }

/-- Modelled from the spec: cleanup of sql/xa.h (see has_state): the XID is
forgotten unless a resource-manager error is pending. -/
def XID_STATE.cleanup (xs : XID_STATE) : XID_STATE :=
  if xs.rm_error = 0 then { xs with m_xid := xs.m_xid.null } else xs

/-- Modelled from the spec: set_binlogged of sql/xa.h (see has_state). -/
def XID_STATE.set_binlogged (xs : XID_STATE) : XID_STATE :=
  { xs with m_is_binlogged := true }

/-- Modelled from the spec: unset_binlogged of sql/xa.h (see has_state). -/
def XID_STATE.unset_binlogged (xs : XID_STATE) : XID_STATE :=
  { xs with m_is_binlogged := false }

/-- Modelled from the spec: set_xa_type of sql/xa.h (see has_state). -/
def XID_STATE.set_xa_type (xs : XID_STATE) (t : xa_type_t) : XID_STATE :=
  { xs with m_xa_type := t }

/-- A default-constructed XID_STATE: no transaction, null XID. -/
def XID_STATE.init : XID_STATE :=
  { xa_state := xa_states.XA_NOTR, m_xid := ⟨-1, 0, 0, []⟩, rm_error := 0,
    m_is_binlogged := false, in_recovery := false, m_xa_type := xa_type_t.XA_INTERNAL }

/-- A default-constructed Transaction_ctx. -/
def Transaction_ctx.init : Transaction_ctx :=
  { m_xid_state := XID_STATE.init, m_unsafe_rollback_flags := 0 }

instance : Inhabited XID_STATE := ⟨XID_STATE.init⟩

instance : Inhabited Transaction_ctx := ⟨Transaction_ctx.init⟩

/-! ## Sessions, the server and collaborators -/

/-- A call into a collaborator, recorded in the order made. -/
inductive Call where
  | trans_begin
  | trans_rollback
  | acquire_lock
  | restore_backup (key : Int × Int × List Nat)
  | delete_backup (key : Int × Int × List Nat)
  | ha_prepare
  | ha_rollback_trans
  | ha_commit_trans
  | commit_owned_gtids
  | gtid_state_commit_or_rollback
  | tc_log_commit
  | ha_commit_low
  | engine (c : Engine_call)
deriving DecidableEq, Repr

/-- The process-wide state: the memory holding the Transaction_ctx objects,
the transaction cache (key to address), the next address handed out by new,
the flag inited and the collaborator calls made so far (oldest first). -/
structure Server where
  heap : Nat → Transaction_ctx
  transaction_cache : List ((Int × Int × List Nat) × Nat)
  next_alloc : Nat
  inited : Bool
  calls : List Call

/-- The part of a session (class THD) the coordinator touches. The field da
lists the errors raised in the diagnostics area, oldest first; the field
m_transaction is the address of the session's Transaction_ctx. -/
structure THD where
  m_transaction : Nat
  da : List Nat
  slave_thread : Bool
  locked_tables_mode : Bool
  option_begin : Bool
  status_in_trans : Bool
  status_in_trans_readonly : Bool
  sql_log_bin : Bool
  ignore_durability : Bool
deriving DecidableEq, Repr

/-- The XID_STATE found at an address. -/
def Server.xid_state (srv : Server) (a : Nat) : XID_STATE :=
  (srv.heap a).m_xid_state

/-- Store an XID_STATE at an address. -/
def Server.set_xid_state (srv : Server) (a : Nat) (xs : XID_STATE) : Server :=
  { srv with heap := Function.update srv.heap a { srv.heap a with m_xid_state := xs } }

/-- Modelled from the spec: my_error belongs to the error-reporting
collaborator; it raises an error in the session's diagnostics area. -/
def my_error (code : Nat) (thd : THD) : THD :=
  { thd with da := thd.da ++ [code] }

/-- Modelled from the spec: THD::is_error of sql/sql_class.h: an error has been
raised in the diagnostics area. -/
def THD.is_error (thd : THD) : Bool :=
  !thd.da.isEmpty

/-- Modelled from the spec: the error number of the diagnostics area is that of
the first error raised, 0 when there is none. -/
def THD.mysql_errno (thd : THD) : Nat :=
  thd.da.headD 0

/-- Modelled from the spec: THD::in_active_multi_stmt_transaction of
sql/sql_class.h tests the status bit SERVER_STATUS_IN_TRANS. -/
def THD.in_active_multi_stmt_transaction (thd : THD) : Bool :=
  thd.status_in_trans

/-- The method XID_STATE::set_error. -/
def XID_STATE.set_error (xs : XID_STATE) (thd : THD) : XID_STATE :=
  if xs.xa_state ≠ xa_states.XA_NOTR then { xs with rm_error := thd.mysql_errno } else xs

/-- What a collaborator call does, as far as the coordinator can see: it
succeeds, or it fails; a failing call returns code + 1 (true for a bool),
raises errors in the diagnostics area and may record the error in the
session's XID_STATE through set_error. -/
inductive Outcome where
  | ok
  | fail (code : Nat) (raised : List Nat) (set_error : Bool)
deriving DecidableEq, Repr

/-- The value a collaborator returns: 0 (false) on success. -/
def Outcome.result : Outcome → Int
  | Outcome.ok => 0
  | Outcome.fail code _ _ => (code : Int) + 1

/-- The errors a collaborator raises. -/
def Outcome.raised : Outcome → List Nat
  | Outcome.ok => []
  | Outcome.fail _ raised _ => raised

/-- Whether a collaborator calls set_error on the session's XID_STATE. -/
def Outcome.set_error : Outcome → Bool
  | Outcome.ok => false
  | Outcome.fail _ _ set_error => set_error

/-- The outcomes of the collaborators during one statement, and the server
options the handlers read. -/
structure Collaborators where
  trans_begin : Outcome
  trans_rollback : Outcome
  acquire_lock : Outcome
  restore_backup : Outcome
  ha_prepare : Outcome
  ha_rollback_trans : Outcome
  ha_commit_trans : Outcome
  commit_owned_gtids : Outcome
  tc_log : Bool
  tc_log_commit : Outcome
  ha_commit_low : Outcome
  is_transaction_empty : Bool
  opt_log_slave_updates : Bool
  opt_bin_log : Bool
  new_fails : Bool
  plugins : List handlerton

/-- Run a collaborator: record the call, raise its errors, let it record the
error in the session's XID_STATE, and hand back its result. -/
def collab (c : Call) (o : Outcome) (srv : Server) (thd : THD) : Int × Server × THD :=
  let thd1 : THD := { thd with da := thd.da ++ o.raised }
  let srv1 : Server := { srv with calls := srv.calls ++ [c] }
  let srv2 : Server :=
    if o.set_error then
      srv1.set_xid_state thd.m_transaction ((srv1.xid_state thd.m_transaction).set_error thd1)
    else srv1
  (o.result, srv2, thd1)

/-! ## The transaction cache -/

/-- The lookup transaction_cache.find(key). -/
def cache_find (k : Int × Int × List Nat) :
    List ((Int × Int × List Nat) × Nat) → Option Nat
  | [] => none
  | (k1, a) :: rest => if k1 = k then some a else cache_find k rest

/-- The removal transaction_cache.erase(key). -/
def cache_erase (k : Int × Int × List Nat) (c : List ((Int × Int × List Nat) × Nat)) :
    List ((Int × Int × List Nat) × Nat) :=
  c.filter (fun e => decide (e.1 ≠ k))

/-- The insertion transaction_cache.emplace(key, ptr): nothing is inserted when
the key is present; the flag tells whether the insertion took place. -/
def cache_emplace (k : Int × Int × List Nat) (a : Nat)
    (c : List ((Int × Int × List Nat) × Nat)) :
    List ((Int × Int × List Nat) × Nat) × Bool :=
  match cache_find k c with
  | some _ => (c, false)
  | none => (c ++ [(k, a)], true)

/-- The function transaction_cache_init. -/
def transaction_cache_init (srv : Server) : Bool × Server :=
  (false, { srv with inited := true })

/-- The function transaction_cache_free. -/
def transaction_cache_free (srv : Server) : Server :=
  if srv.inited then { srv with transaction_cache := [] } else srv

/-- The function transaction_cache_search. -/
def transaction_cache_search (xid : XID) (srv : Server) : Option Nat :=
  cache_find xid.key srv.transaction_cache

/-- The function transaction_cache_insert. -/
def transaction_cache_insert (xid : XID) (transaction : Nat) (srv : Server) (thd : THD) :
    Bool × Server × THD :=
  let r := cache_emplace xid.key transaction srv.transaction_cache
  let res := !r.2
  let srv1 : Server := { srv with transaction_cache := r.1 }
  if res then (res, srv1, my_error ER_XAER_DUPID thd) else (res, srv1, thd)

/-- The function create_and_insert_new_transaction. The flag new_fails tells
whether the allocation of the Transaction_ctx fails; the third component of
the result lists the errors raised. -/
def create_and_insert_new_transaction (new_fails : Bool) (xid : XID) (is_binlogged_arg : Bool)
    (srv : Server) : Bool × Server × List Nat :=
  if new_fails then (true, srv, [ER_OUTOFMEMORY])
  else
    let transaction := srv.next_alloc
    let xs := (Transaction_ctx.init.m_xid_state).start_recovery_xa xid is_binlogged_arg
    let srv1 : Server :=
      { srv with heap := (Function.update srv.heap transaction
                   { Transaction_ctx.init with m_xid_state := xs })
                 next_alloc := srv.next_alloc + 1 }
    let r := cache_emplace xs.m_xid.key transaction srv1.transaction_cache
    (!r.2, { srv1 with transaction_cache := r.1 }, [])

/-- The function transaction_cache_detach. -/
def transaction_cache_detach (new_fails : Bool) (transaction : Nat) (srv : Server) :
    Bool × Server × List Nat :=
  let xs := srv.xid_state transaction
  let xid := xs.m_xid
  let was_logged := xs.m_is_binlogged
  let srv1 : Server :=
    { srv with transaction_cache := cache_erase xid.key srv.transaction_cache }
  create_and_insert_new_transaction new_fails xid was_logged srv1

/-- The function transaction_cache_insert_recovery. -/
def transaction_cache_insert_recovery (new_fails : Bool) (xid : XID) (srv : Server) :
    Bool × Server × List Nat :=
  if (cache_find xid.key srv.transaction_cache).isSome then (false, srv, [])
  else create_and_insert_new_transaction new_fails xid true srv

/-- The function transaction_cache_delete. -/
def transaction_cache_delete (transaction : Nat) (srv : Server) : Server :=
  let k := (srv.xid_state transaction).m_xid.key
  match cache_find k srv.transaction_cache with
  | some a =>
    if a = transaction then
      { srv with transaction_cache := cache_erase k srv.transaction_cache }
    else srv
  | none => srv

/-- The method Recovered_xa_transactions::recover_prepared_xa_transactions, its
loop: every retained branch is inserted into the cache, then its MDL backup is
created (create_backup_fails tells for which branch that fails); the loop
stops at the first failure, leaving that branch at the front of the list. -/
def recover_prepared_loop (new_fails : Bool) (create_backup_fails : XA_recover_txn → Bool) :
    List XA_recover_txn → Server → Bool × List XA_recover_txn × Server
  | [], srv => (false, [], srv)
  | prepared_xa_trn :: rest, srv =>
    let srv1 := (transaction_cache_insert_recovery new_fails prepared_xa_trn.id srv).2.1
    if create_backup_fails prepared_xa_trn then (true, prepared_xa_trn :: rest, srv1)
    else recover_prepared_loop new_fails create_backup_fails rest srv1

/-- The method Recovered_xa_transactions::recover_prepared_xa_transactions. -/
def Recovered_xa_transactions.recover_prepared_xa_transactions (new_fails : Bool)
    (create_backup_fails : XA_recover_txn → Bool) (r : Recovered_xa_transactions)
    (srv : Server) : Bool × Recovered_xa_transactions × Server :=
  if r.m_mem_root_inited then
    let res := recover_prepared_loop new_fails create_backup_fails r.m_prepared_xa_trans srv
    (res.1, { m_prepared_xa_trans := res.2.1, m_mem_root_inited := false }, res.2.2)
  else (false, r, srv)

/-! ## Session command handlers -/

/-- The method XID_STATE::xa_trans_rolled_back (debug hooks left out): the
result, the XID_STATE afterwards and the session with the error raised. -/
def XID_STATE.xa_trans_rolled_back (xs : XID_STATE) (thd : THD) : Bool × XID_STATE × THD :=
  if xs.rm_error ≠ 0 then
    let thd1 :=
      if xs.rm_error = ER_LOCK_WAIT_TIMEOUT then my_error ER_XA_RBTIMEOUT thd
      else if xs.rm_error = ER_LOCK_DEADLOCK then my_error ER_XA_RBDEADLOCK thd
      else my_error ER_XA_RBROLLBACK thd
    (true, { xs with xa_state := xa_states.XA_ROLLBACK_ONLY }, thd1)
  else (decide (xs.xa_state = xa_states.XA_ROLLBACK_ONLY), xs, thd)

/-- The call xid_state->xa_trans_rolled_back() on the XID_STATE stored at an
address. -/
def xa_trans_rolled_back_at (a : Nat) (srv : Server) (thd : THD) : Bool × Server × THD :=
  let r := (srv.xid_state a).xa_trans_rolled_back thd
  (r.1, srv.set_xid_state a r.2.1, r.2.2)

/-- The function xa_trans_force_rollback. -/
def xa_trans_force_rollback (env : Collaborators) (srv : Server) (thd : THD) :
    Bool × Server × THD :=
  let srv1 := srv.set_xid_state thd.m_transaction (srv.xid_state thd.m_transaction).reset_error
  let r := collab Call.ha_rollback_trans env.ha_rollback_trans srv1 thd
  if r.1 ≠ 0 then (true, r.2.1, my_error ER_XAER_RMERR r.2.2)
  else (false, r.2.1, r.2.2)

/-- The function cleanup_trans_state. -/
def cleanup_trans_state (srv : Server) (thd : THD) : Server × THD :=
  let thd1 : THD := { thd with option_begin := false, status_in_trans := false,
                               status_in_trans_readonly := false }
  let srv1 : Server :=
    { srv with heap := (Function.update srv.heap thd.m_transaction
        { srv.heap thd.m_transaction with m_unsafe_rollback_flags := 0 }) }
  (transaction_cache_delete thd.m_transaction srv1, thd1)

/-- The function find_trn_for_recover_and_check_its_state: the address found,
or none with an error raised. -/
def find_trn_for_recover_and_check_its_state (xid_for_trn_in_recover : XID) (srv : Server)
    (thd : THD) : Option Nat × THD :=
  if !(srv.xid_state thd.m_transaction).has_state xa_states.XA_NOTR then
    (none, my_error ER_XAER_RMFAIL thd)
  else
    match transaction_cache_search xid_for_trn_in_recover srv with
    | none => (none, my_error ER_XAER_NOTA thd)
    | some transaction =>
      if !(srv.xid_state transaction).in_recovery then (none, my_error ER_XAER_NOTA thd)
      else if thd.in_active_multi_stmt_transaction then (none, my_error ER_XAER_RMFAIL thd)
      else (some transaction, thd)

/-- The function acquire_mandatory_metadata_locks. -/
def acquire_mandatory_metadata_locks (env : Collaborators) (external_xid : XID) (srv : Server)
    (thd : THD) : Bool × Server × THD :=
  let r := collab Call.acquire_lock env.acquire_lock srv thd
  if r.1 ≠ 0 then (true, r.2.1, r.2.2)
  else
    let b := collab (Call.restore_backup external_xid.key) env.restore_backup r.2.1 r.2.2
    if b.1 ≠ 0 then (true, b.2.1, b.2.2) else (false, b.2.1, b.2.2)

/-- The function xacommit_handlerton. -/
def xacommit_handlerton (xid : XID) (hton : handlerton) (st : Server × THD) :
    Bool × (Server × THD) :=
  if hton.state = SHOW_COMP_OPTION.SHOW_OPTION_YES ∧ hton.recover.isSome then
    let ret := hton.commit_by_xid xid
    let srv1 : Server :=
      { st.1 with calls := st.1.calls ++ [Call.engine (Engine_call.commit_by_xid hton.slot xid)] }
    if ret ≠ xa_status_code.XA_OK ∧ ret ≠ xa_status_code.XAER_NOTA then
      (true, (srv1, my_error ER_XAER_RMERR st.2))
    else (false, (srv1, st.2))
  else (false, st)

/-- The function xarollback_handlerton. -/
def xarollback_handlerton (xid : XID) (hton : handlerton) (st : Server × THD) :
    Bool × (Server × THD) :=
  if hton.state = SHOW_COMP_OPTION.SHOW_OPTION_YES ∧ hton.recover.isSome then
    let ret := hton.rollback_by_xid xid
    let srv1 : Server :=
      { st.1 with calls := st.1.calls ++
          [Call.engine (Engine_call.rollback_by_xid hton.slot xid)] }
    if ret ≠ xa_status_code.XA_OK ∧ ret ≠ xa_status_code.XAER_NOTA then
      (true, (srv1, my_error ER_XAER_RMERR st.2))
    else (false, (srv1, st.2))
  else (false, st)

/-- The function ha_commit_or_rollback_by_xid. -/
def ha_commit_or_rollback_by_xid (env : Collaborators) (xid : XID) (commit : Bool)
    (srv : Server) (thd : THD) : Bool × Server × THD :=
  let r := plugin_foreach (if commit then xacommit_handlerton xid else xarollback_handlerton xid)
    env.plugins (srv, thd)
  (r.1, r.2.1, r.2.2)

/-- Record a call of a collaborator that returns nothing. -/
def note_call (c : Call) (srv : Server) : Server :=
  { srv with calls := srv.calls ++ [c] }

/-- The method Sql_cmd_xa_commit::process_external_xa_commit. -/
def process_external_xa_commit (env : Collaborators) (external_xid : XID) (srv : Server)
    (thd : THD) : Bool × Server × THD :=
  match find_trn_for_recover_and_check_its_state external_xid srv thd with
  | (none, thd1) => (true, srv, thd1)
  | (some transaction, thd1) =>
    let rb := xa_trans_rolled_back_at transaction srv thd1
    match find_trn_for_recover_and_check_its_state external_xid rb.2.1 rb.2.2 with
    | (none, thd2) => (true, rb.2.1, thd2)
    | (some _, thd2) =>
      let m := acquire_mandatory_metadata_locks env external_xid rb.2.1 thd2
      if m.1 then (true, m.2.1, my_error ER_XA_RETRY m.2.2)
      else
        let g := collab Call.commit_owned_gtids env.commit_owned_gtids m.2.1 m.2.2
        let gtid_error := decide (g.1 ≠ 0)
        let thd3 := if gtid_error then my_error ER_XA_RBROLLBACK g.2.2 else g.2.2
        let res := rb.1 || gtid_error
        let own := thd.m_transaction
        let srv3 :=
          if (g.2.1.xid_state transaction).m_is_binlogged then
            g.2.1.set_xid_state own (g.2.1.xid_state own).set_binlogged
          else g.2.1.set_xid_state own (g.2.1.xid_state own).unset_binlogged
        let h := ha_commit_or_rollback_by_xid env external_xid (!res) srv3 thd3
        let res1 := h.1 || res
        let srv4 := h.2.1.set_xid_state own (h.2.1.xid_state own).unset_binlogged
        let srv5 := note_call (Call.delete_backup external_xid.key) srv4
        let srv6 := transaction_cache_delete transaction srv5
        let srv7 := note_call Call.gtid_state_commit_or_rollback srv6
        (res1, srv7, h.2.2)

/-- The method Sql_cmd_xa_commit::process_internal_xa_commit (performance
schema and session tracker calls left out). -/
def process_internal_xa_commit (env : Collaborators) (m_xa_opt : xa_option_words)
    (srv : Server) (thd : THD) : Bool × Server × THD :=
  let own := thd.m_transaction
  let finish := fun (res : Bool) (srv1 : Server) (thd1 : THD) =>
    let srv2 := note_call Call.gtid_state_commit_or_rollback srv1
    let c := cleanup_trans_state srv2 thd1
    let srv3 := c.1.set_xid_state own ((c.1.xid_state own).set_state xa_states.XA_NOTR)
    let srv4 := srv3.set_xid_state own (srv3.xid_state own).unset_binlogged
    (res, srv4, c.2)
  let rb := xa_trans_rolled_back_at own srv thd
  if rb.1 then
    let f := xa_trans_force_rollback env rb.2.1 rb.2.2
    finish f.2.2.is_error f.2.1 f.2.2
  else if (rb.2.1.xid_state own).has_state xa_states.XA_IDLE ∧
      m_xa_opt = xa_option_words.XA_ONE_PHASE then
    let r := collab Call.ha_commit_trans env.ha_commit_trans rb.2.1 rb.2.2
    if r.1 ≠ 0 then
      finish true r.2.1
        (my_error (if r.1 = 1 then ER_XA_RBROLLBACK else ER_XAER_RMERR) r.2.2)
    else finish false r.2.1 r.2.2
  else if (rb.2.1.xid_state own).has_state xa_states.XA_PREPARED ∧
      m_xa_opt = xa_option_words.XA_NONE then
    let l := collab Call.acquire_lock env.acquire_lock rb.2.1 rb.2.2
    if l.1 ≠ 0 then (true, l.2.1, my_error ER_XA_RETRY l.2.2)
    else
      let g := collab Call.commit_owned_gtids env.commit_owned_gtids l.2.1 l.2.2
      if g.1 ≠ 0 then
        let r := collab Call.ha_rollback_trans env.ha_rollback_trans g.2.1 g.2.2
        finish true r.2.1 (my_error ER_XAER_RMERR r.2.2)
      else
        let r :=
          if env.tc_log then collab Call.tc_log_commit env.tc_log_commit g.2.1 g.2.2
          else collab Call.ha_commit_low env.ha_commit_low g.2.1 g.2.2
        if r.1 ≠ 0 then finish true r.2.1 (my_error ER_XAER_RMERR r.2.2)
        else finish false r.2.1 r.2.2
  else (true, rb.2.1, my_error ER_XAER_RMFAIL rb.2.2)

/-- The method Sql_cmd_xa_commit::trans_xa_commit. -/
def trans_xa_commit (env : Collaborators) (m_xid : XID) (m_xa_opt : xa_option_words)
    (srv : Server) (thd : THD) : Bool × Server × THD :=
  if !(srv.xid_state thd.m_transaction).has_same_xid m_xid then
    process_external_xa_commit env m_xid srv thd
  else process_internal_xa_commit env m_xa_opt srv thd

/-- The method Sql_cmd_xa_rollback::process_external_xa_rollback. -/
def process_external_xa_rollback (env : Collaborators) (external_xid : XID) (srv : Server)
    (thd : THD) : Bool × Server × THD :=
  match find_trn_for_recover_and_check_its_state external_xid srv thd with
  | (none, thd1) => (true, srv, thd1)
  | (some transaction, thd1) =>
    match find_trn_for_recover_and_check_its_state external_xid srv thd1 with
    | (none, thd2) => (true, srv, thd2)
    | (some _, thd2) =>
      let m := acquire_mandatory_metadata_locks env external_xid srv thd2
      if m.1 then (true, m.2.1, my_error ER_XAER_RMERR m.2.2)
      else
        let g := collab Call.commit_owned_gtids env.commit_owned_gtids m.2.1 m.2.2
        let gtid_error := decide (g.1 ≠ 0)
        let thd3 := if gtid_error then my_error ER_XA_RBROLLBACK g.2.2 else g.2.2
        let rb := xa_trans_rolled_back_at transaction g.2.1 thd3
        let own := thd.m_transaction
        let srv3 :=
          if (rb.2.1.xid_state transaction).m_is_binlogged then
            rb.2.1.set_xid_state own (rb.2.1.xid_state own).set_binlogged
          else rb.2.1.set_xid_state own (rb.2.1.xid_state own).unset_binlogged
        let h := ha_commit_or_rollback_by_xid env external_xid false srv3 rb.2.2
        let res := h.1 || rb.1
        let srv4 := h.2.1.set_xid_state own (h.2.1.xid_state own).unset_binlogged
        let srv5 := note_call (Call.delete_backup external_xid.key) srv4
        let srv6 := transaction_cache_delete transaction srv5
        let srv7 := note_call Call.gtid_state_commit_or_rollback srv6
        (res || gtid_error, srv7, h.2.2)

/-- The method Sql_cmd_xa_rollback::process_internal_xa_rollback (debug hooks,
performance schema and session tracker calls left out). -/
def process_internal_xa_rollback (env : Collaborators) (srv : Server) (thd : THD) :
    Bool × Server × THD :=
  let own := thd.m_transaction
  if (srv.xid_state own).has_state xa_states.XA_NOTR ∨
      (srv.xid_state own).has_state xa_states.XA_ACTIVE then
    (true, srv, my_error ER_XAER_RMFAIL thd)
  else
    let l := collab Call.acquire_lock env.acquire_lock srv thd
    if l.1 ≠ 0 then (true, l.2.1, my_error ER_XAER_RMERR l.2.2)
    else
      let g := collab Call.commit_owned_gtids env.commit_owned_gtids l.2.1 l.2.2
      let gtid_error := decide (g.1 ≠ 0)
      let f := xa_trans_force_rollback env g.2.1 g.2.2
      let res := f.1 || gtid_error
      let srv2 := note_call Call.gtid_state_commit_or_rollback f.2.1
      let c := cleanup_trans_state srv2 f.2.2
      let srv3 := c.1.set_xid_state own ((c.1.xid_state own).set_state xa_states.XA_NOTR)
      let srv4 := srv3.set_xid_state own (srv3.xid_state own).unset_binlogged
      (res, srv4, c.2)

/-- The method Sql_cmd_xa_rollback::trans_xa_rollback. -/
def trans_xa_rollback (env : Collaborators) (m_xid : XID) (srv : Server) (thd : THD) :
    Bool × Server × THD :=
  if !(srv.xid_state thd.m_transaction).has_same_xid m_xid then
    process_external_xa_rollback env m_xid srv thd
  else process_internal_xa_rollback env srv thd

/-- The conversion of a long to size_t. -/
def size_t_of (i : Int) : Nat :=
  (i % (2 ^ 64 : Int)).toNat

/-- The loop of strnchr from index i with n - i iterations left; bytes past the
end of the list read as NUL. -/
def strnchr_loop (c : Nat) : List Nat → Nat → Nat → Option Nat
  | [], _, _ => none
  | b :: rest, left, i =>
    if left = 0 then none
    else if b = 0 then none
    else if b = c then some i
    else strnchr_loop c rest (left - 1) (i + 1)

/-- The function strnchr: the index of the first byte equal to c among the
first n bytes of str, stopping at a NUL byte; none stands for NULL. -/
def strnchr (str : List Nat) (c : Nat) (n : Nat) : Option Nat :=
  strnchr_loop c str n 0

/-- The method Sql_cmd_xa_start::trans_xa_start (performance schema calls left
out). -/
def trans_xa_start (env : Collaborators) (m_xid : XID) (m_xa_opt : xa_option_words)
    (srv : Server) (thd : THD) : Bool × Server × THD :=
  let own := thd.m_transaction
  if (srv.xid_state own).has_state xa_states.XA_IDLE ∧
      m_xa_opt = xa_option_words.XA_RESUME then
    let not_equal := !(srv.xid_state own).has_same_xid m_xid
    if not_equal then (not_equal, srv, my_error ER_XAER_NOTA thd)
    else
      (not_equal,
        srv.set_xid_state own ((srv.xid_state own).set_state xa_states.XA_ACTIVE), thd)
  else
    let finish := fun (is_valid_xid : Bool) (srv1 : Server) (thd1 : THD) =>
      (!is_valid_xid || thd1.is_error ||
        !(srv1.xid_state own).has_state xa_states.XA_ACTIVE, srv1, thd1)
    if m_xa_opt ≠ xa_option_words.XA_NONE then finish true srv (my_error ER_XAER_INVAL thd)
    else if !(srv.xid_state own).has_state xa_states.XA_NOTR then
      finish true srv (my_error ER_XAER_RMFAIL thd)
    else if thd.locked_tables_mode ∨ thd.in_active_multi_stmt_transaction then
      finish true srv (my_error ER_XAER_OUTSIDE thd)
    else if (strnchr m_xid.data 124
        (size_t_of (m_xid.bqual_length + m_xid.gtrid_length))).isSome then
      finish false srv (my_error ER_XAER_INVAL thd)
    else
      let b := collab Call.trans_begin env.trans_begin srv thd
      if b.1 = 0 then
        let srv1 := b.2.1.set_xid_state own ((b.2.1.xid_state own).start_normal_xa m_xid)
        let srv2 := srv1.set_xid_state own
          ((srv1.xid_state own).set_xa_type xa_type_t.XA_EXTERNAL)
        let i := transaction_cache_insert m_xid own srv2 b.2.2
        if i.1 then
          let srv3 := i.2.1.set_xid_state own (i.2.1.xid_state own).reset
          let r := collab Call.trans_rollback env.trans_rollback srv3 i.2.2
          finish true r.2.1 r.2.2
        else finish true i.2.1 i.2.2
      else finish true b.2.1 b.2.2

/-- The method Sql_cmd_xa_end::trans_xa_end (performance schema calls left
out). -/
def trans_xa_end (m_xid : XID) (m_xa_opt : xa_option_words) (srv : Server) (thd : THD) :
    Bool × Server × THD :=
  let own := thd.m_transaction
  let finish := fun (srv1 : Server) (thd1 : THD) =>
    (thd1.is_error || !(srv1.xid_state own).has_state xa_states.XA_IDLE, srv1, thd1)
  if m_xa_opt ≠ xa_option_words.XA_NONE then finish srv (my_error ER_XAER_INVAL thd)
  else if !(srv.xid_state own).has_state xa_states.XA_ACTIVE then
    finish srv (my_error ER_XAER_RMFAIL thd)
  else if !(srv.xid_state own).has_same_xid m_xid then
    finish srv (my_error ER_XAER_NOTA thd)
  else
    let rb := xa_trans_rolled_back_at own srv thd
    if !rb.1 then
      finish (rb.2.1.set_xid_state own ((rb.2.1.xid_state own).set_state xa_states.XA_IDLE))
        rb.2.2
    else finish rb.2.1 rb.2.2

/-- The method Sql_cmd_xa_prepare::trans_xa_prepare (performance schema and
GTID notification calls left out). -/
def trans_xa_prepare (env : Collaborators) (m_xid : XID) (srv : Server) (thd : THD) :
    Bool × Server × THD :=
  let own := thd.m_transaction
  let finish := fun (srv1 : Server) (thd1 : THD) =>
    (thd1.is_error || !(srv1.xid_state own).has_state xa_states.XA_PREPARED, srv1, thd1)
  if !(srv.xid_state own).has_state xa_states.XA_IDLE then
    finish srv (my_error ER_XAER_RMFAIL thd)
  else if !(srv.xid_state own).has_same_xid m_xid then
    finish srv (my_error ER_XAER_NOTA thd)
  else if thd.slave_thread ∧ env.is_transaction_empty then
    finish srv (my_error ER_XA_REPLICATION_FILTERS thd)
  else
    let thd0 : THD :=
      if (!thd.slave_thread || env.opt_log_slave_updates) && env.opt_bin_log &&
          thd.sql_log_bin then { thd with ignore_durability := true }
      else thd
    let l := collab Call.acquire_lock env.acquire_lock srv thd0
    let p :=
      if l.1 ≠ 0 then l else collab Call.ha_prepare env.ha_prepare l.2.1 l.2.2
    if p.1 ≠ 0 then
      let r :=
        if l.1 ≠ 0 then collab Call.ha_rollback_trans env.ha_rollback_trans p.2.1 p.2.2
        else p
      let srv1 := r.2.1.set_xid_state own (r.2.1.xid_state own).reset_error
      let c := cleanup_trans_state srv1 r.2.2
      let srv2 := c.1.set_xid_state own ((c.1.xid_state own).set_state xa_states.XA_NOTR)
      let srv3 := srv2.set_xid_state own (srv2.xid_state own).cleanup
      finish srv3 (my_error ER_XA_RBROLLBACK c.2)
    else
      finish (p.2.1.set_xid_state own ((p.2.1.xid_state own).set_state xa_states.XA_PREPARED))
        p.2.2

/-! ## XID text forms -/

/-- The C library test isdigit on a byte. -/
def isdigit (c : Nat) : Bool :=
  decide (48 ≤ c ∧ c ≤ 57)

/-- The C library test isspace on a byte. -/
def isspace (c : Nat) : Bool :=
  decide (c = 32 ∨ (9 ≤ c ∧ c ≤ 13))

/-- The int computed for one hex character by the parser:
buf[i] - (isdigit(buf[i]) ? '0' : 'a' - 10). -/
def hex_nibble (c : Nat) : Int :=
  (c : Int) - (if isdigit c then 48 else 87)

/-- The byte left in dat[j] by the body of the hex loops of deserialize_xid:
dat[j] = n1; dat[j] <<= 4; dat[j] |= n2, on an 8-bit char. -/
def hex_byte (c1 c2 : Nat) : Nat :=
  (((hex_nibble c1 % 256).toNat * 16) % 256) ||| (hex_nibble c2 % 256).toNat

/-- One hex loop of deserialize_xid, started at index i with the bytes written
so far: the index where it stops and the bytes written. The result is none
when the loop reads outside the buffer. The fuel bounds the number of
iterations and is never exhausted when it exceeds the length of the buffer. -/
def hex_loop (buf : List Nat) : Nat → Nat → List Nat → Option (Nat × List Nat)
  | 0, _, _ => none
  | fuel + 1, i, dat =>
    match buf[i]? with
    | none => none
    | some c =>
      if c = 0 ∨ c = 39 then some (i, dat)
      else
        match buf[i + 1]? with
        | none => none
        | some c2 => hex_loop buf fuel (i + 2) (dat ++ [hex_byte c c2])

/-- The reinterpretation of an unsigned 64-bit value as a long. -/
def to_long (u : Nat) : Int :=
  if u % 2 ^ 64 < 2 ^ 63 then ((u % 2 ^ 64 : Nat) : Int) else ((u % 2 ^ 64 : Nat) : Int) - 2 ^ 64

/-- The C library call sscanf(s, "%lu", &fmt) on a long: leading white space,
an optional sign and decimal digits; the value stored, or none when no digit
is found and fmt is left as it was. A number that overflows is stored as
ULONG_MAX whatever its sign; otherwise a minus sign negates the value. -/
def sscanf_lu (s : List Nat) : Option Int :=
  let s1 := s.dropWhile isspace
  let neg := decide (s1.head? = some 45)
  let s2 := if s1.head? = some 45 ∨ s1.head? = some 43 then s1.tail else s1
  let ds := s2.takeWhile isdigit
  if ds = [] then none
  else
    let v := ds.foldl (fun acc d => acc * 10 + (d - 48)) 0
    if v ≥ 2 ^ 64 then some (to_long (2 ^ 64 - 1))
    else some (to_long (if neg then 2 ^ 64 - v else v))

/-- The C library function strlen: the index of the first NUL byte; none when
the buffer holds no NUL. -/
def strlen : List Nat → Option Nat
  | [] => none
  | c :: rest => if c = 0 then some 0 else (strlen rest).map (· + 1)

/-- The outputs of deserialize_xid: the returned bool and the values left in
fmt, gln, bln (none when not assigned) and the bytes written to dat from index
0 on. -/
structure Deserialized where
  ret : Bool
  fmt : Option Int
  gln : Option Int
  bln : Option Int
  dat : List Nat
deriving DecidableEq, Repr

/-- The function deserialize_xid on a buffer (the bytes of the string with its
terminating NUL). The result is none when the function reads outside the
buffer. -/
def deserialize_xid (ddc_mode : Bool) (buf : List Nat) : Option Deserialized :=
  if ddc_mode then
    match strlen buf with
    | none => none
    | some bufl =>
      if bufl < 3 ∨ buf[0]? ≠ some 39 ∨ buf[bufl - 1]? ≠ some 39 then
        some { ret := true, fmt := none, gln := none, bln := none, dat := [] }
      else
        some { ret := false, fmt := none, gln := some ((bufl : Int) - 2), bln := some 0,
               dat := (buf.drop 1).take (bufl - 2) }
  else
    match buf[0]? with
    | none => none
    | some b0 =>
      if b0 ≠ 88 then some { ret := true, fmt := none, gln := none, bln := none, dat := [] }
      else
        match buf[1]? with
        | none => none
        | some b1 =>
          if b1 ≠ 39 then
            some { ret := true, fmt := none, gln := none, bln := none, dat := [] }
          else
            match hex_loop buf (buf.length + 1) 2 [] with
            | none => none
            | some (i, dat) =>
              let gln : Int := ((i : Int) - 2) / 2
              if buf[i]? = some 0 then
                some { ret := true, fmt := none, gln := some gln, bln := none, dat := dat }
              else if buf[i + 1]? = none then none
              else if buf[i + 1]? ≠ some 44 then
                some { ret := true, fmt := none, gln := some gln, bln := none, dat := dat }
              else if buf[i + 2]? = none then none
              else if buf[i + 2]? ≠ some 88 then
                some { ret := true, fmt := none, gln := some gln, bln := none, dat := dat }
              else if buf[i + 3]? = none then none
              else if buf[i + 3]? ≠ some 39 then
                some { ret := true, fmt := none, gln := some gln, bln := none, dat := dat }
              else
                match hex_loop buf (buf.length + 1) (i + 4) dat with
                | none => none
                | some (i2, dat2) =>
                  let bln : Int := (i2 : Int) - 4 - gln
                  if buf[i2 + 1]? = none then none
                  else if buf[i2 + 1]? ≠ some 44 then
                    some { ret := true, fmt := none, gln := some gln, bln := some bln,
                           dat := dat2 }
                  else if buf[i2 + 2]? = none then none
                  else if buf[i2 + 2]? = some 0 then
                    some { ret := true, fmt := none, gln := some gln, bln := some bln,
                           dat := dat2 }
                  else
                    some { ret := false, fmt := sscanf_lu (buf.drop (i2 + 2)),
                           gln := some gln, bln := some bln, dat := dat2 }

/-- A lowercase hex digit. -/
def hex_digit_lower (n : Nat) : Nat :=
  if n < 10 then 48 + n else 87 + n

/-- The lowercase hex text of a byte string, two digits per byte. -/
def hex_lower : List Nat → List Nat
  | [] => []
  | b :: rest => hex_digit_lower (b / 16) :: hex_digit_lower (b % 16) :: hex_lower rest

/-- The decimal digits of a natural number, most significant first; the fuel
bounds the number of digits. -/
def decimal_digits : Nat → Nat → List Nat
  | 0, _ => []
  | fuel + 1, n => if n < 10 then [48 + n] else decimal_digits fuel (n / 10) ++ [48 + n % 10]

/-- Modelled from the spec: the method XID::serialize of sql/xa.h is not among
the sources. The literal form is X'<hex-gtrid>',X'<hex-bqual>',<formatID>,
with lowercase hex and the format id in decimal as an unsigned long. -/
def XID.serialize (x : XID) : List Nat :=
  [88, 39] ++ hex_lower (x.data.take x.gtrid_length.toNat) ++ [39, 44, 88, 39] ++
    hex_lower ((x.data.drop x.gtrid_length.toNat).take x.bqual_length.toNat) ++ [39, 44] ++
    decimal_digits 20 (size_t_of x.formatID)

/-! ## XA RECOVER -/

/-- A row of the result set of XA RECOVER, as stored by store_xid_info. -/
structure Xid_row where
  formatID : Int
  gtrid_length : Int
  bqual_length : Int
  data : List Nat
deriving DecidableEq, Repr

/-- The method XID_STATE::store_xid_info. The function bin_to_hex_str belongs
to another translation unit and is taken as a parameter. -/
def XID_STATE.store_xid_info (bin_to_hex_str : List Nat → List Nat) (xs : XID_STATE)
    (print_xid_as_hex : Bool) : Xid_row :=
  { formatID := xs.m_xid.formatID, gtrid_length := xs.m_xid.gtrid_length,
    bqual_length := xs.m_xid.bqual_length,
    data :=
      if print_xid_as_hex then
        [48, 120] ++ bin_to_hex_str
          (xs.m_xid.data.take (xs.m_xid.gtrid_length + xs.m_xid.bqual_length).toNat)
      else xs.m_xid.data.take (xs.m_xid.gtrid_length + xs.m_xid.bqual_length).toNat }

/-- The loop of trans_xa_recover over the entries of the cache: the rows sent
so far grow by one for every PREPARED entry that passes the XID filter; the
loop returns true when end_row fails (end_row_fails tells for which row
number). -/
def trans_xa_recover_loop (end_row_fails : Nat → Bool) (bin_to_hex_str : List Nat → List Nat)
    (m_xid : Option XID) (m_print_xid_as_hex : Bool) (srv : Server) :
    List ((Int × Int × List Nat) × Nat) → List Xid_row → Bool × List Xid_row
  | [], rows => (false, rows)
  | (_, transaction) :: rest, rows =>
    let xs := srv.xid_state transaction
    if xs.has_state xa_states.XA_PREPARED ∧
        (match m_xid with
         | none => true
         | some xid => xs.m_xid.eq xid) = true then
      if end_row_fails rows.length then (true, rows)
      else
        trans_xa_recover_loop end_row_fails bin_to_hex_str m_xid m_print_xid_as_hex srv rest
          (rows ++ [xs.store_xid_info bin_to_hex_str m_print_xid_as_hex])
    else
      trans_xa_recover_loop end_row_fails bin_to_hex_str m_xid m_print_xid_as_hex srv rest rows

/-- The method Sql_cmd_xa_recover::trans_xa_recover: the returned bool and the
rows sent to the client. The cache is only read. -/
def trans_xa_recover (send_result_metadata_fails : Bool) (end_row_fails : Nat → Bool)
    (bin_to_hex_str : List Nat → List Nat) (m_xid : Option XID) (m_print_xid_as_hex : Bool)
    (srv : Server) : Bool × List Xid_row :=
  if send_result_metadata_fails then (true, [])
  else
    trans_xa_recover_loop end_row_fails bin_to_hex_str m_xid m_print_xid_as_hex srv
      srv.transaction_cache []

/-! ## The registry of prepared ids -/

/-- The function get_xa_txnid: the string built from the data of the XID and
its gtrid length. -/
def get_xa_txnid (xid : XID) : List Nat :=
  xid.xid_data

/-- Modelled from the spec: the class Prepared_xa_txnids of sql/xa.h is not
among the sources. The registry is a fixed array of NSLOTS slots, each holding
a set of ids (the member txnids of the slot, in iteration order). -/
structure Prepared_xa_txnids where
  m_slots : List (List (List Nat))
deriving DecidableEq, Repr

/-- Modelled from the spec: add_id of sql/xa.h is not among the sources. The id
is hashed into its slot and inserted into the set of that slot; the hash
function is a parameter. -/
def Prepared_xa_txnids.add_id (hash : List Nat → Nat) (reg : Prepared_xa_txnids)
    (id : List Nat) : Prepared_xa_txnids :=
  { m_slots := reg.m_slots.set (hash id % reg.m_slots.length)
      (set_insert (reg.m_slots.getD (hash id % reg.m_slots.length) []) id) }

/-- Modelled from the spec: del_id of sql/xa.h is not among the sources. The id
is erased from the set of its slot. -/
def Prepared_xa_txnids.del_id (hash : List Nat → Nat) (reg : Prepared_xa_txnids)
    (id : List Nat) : Prepared_xa_txnids :=
  { m_slots := reg.m_slots.set (hash id % reg.m_slots.length)
      ((reg.m_slots.getD (hash id % reg.m_slots.length) []).filter (fun s => decide (s ≠ id))) }

/-- The loop of Prepared_xa_txnids::Slot::serialize over the ids of a slot,
with its counter cnt: a delimiter is appended before an id unless it is the
first of the slot and the string is still empty. -/
def Slot.serialize_loop : List (List Nat) → Nat → List Nat → List Nat
  | [], _, id => id
  | i :: rest, cnt, id =>
    Slot.serialize_loop rest (cnt + 1)
      ((if cnt > 0 ∨ id.length > 0 then id ++ [124] else id) ++ i)

/-- The method Prepared_xa_txnids::Slot::serialize (the mutex left out). -/
def Slot.serialize (txnids : List (List Nat)) (id : List Nat) : List Nat :=
  Slot.serialize_loop txnids 0 id

/-- The method Prepared_xa_txnids::serialize: the slots are serialized in
order onto the same string. -/
def Prepared_xa_txnids.serialize (reg : Prepared_xa_txnids) (id : List Nat) : List Nat :=
  reg.m_slots.foldl (fun acc txnids => Slot.serialize txnids acc) id

/-- The C library function strchr(p, c) on the string at index p of a buffer:
the index of the first byte c, or NULL (inner none) when the terminating NUL
comes first. The result is none when the scan reads outside the buffer; the
fuel bounds the number of bytes read. -/
def strchr (buf : List Nat) (c : Nat) : Nat → Nat → Option (Option Nat)
  | 0, _ => none
  | fuel + 1, p =>
    match buf[p]? with
    | none => none
    | some b =>
      if b = c then some (some p)
      else if b = 0 then some none
      else strchr buf c fuel (p + 1)

/-- The constructor std::string(p) on the C string at index p of a buffer: the
bytes before the first NUL; none when there is no NUL. -/
def c_string (buf : List Nat) (p : Nat) : Option (List Nat) :=
  (strlen (buf.drop p)).map (fun n => (buf.drop p).take n)

/-- The while loop of Prepared_xa_txnids::parse: the delimiter found at q is
overwritten with NUL, the string at p is inserted, the delimiter is put back
and p moves behind it. The loop hands back the buffer, p and the set when
strchr returns NULL; none when it reads outside the buffer. The fuel bounds
the number of iterations. -/
def Prepared_xa_txnids.parse_loop :
    Nat → List Nat → Nat → List (List Nat) → Option (List Nat × Nat × List (List Nat))
  | 0, _, _, _ => none
  | fuel + 1, buf, p, ids =>
    match strchr buf 124 (buf.length + 1) p with
    | none => none
    | some none => some (buf, p, ids)
    | some (some q) =>
      match c_string (buf.set q 0) p with
      | none => none
      | some s =>
        Prepared_xa_txnids.parse_loop fuel ((buf.set q 0).set q 124) (q + 1) (set_insert ids s)

/-- The end of Prepared_xa_txnids::parse, after the loop has left q NULL: the
rest of the string is inserted when it is not empty (p points into str and is
not NULL), and 0 is returned. The result holds the returned int, the buffer
and the set. -/
def Prepared_xa_txnids.parse_rest (r : List Nat × Nat × List (List Nat)) :
    Option (Int × List Nat × List (List Nat)) :=
  match r.1[r.2.1]? with
  | none => none
  | some b =>
    if b ≠ 0 then
      match c_string r.1 r.2.1 with
      | none => none
      | some s => some (0, r.1, set_insert r.2.2 s)
    else some (0, r.1, r.2.2)

/-- The function Prepared_xa_txnids::parse on a buffer (the bytes of str with
the terminating NUL) and a set of ids. -/
def Prepared_xa_txnids.parse (str : List Nat) (ids : List (List Nat)) :
    Option (Int × List Nat × List (List Nat)) :=
  (Prepared_xa_txnids.parse_loop (str.length + 1) str 0 ids).bind Prepared_xa_txnids.parse_rest

/-- Modelled from the spec: my_ok belongs to the error-reporting collaborator;
it sets the OK status. The diagnostics area of the model records the errors
raised only, which my_ok leaves as they are. -/
def my_ok (thd : THD) : THD :=
  thd

/-- The function applier_reset_xa_trans. Left out, as the model holds none of
their state: the MDL backup, whose failure is only logged, the
statement-scope rollback flags, the re-attachment of the engine transaction,
the engine list and the no_2pc flag of the session scope, the release of the
locks and the reset of the one-shot characteristics. Transaction_ctx::cleanup,
of another translation unit, is taken by its effect on the XID_STATE. -/
def applier_reset_xa_trans (env : Collaborators) (srv : Server) (thd : THD) :
    Bool × Server × THD :=
  let own := thd.m_transaction
  let thd1 : THD := { thd with option_begin := false, status_in_trans := false }
  let d := transaction_cache_detach env.new_fails own srv
  let thd2 : THD := { thd1 with da := thd1.da ++ d.2.2 }
  let srv1 := d.2.1.set_xid_state own (d.2.1.xid_state own).reset
  let srv2 := srv1.set_xid_state own (srv1.xid_state own).cleanup
  (thd2.is_error, srv2, thd2)

/-- The method Sql_cmd_xa_prepare::execute: the returned bool, the registry,
the server and the session. The method THD::rpl_unflag_detached_engine_ha_data
belongs to another translation unit; its result is a parameter. -/
def Sql_cmd_xa_prepare.execute (env : Collaborators) (hash : List Nat → Nat)
    (rpl_unflag_detached_engine_ha_data : Bool) (m_xid : XID) (reg : Prepared_xa_txnids)
    (srv : Server) (thd : THD) : Bool × Prepared_xa_txnids × Server × THD :=
  let xa_txnid := get_xa_txnid m_xid
  let reg1 := reg.add_id hash xa_txnid
  let st := trans_xa_prepare env m_xid srv thd
  if !st.1 then
    if !rpl_unflag_detached_engine_ha_data then (false, reg1, st.2.1, my_ok st.2.2)
    else
      let a := applier_reset_xa_trans env st.2.1 st.2.2
      if !a.1 then (false, reg1, a.2.1, my_ok a.2.2) else (true, reg1, a.2.1, a.2.2)
  else (true, reg1, st.2.1, st.2.2)

/-- The method Sql_cmd_xa_commit::execute (the release of the transactional
locks and the reset of the one-shot characteristics left out). -/
def Sql_cmd_xa_commit.execute (env : Collaborators) (hash : List Nat → Nat) (m_xid : XID)
    (m_xa_opt : xa_option_words) (reg : Prepared_xa_txnids) (srv : Server) (thd : THD) :
    Bool × Prepared_xa_txnids × Server × THD :=
  let xa_txnid := get_xa_txnid m_xid
  let st := trans_xa_commit env m_xid m_xa_opt srv thd
  if !st.1 then (false, reg.del_id hash xa_txnid, st.2.1, my_ok st.2.2)
  else (true, reg, st.2.1, st.2.2)

/-- The method Sql_cmd_xa_rollback::execute (the release of the transactional
locks and the reset of the one-shot characteristics left out). -/
def Sql_cmd_xa_rollback.execute (env : Collaborators) (hash : List Nat → Nat) (m_xid : XID)
    (reg : Prepared_xa_txnids) (srv : Server) (thd : THD) :
    Bool × Prepared_xa_txnids × Server × THD :=
  let xa_txnid := get_xa_txnid m_xid
  let st := trans_xa_rollback env m_xid srv thd
  if !st.1 then (false, reg.del_id hash xa_txnid, st.2.1, my_ok st.2.2)
  else (true, reg, st.2.1, st.2.2)

/-! ## The debug text of an XID -/

/-- Modelled from the spec: the table _dig_vec_lower belongs to the string
library, which is not among the sources: the digits followed by the lowercase
letters. -/
def _dig_vec_lower : List Nat :=
  [48, 49, 50, 51, 52, 53, 54, 55, 56, 57, 97, 98, 99, 100, 101, 102, 103, 104, 105, 106,
   107, 108, 109, 110, 111, 112, 113, 114, 115, 116, 117, 118, 119, 120, 121, 122]

/-- The byte read by data[i] in an XID: inside the array the byte of the XID (a
list shorter than the array is read as padded with zero bytes), behind the
array whatever memory holds there, given by past. -/
def XID.data_at (x : XID) (past : Nat → Nat) (i : Nat) : Nat :=
  if i < XIDDATASIZE then x.data.getD i 0 else past i

/-- One iteration of the loop of XID::xid_to_str at index i, on the text
written so far and the indices of data read so far. -/
def XID.xid_to_str_step (x : XID) (past : Nat → Nat) (st : List Nat × List Nat) (i : Nat) :
    List Nat × List Nat :=
  let is_next_dig :=
    if i < XIDDATASIZE then decide (48 ≤ x.data_at past (i + 1) ∧ x.data_at past (i + 1) ≤ 57)
    else false
  let reads1 := if i < XIDDATASIZE then st.2 ++ [i + 1] else st.2
  let s1 :=
    if (i : Int) = x.gtrid_length then
      if x.bqual_length ≠ 0 then st.1 ++ [39, 46, 39] else st.1 ++ [39]
    else st.1
  let c := x.data_at past i % 256
  let s2 :=
    if c < 32 ∨ c > 126 then
      s1 ++ [92] ++
        (if c > 63 ∨ is_next_dig then [_dig_vec_lower.getD (c >>> 6) 0] else []) ++
        (if c > 7 ∨ is_next_dig then [_dig_vec_lower.getD ((c >>> 3) &&& 7) 0] else []) ++
        [_dig_vec_lower.getD (c &&& 7) 0]
    else s1 ++ (if c = 39 ∨ c = 92 then [92] else []) ++ [c]
  (s2, reads1 ++ [i])

/-- The method XID::xid_to_str: the text written to buf, terminating NUL
included, and the indices at which data is read, in the order read. The loop
runs for i from 0 up to gtrid_length + bqual_length. -/
def XID.xid_to_str (x : XID) (past : Nat → Nat) : List Nat × List Nat :=
  let r := (List.range (x.gtrid_length + x.bqual_length).toNat).foldl
    (x.xid_to_str_step past) ([39], [])
  (r.1 ++ [39, 0], r.2)

/-! ## Vocabulary of the statements and sample inputs -/

/-- Number of external branches (get_my_xid() == 0) in a list of reported
branches. -/
def count_external (l : List XA_recover_txn) : Nat :=
  (l.filter (fun b => decide (b.id.get_my_xid = 0))).length

/-- Number of internal branches (get_my_xid() != 0) in a list of reported
branches. -/
def count_internal (l : List XA_recover_txn) : Nat :=
  (l.filter (fun b => decide (b.id.get_my_xid ≠ 0))).length

/-- All the branches the engines report to one scan, in plugin order. -/
def all_reported : List handlerton → List XA_recover_txn
  | [] => []
  | hton :: rest => hton.reported ++ all_reported rest

/-- An operation on the transaction cache, or a change of the XID_STATE of some
branch made between two cache operations. -/
inductive Cache_op where
  | insert (xid : XID) (transaction : Nat)
  | insert_recovery (new_fails : Bool) (xid : XID)
  | delete (transaction : Nat)
  | detach (new_fails : Bool) (transaction : Nat)
  | free
  | set_xid_state (transaction : Nat) (xs : XID_STATE)

/-- The server after one cache operation issued by a session. -/
def Cache_op.run (thd : THD) : Cache_op → Server → Server
  | Cache_op.insert xid transaction, srv => (transaction_cache_insert xid transaction srv thd).2.1
  | Cache_op.insert_recovery new_fails xid, srv =>
    (transaction_cache_insert_recovery new_fails xid srv).2.1
  | Cache_op.delete transaction, srv => transaction_cache_delete transaction srv
  | Cache_op.detach new_fails transaction, srv =>
    (transaction_cache_detach new_fails transaction srv).2.1
  | Cache_op.free, srv => transaction_cache_free srv
  | Cache_op.set_xid_state transaction xs, srv => srv.set_xid_state transaction xs

/-- The keys of the transaction cache, in the order of its entries. -/
def Server.cache_keys (srv : Server) : List (Int × Int × List Nat) :=
  srv.transaction_cache.map Prod.fst

/-- An external XID: gtrid t1, no bqual. -/
def sample_xid : XID := ⟨1, 2, 0, [116, 49]⟩

/-- An internal XID as built by xid_t::set for transaction id 7 on server 1. -/
def sample_internal_xid : XID :=
  ⟨1, 20, 0, [77, 121, 83, 81, 76, 88, 105, 100, 1, 0, 0, 0, 7, 0, 0, 0, 0, 0, 0, 0]⟩

/-- An enabled engine reporting the given prepared branches. -/
def sample_engine (l : List XA_recover_txn) : handlerton :=
  { slot := 0, state := SHOW_COMP_OPTION.SHOW_OPTION_YES, recover := some (l.length, l),
    commit_by_xid := fun _ => xa_status_code.XA_OK,
    rollback_by_xid := fun _ => xa_status_code.XA_OK }

/-- The state of a scan with binlog recovery enabled: the given binlog sets,
nothing found yet. -/
def sample_scan (commit_list : List Nat) (xa_prepared xa_cop xa_committed xa_aborted :
    List (List Nat)) : Recover_state :=
  { info := xarecover_st.create (some commit_list) (some []) (some xa_prepared) (some xa_cop)
      (some xa_committed) (some xa_aborted),
    recovered := { m_prepared_xa_trans := [], m_mem_root_inited := true },
    calls := [] }

/-- A server right after start: empty cache, nothing allocated. -/
def sample_empty_server : Server :=
  { heap := fun _ => Transaction_ctx.init, transaction_cache := [], next_alloc := 0,
    inited := true, calls := [] }

/-- A client session whose Transaction_ctx lives at address 0, outside any
transaction, with a clean diagnostics area. -/
def sample_thd : THD :=
  { m_transaction := 0, da := [], slave_thread := false, locked_tables_mode := false,
    option_begin := false, status_in_trans := false, status_in_trans_readonly := false,
    sql_log_bin := true, ignore_durability := false }

/-- A server whose session at address 0 holds the branch sample_xid in the
given state with the given pending error, the transaction cache being as
given. -/
def sample_server (s : xa_states) (rm_error : Nat)
    (cache : List ((Int × Int × List Nat) × Nat)) : Server :=
  { heap := fun _ =>
      { m_xid_state := { xa_state := s, m_xid := sample_xid, rm_error := rm_error,
                         m_is_binlogged := false, in_recovery := false,
                         m_xa_type := xa_type_t.XA_EXTERNAL },
        m_unsafe_rollback_flags := 0 },
    transaction_cache := cache, next_alloc := 1, inited := true, calls := [] }

/-- Collaborators that all succeed, on a server with a binary log and no
engine plugin. -/
def sample_env : Collaborators :=
  { trans_begin := Outcome.ok, trans_rollback := Outcome.ok, acquire_lock := Outcome.ok,
    restore_backup := Outcome.ok, ha_prepare := Outcome.ok, ha_rollback_trans := Outcome.ok,
    ha_commit_trans := Outcome.ok, commit_owned_gtids := Outcome.ok, tc_log := true,
    tc_log_commit := Outcome.ok, ha_commit_low := Outcome.ok, is_transaction_empty := false,
    opt_log_slave_updates := false, opt_bin_log := true, new_fails := false, plugins := [] }

/-- Every entry of the cache is filed under the key of the XID stored in the
Transaction_ctx it points at, as transaction_cache_insert and
transaction_cache_insert_recovery file it. -/
def Server.cache_keyed_by_xid (srv : Server) : Bool :=
  srv.transaction_cache.all (fun e => decide ((srv.xid_state e.2).m_xid.key = e.1))

/-- The errors of a protocol violation: XAER_RMFAIL, XAER_NOTA, XAER_INVAL and
XAER_OUTSIDE. -/
def is_protocol_violation (e : Nat) : Bool :=
  e = ER_XAER_RMFAIL || e = ER_XAER_NOTA || e = ER_XAER_INVAL || e = ER_XAER_OUTSIDE

/-- No error of the list is a protocol violation. -/
def no_protocol_violation (l : List Nat) : Bool :=
  l.all (fun e => !is_protocol_violation e)

/-- None of the collaborators raises a protocol violation: these errors are
raised by the command handlers only. -/
def Collaborators.raise_no_protocol_violation (env : Collaborators) : Bool :=
  no_protocol_violation env.trans_begin.raised &&
  no_protocol_violation env.trans_rollback.raised &&
  no_protocol_violation env.acquire_lock.raised &&
  no_protocol_violation env.restore_backup.raised &&
  no_protocol_violation env.ha_prepare.raised &&
  no_protocol_violation env.ha_rollback_trans.raised &&
  no_protocol_violation env.ha_commit_trans.raised &&
  no_protocol_violation env.commit_owned_gtids.raised &&
  no_protocol_violation env.tc_log_commit.raised &&
  no_protocol_violation env.ha_commit_low.raised

/-- An XID whose gtrid holds the reserved byte 124 after a NUL byte: the four
bytes a, NUL, bar, b. -/
def sample_nul_bar_xid : XID := ⟨1, 4, 0, [97, 0, 124, 98]⟩

/-- An XID with the one-byte gtrid a and no bqual. -/
def sample_short_xid : XID := ⟨1, 1, 0, [97]⟩

/-- Collaborators that all succeed except the MDL manager, whose acquire_lock
times out raising ER_LOCK_WAIT_TIMEOUT. -/
def sample_env_lock_timeout : Collaborators :=
  { sample_env with acquire_lock := Outcome.fail 0 [ER_LOCK_WAIT_TIMEOUT] false }

/-- A server after recovery: the session at address 0 is in state NOTR and the
cache owns, at address 1, the recovered PREPARED branch sample_xid. -/
def sample_recovered_server : Server :=
  { heap := fun a =>
      if a = 1 then
        { m_xid_state := { xa_state := xa_states.XA_PREPARED, m_xid := sample_xid,
                           rm_error := 0, m_is_binlogged := true, in_recovery := true,
                           m_xa_type := xa_type_t.XA_INTERNAL },
          m_unsafe_rollback_flags := 0 }
      else Transaction_ctx.init,
    transaction_cache := [(sample_xid.key, 1)], next_alloc := 2, inited := true, calls := [] }

/-- An XA statement issued by a session, with its XID and option. -/
inductive Xa_command where
  | xa_start (xid : XID) (opt : xa_option_words)
  | xa_end (xid : XID) (opt : xa_option_words)
  | xa_prepare (xid : XID)
  | xa_commit (xid : XID) (opt : xa_option_words)
  | xa_rollback (xid : XID)
deriving DecidableEq, Repr

/-- The handler that executes an XA statement. -/
def Xa_command.run (env : Collaborators) : Xa_command → Server → THD → Bool × Server × THD
  | Xa_command.xa_start xid opt, srv, thd => trans_xa_start env xid opt srv thd
  | Xa_command.xa_end xid opt, srv, thd => trans_xa_end xid opt srv thd
  | Xa_command.xa_prepare xid, srv, thd => trans_xa_prepare env xid srv thd
  | Xa_command.xa_commit xid opt, srv, thd => trans_xa_commit env xid opt srv thd
  | Xa_command.xa_rollback xid, srv, thd => trans_xa_rollback env xid srv thd

/-- The statement terminates the branch held in the given XID_STATE: it is XA
COMMIT or XA ROLLBACK of the XID stored there. -/
def Xa_command.terminates (xs : XID_STATE) : Xa_command → Bool
  | Xa_command.xa_commit xid _ => xs.has_same_xid xid
  | Xa_command.xa_rollback xid => xs.has_same_xid xid
  | _ => false

/-- A session executes a list of XA statements in order. -/
def run_commands (env : Collaborators) : List Xa_command → Server → THD → Server × THD
  | [], srv, thd => (srv, thd)
  | c :: rest, srv, thd =>
    run_commands env rest (c.run env srv thd).2.1 (c.run env srv thd).2.2

/-- An enabled engine that reports the given branches and answers XAER_RMERR to
every commit_by_xid and rollback_by_xid. -/
def sample_failing_engine (l : List XA_recover_txn) : handlerton :=
  { slot := 0, state := SHOW_COMP_OPTION.SHOW_OPTION_YES, recover := some (l.length, l),
    commit_by_xid := fun _ => xa_status_code.XAER_RMERR,
    rollback_by_xid := fun _ => xa_status_code.XAER_RMERR }

/-- An enabled engine whose recover function fails, returning -1. -/
def sample_recover_failing_engine : handlerton :=
  { slot := 0, state := SHOW_COMP_OPTION.SHOW_OPTION_YES, recover := some (-1, []),
    commit_by_xid := fun _ => xa_status_code.XA_OK,
    rollback_by_xid := fun _ => xa_status_code.XA_OK }

/-- The internal branch of transaction 7 as an engine reports it. -/
def sample_internal_branch : XA_recover_txn :=
  { id := sample_internal_xid, mod_tables := [], one_phase_prepared := false }
/-- The engine takes part in the by-xid fan-out: it is enabled and has a
recover function. -/
def handlerton.by_xid_capable (hton : handlerton) : Bool :=
  decide (hton.state = SHOW_COMP_OPTION.SHOW_OPTION_YES ∧ hton.recover.isSome = true)

/-- The status an engine returns to the by-xid fan-out for an XID. -/
def handlerton.by_xid_status (commit : Bool) (xid : XID) (hton : handlerton) :
    xa_status_code :=
  if commit then hton.commit_by_xid xid else hton.rollback_by_xid xid

/-- The status is a hard error for the by-xid fan-out: neither XA_OK nor
XAER_NOTA. -/
def xa_status_code.is_hard_error (s : xa_status_code) : Bool :=
  decide (s ≠ xa_status_code.XA_OK ∧ s ≠ xa_status_code.XAER_NOTA)

/-- The call the by-xid fan-out makes into an engine. -/
def by_xid_call (commit : Bool) (xid : XID) (hton : handlerton) : Call :=
  Call.engine (if commit then Engine_call.commit_by_xid hton.slot xid
               else Engine_call.rollback_by_xid hton.slot xid)

/-- The engines the by-xid fan-out calls: the capable engines in plugin order,
up to and including the first one that returns a hard error. -/
def by_xid_called (commit : Bool) (xid : XID) : List handlerton → List handlerton
  | [] => []
  | hton :: rest =>
    if hton.by_xid_capable then
      if (hton.by_xid_status commit xid).is_hard_error then [hton]
      else hton :: by_xid_called commit xid rest
    else by_xid_called commit xid rest

/-- Collaborators that all succeed, with the one engine sample_engine. -/
def sample_env_engine : Collaborators :=
  { sample_env with plugins := [sample_engine []] }

/-- Collaborators with the one engine sample_engine, where commit_owned_gtids
fails. -/
def sample_env_gtid_fails : Collaborators :=
  { sample_env with commit_owned_gtids := Outcome.fail 0 [] false,
                    plugins := [sample_engine []] }

/-- All ids of a registry, slot after slot. -/
def Prepared_xa_txnids.ids (reg : Prepared_xa_txnids) : List (List Nat) :=
  reg.m_slots.flatten

/-- Whether some entry of the cache is a PREPARED branch whose id, as computed
by get_xa_txnid, is the given one. -/
def Server.has_prepared_id (srv : Server) (id : List Nat) : Bool :=
  srv.transaction_cache.any (fun e =>
    (srv.xid_state e.2).has_state xa_states.XA_PREPARED &&
      decide (get_xa_txnid (srv.xid_state e.2).m_xid = id))

/-- A registry of two empty slots. -/
def sample_registry : Prepared_xa_txnids :=
  { m_slots := [[], []] }

/-- A registry of three slots holding the ids t1, t2 and t3. -/
def sample_full_registry : Prepared_xa_txnids :=
  { m_slots := [[[116, 49], [116, 50]], [], [[116, 51]]] }

/-- Collaborators where the engine prepare fails. -/
def sample_env_prepare_fails : Collaborators :=
  { sample_env with ha_prepare := Outcome.fail 0 [] false }

/-- An XID of 64 gtrid bytes a and 64 bqual bytes, the last of which is the
control character 1: the data array is full. -/
def sample_full_xid : XID :=
  ⟨1, 64, 64, List.replicate 127 97 ++ [1]⟩

/-! ## Lemmas on the transaction cache -/

/-- A key found in the cache is paired with the address found. -/
theorem cache_find_mem (k : Int × Int × List Nat) (a : Nat) :
    ∀ c : List ((Int × Int × List Nat) × Nat), cache_find k c = some a → (k, a) ∈ c := by
  intro c
  induction c with
  | nil => intro h; simp [cache_find] at h
  | cons e rest ih =>
    obtain ⟨k1, a1⟩ := e
    intro h
    by_cases hk : k1 = k
    · simp [cache_find, hk] at h
      simp [hk, h]
    · simp [cache_find, hk] at h
      exact List.mem_cons_of_mem _ (ih h)

/-- Lookup after appending an entry: an earlier entry wins. -/
theorem cache_find_append (k k1 : Int × Int × List Nat) (a1 : Nat) :
    ∀ c : List ((Int × Int × List Nat) × Nat),
      cache_find k (c ++ [(k1, a1)]) =
        match cache_find k c with
        | some x => some x
        | none => if k1 = k then some a1 else none := by
  intro c
  induction c with
  | nil => simp [cache_find]
  | cons e rest ih =>
    obtain ⟨k2, a2⟩ := e
    by_cases hk : k2 = k
    · simp [cache_find, hk]
    · simp [cache_find, hk, ih]

/-- Branches owned by recovery: every cache entry points below the allocation
mark at a PREPARED, in_recovery branch. -/
theorem insert_recovery_keeps_owned (xid : XID) (srv : Server)
    (hinv : ∀ k a, (k, a) ∈ srv.transaction_cache → a < srv.next_alloc ∧
      (srv.xid_state a).xa_state = xa_states.XA_PREPARED ∧
      (srv.xid_state a).in_recovery = true) :
    (∀ k a, (k, a) ∈ (transaction_cache_insert_recovery false xid srv).2.1.transaction_cache →
      a < (transaction_cache_insert_recovery false xid srv).2.1.next_alloc ∧
      ((transaction_cache_insert_recovery false xid srv).2.1.xid_state a).xa_state =
        xa_states.XA_PREPARED ∧
      ((transaction_cache_insert_recovery false xid srv).2.1.xid_state a).in_recovery = true) ∧
    (cache_find xid.key
      (transaction_cache_insert_recovery false xid srv).2.1.transaction_cache).isSome = true ∧
    (∀ k, (cache_find k srv.transaction_cache).isSome = true →
      (cache_find k
        (transaction_cache_insert_recovery false xid srv).2.1.transaction_cache).isSome = true) := by
  unfold transaction_cache_insert_recovery
  cases hf : cache_find xid.key srv.transaction_cache with
  | some a0 =>
    simp only [Option.isSome_some, if_true]
    exact ⟨hinv, by simp [hf], fun k hk => hk⟩
  | none =>
    simp only [Option.isSome_none, Bool.false_eq_true, if_false]
    simp only [create_and_insert_new_transaction, if_false, Bool.false_eq_true,
      XID_STATE.start_recovery_xa, cache_emplace, hf]
    refine ⟨?_, ?_, ?_⟩
    · intro k a hmem
      simp only [List.mem_append, List.mem_singleton, Prod.mk.injEq] at hmem
      rcases hmem with hmem | ⟨_, ha⟩
      · obtain ⟨h1, h2, h3⟩ := hinv k a hmem
        have hne : a ≠ srv.next_alloc := Nat.ne_of_lt h1
        refine ⟨Nat.lt_succ_of_lt h1, ?_, ?_⟩
        · simpa [Server.xid_state, Function.update_noteq hne] using h2
        · simpa [Server.xid_state, Function.update_noteq hne] using h3
      · subst ha
        simp [Server.xid_state]
    · simp [cache_find_append, hf]
    · intro k hk
      rw [cache_find_append]
      cases hk2 : cache_find k srv.transaction_cache with
      | some x => simp
      | none => simp [hk2] at hk

/-! ## Lemmas on the dry-run scan -/

/-- In dry-run the loop of xarecover_handlerton only counts. -/
theorem xarecover_loop_dry_run (alloc_fails : Nat → Bool) (heuristic : TC_HEURISTIC)
    (hton : handlerton) :
    ∀ (l : List XA_recover_txn) (st : Recover_state), st.info.dry_run = true →
      (xarecover_loop alloc_fails heuristic hton l st).1 = false ∧
      (xarecover_loop alloc_fails heuristic hton l st).2.calls = st.calls ∧
      (xarecover_loop alloc_fails heuristic hton l st).2.recovered = st.recovered ∧
      (xarecover_loop alloc_fails heuristic hton l st).2.info.dry_run = true ∧
      (xarecover_loop alloc_fails heuristic hton l st).2.info.found_foreign_xids =
        st.info.found_foreign_xids + count_external l ∧
      (xarecover_loop alloc_fails heuristic hton l st).2.info.found_my_xids =
        st.info.found_my_xids + count_internal l := by
  intro l
  induction l with
  | nil => intro st h; simp [xarecover_loop, count_external, count_internal, h]
  | cons b rest ih =>
    intro st h
    by_cases hx : b.id.get_my_xid = 0
    · have hstep : xarecover_loop alloc_fails heuristic hton (b :: rest) st =
          xarecover_loop alloc_fails heuristic hton rest
            { st with info := { st.info with
                found_foreign_xids := st.info.found_foreign_xids + 1 } } := by
        simp [xarecover_loop, xarecover_txn, hx, h]
      rw [hstep]
      obtain ⟨h1, h2, h3, h4, h5, h6⟩ := ih
        { st with info := { st.info with
            found_foreign_xids := st.info.found_foreign_xids + 1 } } h
      refine ⟨h1, h2, h3, h4, ?_, ?_⟩
      · rw [h5]; simp [count_external, hx]; ring
      · rw [h6]; simp [count_internal, hx]
    · have hstep : xarecover_loop alloc_fails heuristic hton (b :: rest) st =
          xarecover_loop alloc_fails heuristic hton rest
            { st with info := { st.info with
                found_my_xids := st.info.found_my_xids + 1 } } := by
        simp [xarecover_loop, xarecover_txn, hx, h]
      rw [hstep]
      obtain ⟨h1, h2, h3, h4, h5, h6⟩ := ih
        { st with info := { st.info with
            found_my_xids := st.info.found_my_xids + 1 } } h
      refine ⟨h1, h2, h3, h4, ?_, ?_⟩
      · rw [h5]; simp [count_external, hx]
      · rw [h6]; simp [count_internal, hx]; ring

/-- In dry-run xarecover_handlerton only counts the branches the engine reports. -/
theorem xarecover_handlerton_dry_run (alloc_fails : Nat → Bool) (heuristic : TC_HEURISTIC)
    (hton : handlerton) (st : Recover_state) (h : st.info.dry_run = true) :
    (xarecover_handlerton alloc_fails heuristic hton st).1 = false ∧
    (xarecover_handlerton alloc_fails heuristic hton st).2.calls = st.calls ∧
    (xarecover_handlerton alloc_fails heuristic hton st).2.recovered.m_prepared_xa_trans =
      st.recovered.m_prepared_xa_trans ∧
    (xarecover_handlerton alloc_fails heuristic hton st).2.info.dry_run = true ∧
    (xarecover_handlerton alloc_fails heuristic hton st).2.info.found_foreign_xids =
      st.info.found_foreign_xids + count_external hton.reported ∧
    (xarecover_handlerton alloc_fails heuristic hton st).2.info.found_my_xids =
      st.info.found_my_xids + count_internal hton.reported := by
  unfold xarecover_handlerton handlerton.reported
  by_cases hs : hton.state = SHOW_COMP_OPTION.SHOW_OPTION_YES
  · simp only [hs, if_true]
    cases hr : hton.recover with
    | none => simp [h, count_external, count_internal]
    | some p =>
      obtain ⟨got, txn_list⟩ := p
      by_cases hg : got > 0
      · simp only [hg, if_true]
        obtain ⟨h1, h2, h3, h4, h5, h6⟩ := xarecover_loop_dry_run alloc_fails heuristic hton
          (txn_list.take got.toNat)
          { st with recovered := st.recovered.get_allocated_memroot } h
        refine ⟨h1, h2, ?_, h4, h5, h6⟩
        rw [h3]; rfl
      · simp [hg, h, count_external, count_internal,
          Recovered_xa_transactions.get_allocated_memroot]
  · simp [hs, h, count_external, count_internal]

/-- In dry-run the scan over all engines only counts the branches reported. -/
theorem plugin_foreach_dry_run (alloc_fails : Nat → Bool) (heuristic : TC_HEURISTIC) :
    ∀ (plugins : List handlerton) (st : Recover_state), st.info.dry_run = true →
      (plugin_foreach (xarecover_handlerton alloc_fails heuristic) plugins st).1 = false ∧
      (plugin_foreach (xarecover_handlerton alloc_fails heuristic) plugins st).2.calls =
        st.calls ∧
      (plugin_foreach (xarecover_handlerton alloc_fails heuristic)
        plugins st).2.recovered.m_prepared_xa_trans = st.recovered.m_prepared_xa_trans ∧
      (plugin_foreach (xarecover_handlerton alloc_fails heuristic) plugins st).2.info.dry_run =
        true ∧
      (plugin_foreach (xarecover_handlerton alloc_fails heuristic)
        plugins st).2.info.found_foreign_xids =
        st.info.found_foreign_xids + count_external (all_reported plugins) ∧
      (plugin_foreach (xarecover_handlerton alloc_fails heuristic)
        plugins st).2.info.found_my_xids =
        st.info.found_my_xids + count_internal (all_reported plugins) := by
  intro plugins
  induction plugins with
  | nil => intro st h; simp [plugin_foreach, all_reported, count_external, count_internal, h]
  | cons hton rest ih =>
    intro st h
    obtain ⟨g1, g2, g3, g4, g5, g6⟩ := xarecover_handlerton_dry_run alloc_fails heuristic hton st h
    have hstep : plugin_foreach (xarecover_handlerton alloc_fails heuristic) (hton :: rest) st =
        plugin_foreach (xarecover_handlerton alloc_fails heuristic) rest
          (xarecover_handlerton alloc_fails heuristic hton st).2 := by
      rw [plugin_foreach]
      cases hh : xarecover_handlerton alloc_fails heuristic hton st with
      | mk r s =>
        rw [hh] at g1
        simp only at g1
        subst g1
        rfl
    rw [hstep]
    obtain ⟨h1, h2, h3, h4, h5, h6⟩ := ih _ g4
    refine ⟨h1, h2.trans g2, h3.trans g3, h4, ?_, ?_⟩
    · rw [h5, g5]
      simp [all_reported, count_external, List.filter_append]
      ring
    · rw [h6, g6]
      simp [all_reported, count_internal, List.filter_append]
      ring

/-! ## Frame lemmas for the server state -/

/-- Reading the XID_STATE at an address after a store. -/
@[simp]
theorem xid_state_set_xid_state (srv : Server) (a b : Nat) (xs : XID_STATE) :
    (srv.set_xid_state a xs).xid_state b = if b = a then xs else srv.xid_state b := by
  by_cases h : b = a
  · subst h; simp [Server.set_xid_state, Server.xid_state]
  · simp [Server.set_xid_state, Server.xid_state, Function.update_noteq h, h]

/-- A store into the memory leaves the cache alone. -/
@[simp]
theorem cache_set_xid_state (srv : Server) (a : Nat) (xs : XID_STATE) :
    (srv.set_xid_state a xs).transaction_cache = srv.transaction_cache := rfl

/-- A store into the memory leaves the call record alone. -/
@[simp]
theorem calls_set_xid_state (srv : Server) (a : Nat) (xs : XID_STATE) :
    (srv.set_xid_state a xs).calls = srv.calls := rfl

/-- A store into the memory leaves the allocation mark alone. -/
@[simp]
theorem next_alloc_set_xid_state (srv : Server) (a : Nat) (xs : XID_STATE) :
    (srv.set_xid_state a xs).next_alloc = srv.next_alloc := rfl

/-- Recording a call leaves every XID_STATE alone. -/
@[simp]
theorem xid_state_note_call (c : Call) (srv : Server) (a : Nat) :
    (note_call c srv).xid_state a = srv.xid_state a := rfl

/-- Recording a call leaves the cache alone. -/
@[simp]
theorem cache_note_call (c : Call) (srv : Server) :
    (note_call c srv).transaction_cache = srv.transaction_cache := rfl

/-- Recording a call appends it to the call record. -/
@[simp]
theorem calls_note_call (c : Call) (srv : Server) :
    (note_call c srv).calls = srv.calls ++ [c] := rfl

/-- The function transaction_cache_delete leaves every XID_STATE alone. -/
@[simp]
theorem xid_state_cache_delete (t : Nat) (srv : Server) (a : Nat) :
    (transaction_cache_delete t srv).xid_state a = srv.xid_state a := by
  simp only [transaction_cache_delete]
  split
  · split <;> rfl
  · rfl

/-- The function transaction_cache_delete records no call. -/
@[simp]
theorem calls_cache_delete (t : Nat) (srv : Server) :
    (transaction_cache_delete t srv).calls = srv.calls := by
  simp only [transaction_cache_delete]
  split
  · split <;> rfl
  · rfl

/-- The function cleanup_trans_state leaves every XID_STATE alone. -/
@[simp]
theorem xid_state_cleanup_trans_state (srv : Server) (thd : THD) (a : Nat) :
    (cleanup_trans_state srv thd).1.xid_state a = srv.xid_state a := by
  simp only [cleanup_trans_state, xid_state_cache_delete]
  by_cases h : a = thd.m_transaction
  · subst h; simp [Server.xid_state]
  · simp [Server.xid_state, Function.update_noteq h]

/-- The function cleanup_trans_state records no call. -/
@[simp]
theorem calls_cleanup_trans_state (srv : Server) (thd : THD) :
    (cleanup_trans_state srv thd).1.calls = srv.calls := by
  simp [cleanup_trans_state]

/-- The function cleanup_trans_state raises no error. -/
@[simp]
theorem da_cleanup_trans_state (srv : Server) (thd : THD) :
    (cleanup_trans_state srv thd).2.da = thd.da := rfl

/-- The function cleanup_trans_state keeps the session on its Transaction_ctx. -/
@[simp]
theorem m_transaction_cleanup_trans_state (srv : Server) (thd : THD) :
    (cleanup_trans_state srv thd).2.m_transaction = thd.m_transaction := rfl

/-- The cache after cleanup_trans_state: the entry under the key of the session
is erased when it is the session itself. -/
theorem cache_cleanup_trans_state (srv : Server) (thd : THD) :
    (cleanup_trans_state srv thd).1.transaction_cache =
      if cache_find (srv.xid_state thd.m_transaction).m_xid.key srv.transaction_cache =
          some thd.m_transaction then
        cache_erase (srv.xid_state thd.m_transaction).m_xid.key srv.transaction_cache
      else srv.transaction_cache := by
  have hx : ({ srv with heap := (Function.update srv.heap thd.m_transaction
        { srv.heap thd.m_transaction with m_unsafe_rollback_flags := 0 }) } : Server).xid_state
        thd.m_transaction = srv.xid_state thd.m_transaction := by
    simp [Server.xid_state]
  simp only [cleanup_trans_state, transaction_cache_delete, hx]
  cases hf : cache_find (srv.xid_state thd.m_transaction).m_xid.key srv.transaction_cache with
  | none => simp
  | some b => by_cases h : b = thd.m_transaction <;> simp [h]

/-- A succeeding collaborator only leaves its call in the record. -/
@[simp]
theorem collab_ok (c : Call) (srv : Server) (thd : THD) :
    collab c Outcome.ok srv thd = (0, note_call c srv, thd) := by
  simp [collab, Outcome.result, Outcome.raised, Outcome.set_error, note_call]

/-- Without a pending error xa_trans_rolled_back changes nothing and tells
whether the state is ROLLBACK_ONLY. -/
theorem xa_trans_rolled_back_at_no_error (a : Nat) (srv : Server) (thd : THD)
    (h : (srv.xid_state a).rm_error = 0) :
    (xa_trans_rolled_back_at a srv thd).1 =
        decide ((srv.xid_state a).xa_state = xa_states.XA_ROLLBACK_ONLY) ∧
      (xa_trans_rolled_back_at a srv thd).2.2 = thd ∧
      (∀ b, (xa_trans_rolled_back_at a srv thd).2.1.xid_state b = srv.xid_state b) ∧
      (xa_trans_rolled_back_at a srv thd).2.1.transaction_cache = srv.transaction_cache ∧
      (xa_trans_rolled_back_at a srv thd).2.1.calls = srv.calls ∧
      (xa_trans_rolled_back_at a srv thd).2.1.next_alloc = srv.next_alloc := by
  simp only [xa_trans_rolled_back_at, XID_STATE.xa_trans_rolled_back, h, ne_eq,
    not_true_eq_false, if_false, xid_state_set_xid_state, cache_set_xid_state,
    calls_set_xid_state, next_alloc_set_xid_state, true_and]
  refine ⟨fun b => ?_, trivial⟩
  by_cases hb : b = a
  · subst hb; simp
  · simp [hb]

/-- An XID equals itself. -/
theorem XID_eq_self (x : XID) : x.eq x = true := by
  simp [XID.eq]

/-- The function transaction_cache_insert fails exactly when the key is present. -/
@[simp]
theorem transaction_cache_insert_result (xid : XID) (t : Nat) (srv : Server)
    (thd : THD) :
    (transaction_cache_insert xid t srv thd).1 =
      (cache_find xid.key srv.transaction_cache).isSome := by
  simp only [transaction_cache_insert, cache_emplace]
  cases cache_find xid.key srv.transaction_cache <;> simp

/-- The function transaction_cache_insert leaves every XID_STATE alone. -/
@[simp]
theorem transaction_cache_insert_xid_state (xid : XID) (t : Nat) (srv : Server)
    (thd : THD) (a : Nat) :
    (transaction_cache_insert xid t srv thd).2.1.xid_state a = srv.xid_state a := by
  simp only [transaction_cache_insert]
  split <;> rfl

/-- The cache after transaction_cache_insert. -/
@[simp]
theorem transaction_cache_insert_cache (xid : XID) (t : Nat) (srv : Server)
    (thd : THD) :
    (transaction_cache_insert xid t srv thd).2.1.transaction_cache =
      if (cache_find xid.key srv.transaction_cache).isSome then srv.transaction_cache
      else srv.transaction_cache ++ [(xid.key, t)] := by
  simp only [transaction_cache_insert, cache_emplace]
  cases cache_find xid.key srv.transaction_cache <;> simp

/-- The session after transaction_cache_insert: XAER_DUPID on conflict. -/
@[simp]
theorem transaction_cache_insert_thd (xid : XID) (t : Nat) (srv : Server)
    (thd : THD) :
    (transaction_cache_insert xid t srv thd).2.2 =
      if (cache_find xid.key srv.transaction_cache).isSome then my_error ER_XAER_DUPID thd
      else thd := by
  simp only [transaction_cache_insert, cache_emplace]
  cases cache_find xid.key srv.transaction_cache <;> simp

/-- With distinct keys, the entries under a key found are that one entry. -/
theorem cache_entries_of_key (k : Int × Int × List Nat) (a : Nat) :
    ∀ c : List ((Int × Int × List Nat) × Nat), (c.map Prod.fst).Nodup →
      cache_find k c = some a → c.filter (fun e => decide (e.1 = k)) = [(k, a)] := by
  intro c
  induction c with
  | nil => intro _ h; simp [cache_find] at h
  | cons e rest ih =>
    obtain ⟨k1, a1⟩ := e
    intro hnd hf
    simp only [List.map_cons, List.nodup_cons] at hnd
    by_cases hk : k1 = k
    · subst hk
      simp only [cache_find, if_true, Option.some.injEq] at hf
      subst hf
      have hnone : ∀ e ∈ rest, ¬ (decide (e.1 = k1) = true) := by
        intro e he hd
        have : e.1 = k1 := of_decide_eq_true hd
        exact hnd.1 (this ▸ List.mem_map_of_mem Prod.fst he)
      simp [List.filter_eq_nil_iff.mpr hnone]
    · simp only [cache_find, hk, if_false] at hf
      simp [hk, ih hnd.2 hf]

/-! ## Lemmas on collaborators and cache keys -/

/-- The value returned by a collaborator call. -/
@[simp]
theorem collab_result (c : Call) (o : Outcome) (srv : Server) (thd : THD) :
    (collab c o srv thd).1 = o.result := rfl

/-- The diagnostics area after a collaborator call. -/
@[simp]
theorem collab_da (c : Call) (o : Outcome) (srv : Server) (thd : THD) :
    (collab c o srv thd).2.2.da = thd.da ++ o.raised := rfl

/-- A collaborator call keeps the session on its Transaction_ctx. -/
@[simp]
theorem collab_m_transaction (c : Call) (o : Outcome) (srv : Server) (thd : THD) :
    (collab c o srv thd).2.2.m_transaction = thd.m_transaction := rfl

/-- A collaborator call leaves the cache alone. -/
@[simp]
theorem collab_cache (c : Call) (o : Outcome) (srv : Server) (thd : THD) :
    (collab c o srv thd).2.1.transaction_cache = srv.transaction_cache := by
  simp only [collab]
  split <;> rfl

/-- A collaborator call leaves the state of every branch alone. -/
@[simp]
theorem collab_xa_state (c : Call) (o : Outcome) (srv : Server) (thd : THD) (a : Nat) :
    ((collab c o srv thd).2.1.xid_state a).xa_state = (srv.xid_state a).xa_state := by
  simp only [collab]
  split
  · by_cases h : a = thd.m_transaction
    · subst h
      simp only [xid_state_set_xid_state, if_true, XID_STATE.set_error]
      split <;> rfl
    · simp only [xid_state_set_xid_state, h, if_false]
      rfl
  · rfl

/-- A collaborator call leaves the XID of every branch alone. -/
@[simp]
theorem collab_m_xid (c : Call) (o : Outcome) (srv : Server) (thd : THD) (a : Nat) :
    ((collab c o srv thd).2.1.xid_state a).m_xid = (srv.xid_state a).m_xid := by
  simp only [collab]
  split
  · by_cases h : a = thd.m_transaction
    · subst h
      simp only [xid_state_set_xid_state, if_true, XID_STATE.set_error]
      split <;> rfl
    · simp only [xid_state_set_xid_state, h, if_false]
      rfl
  · rfl

/-- The method cleanup keeps the state. -/
@[simp]
theorem cleanup_xa_state (xs : XID_STATE) : xs.cleanup.xa_state = xs.xa_state := by
  simp only [XID_STATE.cleanup]; split <;> rfl

/-- The method cleanup keeps the pending error. -/
@[simp]
theorem cleanup_rm_error (xs : XID_STATE) : xs.cleanup.rm_error = xs.rm_error := by
  simp only [XID_STATE.cleanup]; split <;> rfl

/-- A failing collaborator returns a non-zero value. -/
theorem outcome_fail_result (code : Nat) (raised : List Nat) (se : Bool) :
    (Outcome.fail code raised se).result ≠ 0 := by
  simp only [Outcome.result]; omega

/-- A collaborator returns 0 exactly when it succeeds. -/
theorem outcome_result_eq_zero (o : Outcome) : o.result = 0 ↔ o = Outcome.ok := by
  cases o with
  | ok => simp [Outcome.result]
  | fail code raised se =>
    simp only [reduceCtorEq, iff_false]
    exact outcome_fail_result code raised se

/-- A key erased is no longer found. -/
theorem cache_find_erase (k : Int × Int × List Nat) :
    ∀ c : List ((Int × Int × List Nat) × Nat), cache_find k (cache_erase k c) = none := by
  intro c
  induction c with
  | nil => rfl
  | cons e rest ih =>
    obtain ⟨k1, a⟩ := e
    by_cases h : k1 = k
    · simpa [cache_erase, h] using ih
    · simpa [cache_erase, h, cache_find] using ih

/-- A key is not found exactly when it is not among the keys. -/
theorem cache_find_eq_none (k : Int × Int × List Nat) :
    ∀ c : List ((Int × Int × List Nat) × Nat),
      cache_find k c = none ↔ k ∉ c.map Prod.fst := by
  intro c
  induction c with
  | nil => simp [cache_find]
  | cons e rest ih =>
    obtain ⟨k1, a⟩ := e
    by_cases h : k1 = k
    · simp [cache_find, h]
    · have h2 : ¬ k = k1 := fun h3 => h h3.symm
      simp [cache_find, h, h2, ih]

/-- The insertion emplace keeps the keys distinct. -/
theorem cache_emplace_keys_nodup (k : Int × Int × List Nat) (a : Nat)
    (c : List ((Int × Int × List Nat) × Nat)) (h : (c.map Prod.fst).Nodup) :
    ((cache_emplace k a c).1.map Prod.fst).Nodup := by
  unfold cache_emplace
  cases hf : cache_find k c with
  | some b => simpa using h
  | none =>
    have hk := (cache_find_eq_none k c).mp hf
    simp only [List.map_append, List.map_cons, List.map_nil]
    exact List.Nodup.append h (List.nodup_singleton k)
      (List.disjoint_singleton.mpr hk)

/-- The removal erase keeps the keys distinct. -/
theorem cache_erase_keys_nodup (k : Int × Int × List Nat)
    (c : List ((Int × Int × List Nat) × Nat)) (h : (c.map Prod.fst).Nodup) :
    ((cache_erase k c).map Prod.fst).Nodup := by
  unfold cache_erase
  exact List.Nodup.sublist (List.Sublist.map _ (List.filter_sublist _)) h

/-- The function create_and_insert_new_transaction keeps the keys distinct. -/
theorem create_and_insert_keys_nodup (new_fails : Bool) (xid : XID) (b : Bool) (srv : Server)
    (h : srv.cache_keys.Nodup) :
    (create_and_insert_new_transaction new_fails xid b srv).2.1.cache_keys.Nodup := by
  unfold create_and_insert_new_transaction
  cases new_fails with
  | true => simpa using h
  | false =>
    simp only [Bool.false_eq_true, if_false, Server.cache_keys]
    exact cache_emplace_keys_nodup _ _ _ h

/-- Every cache operation keeps the keys distinct. -/
theorem cache_op_keys_nodup (thd : THD) (op : Cache_op) (srv : Server)
    (h : srv.cache_keys.Nodup) : (op.run thd srv).cache_keys.Nodup := by
  cases op with
  | insert xid transaction =>
    simp only [Cache_op.run, transaction_cache_insert]
    split <;> exact cache_emplace_keys_nodup _ _ _ h
  | insert_recovery new_fails xid =>
    simp only [Cache_op.run, transaction_cache_insert_recovery]
    split
    · exact h
    · exact create_and_insert_keys_nodup _ _ _ _ h
  | delete transaction =>
    simp only [Cache_op.run, transaction_cache_delete]
    split
    · split
      · exact cache_erase_keys_nodup _ _ h
      · exact h
    · exact h
  | detach new_fails transaction =>
    simp only [Cache_op.run, transaction_cache_detach]
    exact create_and_insert_keys_nodup _ _ _ _ (cache_erase_keys_nodup _ _ h)
  | free =>
    simp only [Cache_op.run, transaction_cache_free]
    split
    · simp [Server.cache_keys]
    · exact h
  | set_xid_state transaction xs => exact h

/-- Every sequence of cache operations keeps the keys distinct. -/
theorem cache_ops_keys_nodup (thd : THD) :
    ∀ (ops : List Cache_op) (srv : Server), srv.cache_keys.Nodup →
      (ops.foldl (fun s op => op.run thd s) srv).cache_keys.Nodup := by
  intro ops
  induction ops with
  | nil => intro srv h; exact h
  | cons op rest ih =>
    intro srv h
    exact ih _ (cache_op_keys_nodup thd op srv h)

/-- The function strnchr finds nothing when the byte is not among the first n. -/
theorem strnchr_loop_none (c : Nat) :
    ∀ (l : List Nat) (n i : Nat), c ∉ l.take n → strnchr_loop c l n i = none := by
  intro l
  induction l with
  | nil => intro n i _; rfl
  | cons b rest ih =>
    intro n i h
    cases n with
    | zero => simp [strnchr_loop]
    | succ m =>
      simp only [List.take_succ_cons, List.mem_cons, not_or] at h
      have hb : ¬ b = c := fun h2 => h.1 h2.symm
      simp only [strnchr_loop, Nat.succ_ne_zero, if_false, hb, Nat.add_sub_cancel]
      split
      · rfl
      · exact ih m (i + 1) h.2

/-! ## The recovery resolver -/

/-- When no MDL backup fails, recover_prepared_xa_transactions goes through the
whole list, keeps every cache entry a PREPARED recovery branch and leaves the
key of every listed branch present. -/
theorem recover_prepared_loop_inserts (create_backup_fails : XA_recover_txn → Bool)
    (hcbf : ∀ t, create_backup_fails t = false) :
    ∀ (l : List XA_recover_txn) (srv : Server),
      (∀ k a, (k, a) ∈ srv.transaction_cache → a < srv.next_alloc ∧
        (srv.xid_state a).xa_state = xa_states.XA_PREPARED ∧
        (srv.xid_state a).in_recovery = true) →
      (recover_prepared_loop false create_backup_fails l srv).1 = false ∧
      (∀ k a, (k, a) ∈
          (recover_prepared_loop false create_backup_fails l srv).2.2.transaction_cache →
        a < (recover_prepared_loop false create_backup_fails l srv).2.2.next_alloc ∧
        ((recover_prepared_loop false create_backup_fails l srv).2.2.xid_state a).xa_state =
          xa_states.XA_PREPARED ∧
        ((recover_prepared_loop false create_backup_fails l srv).2.2.xid_state a).in_recovery =
          true) ∧
      (∀ t ∈ l, (cache_find t.id.key
        (recover_prepared_loop false create_backup_fails l srv).2.2.transaction_cache).isSome =
          true) ∧
      (∀ k, (cache_find k srv.transaction_cache).isSome = true →
        (cache_find k
          (recover_prepared_loop false create_backup_fails l srv).2.2.transaction_cache).isSome =
            true) := by
  intro l
  induction l with
  | nil =>
    intro srv hinv
    exact ⟨rfl, hinv, by simp, fun k hk => hk⟩
  | cons t rest ih =>
    intro srv hinv
    obtain ⟨i1, i2, i3⟩ := insert_recovery_keeps_owned t.id srv hinv
    have hstep : recover_prepared_loop false create_backup_fails (t :: rest) srv =
        recover_prepared_loop false create_backup_fails rest
          (transaction_cache_insert_recovery false t.id srv).2.1 := by
      simp [recover_prepared_loop, hcbf]
    rw [hstep]
    obtain ⟨j1, j2, j3, j4⟩ := ih _ i1
    refine ⟨j1, j2, ?_, fun k hk => j4 k (i3 k hk)⟩
    intro u hu
    rcases List.mem_cons.mp hu with hu | hu
    · subst hu; exact j4 _ i2
    · exact j3 u hu

/-- C1: with all binlog sets supplied and outside dry-run, the loop of
xarecover_handlerton treats an external branch (get_my_xid() == 0) by the
first matching row of the decision table: in xa_one_phase_committed, engine
commit; not in xa_prepared, rollback; in xa_committed, commit; in xa_aborted,
rollback; one_phase_prepared, rollback; otherwise no engine call is made, the
branch is appended to the branches kept for the cache, its id is added to
engine_prepared and found_foreign_xids grows by one. A branch kept that way is
in the transaction cache as a PREPARED recovery branch once
recover_prepared_xa_transactions has run on a freshly started server. -/
theorem xarecover_external_decision_table (alloc_fails : Nat → Bool) (heuristic : TC_HEURISTIC)
    (hton : handlerton) (b : XA_recover_txn) (rest : List XA_recover_txn) (st : Recover_state)
    (engine_prepared xa_prepared xa_cop xa_committed xa_aborted : List (List Nat))
    (h_engine : st.info.binlog_xa_prepared_engine = some engine_prepared)
    (h_prepared : st.info.binlog_xa_prepared = some xa_prepared)
    (h_cop : st.info.binlog_xa_cop = some xa_cop)
    (h_committed : st.info.binlog_xa_committed = some xa_committed)
    (h_aborted : st.info.binlog_xa_aborted = some xa_aborted)
    (h_dry : st.info.dry_run = false)
    (h_ext : b.id.get_my_xid = 0)
    (h_alloc : alloc_fails st.recovered.m_prepared_xa_trans.length = false) :
    xarecover_loop alloc_fails heuristic hton (b :: rest) st =
      xarecover_loop alloc_fails heuristic hton rest
        (if b.id.xid_data ∈ xa_cop then
          { st with calls := st.calls ++ [Engine_call.commit_by_xid hton.slot b.id] }
        else if b.id.xid_data ∉ xa_prepared then
          { st with calls := st.calls ++ [Engine_call.rollback_by_xid hton.slot b.id] }
        else if b.id.xid_data ∈ xa_committed then
          { st with calls := st.calls ++ [Engine_call.commit_by_xid hton.slot b.id] }
        else if b.id.xid_data ∈ xa_aborted then
          { st with calls := st.calls ++ [Engine_call.rollback_by_xid hton.slot b.id] }
        else if b.one_phase_prepared = true then
          { st with calls := st.calls ++ [Engine_call.rollback_by_xid hton.slot b.id] }
        else
          { info := { st.info with
              found_foreign_xids := st.info.found_foreign_xids + 1
              binlog_xa_prepared_engine := some (set_insert engine_prepared b.id.xid_data) }
            recovered := { st.recovered with
              m_prepared_xa_trans := st.recovered.m_prepared_xa_trans ++
                [{ id := b.id, mod_tables := b.mod_tables, one_phase_prepared := false }] }
            calls := st.calls }) ∧
    (∀ (create_backup_fails : XA_recover_txn → Bool),
      (∀ t, create_backup_fails t = false) →
      st.recovered.m_mem_root_inited = true →
      ∀ srv : Server, srv.transaction_cache = [] →
        (Recovered_xa_transactions.recover_prepared_xa_transactions false create_backup_fails
          { st.recovered with
            m_prepared_xa_trans := st.recovered.m_prepared_xa_trans ++
              [{ id := b.id, mod_tables := b.mod_tables, one_phase_prepared := false }] }
          srv).1 = false ∧
        ∃ a, cache_find b.id.key
            (Recovered_xa_transactions.recover_prepared_xa_transactions false
              create_backup_fails
              { st.recovered with
                m_prepared_xa_trans := st.recovered.m_prepared_xa_trans ++
                  [{ id := b.id, mod_tables := b.mod_tables, one_phase_prepared := false }] }
              srv).2.2.transaction_cache = some a ∧
          ((Recovered_xa_transactions.recover_prepared_xa_transactions false
              create_backup_fails
              { st.recovered with
                m_prepared_xa_trans := st.recovered.m_prepared_xa_trans ++
                  [{ id := b.id, mod_tables := b.mod_tables, one_phase_prepared := false }] }
              srv).2.2.xid_state a).xa_state = xa_states.XA_PREPARED ∧
          ((Recovered_xa_transactions.recover_prepared_xa_transactions false
              create_backup_fails
              { st.recovered with
                m_prepared_xa_trans := st.recovered.m_prepared_xa_trans ++
                  [{ id := b.id, mod_tables := b.mod_tables, one_phase_prepared := false }] }
              srv).2.2.xid_state a).in_recovery = true) := by
  constructor
  · by_cases h1 : b.id.xid_data ∈ xa_cop
    · simp [xarecover_loop, xarecover_txn, xarecover_recovery_mode, xarecover_commit,
        set_has, h_ext, h_dry, h_cop, h1]
    · by_cases h2 : b.id.xid_data ∈ xa_prepared
      · by_cases h3 : b.id.xid_data ∈ xa_committed
        · simp [xarecover_loop, xarecover_txn, xarecover_recovery_mode, xarecover_commit,
            set_has, set_lacks, h_ext, h_dry, h_cop, h_prepared, h_committed, h1, h2, h3]
        · by_cases h4 : b.id.xid_data ∈ xa_aborted
          · simp [xarecover_loop, xarecover_txn, xarecover_abort,
              set_has, set_lacks, h_ext, h_dry, h_cop, h_prepared, h_committed, h_aborted,
              h1, h2, h3, h4]
          · by_cases h5 : b.one_phase_prepared = true
            · simp [xarecover_loop, xarecover_txn, xarecover_abort,
                set_has, set_lacks, h_ext, h_dry, h_cop, h_prepared, h_committed, h_aborted,
                h1, h2, h3, h4, h5]
            · simp [xarecover_loop, xarecover_txn,
                Recovered_xa_transactions.add_prepared_xa_transaction,
                set_has, set_lacks, h_ext, h_dry, h_cop, h_prepared, h_committed, h_aborted,
                h_engine, h_alloc, h1, h2, h3, h4, h5]
      · simp [xarecover_loop, xarecover_txn, xarecover_abort,
          set_has, set_lacks, h_ext, h_dry, h_cop, h_prepared, h1, h2]
  · intro create_backup_fails hcbf hinit srv hempty
    obtain ⟨j1, j2, j3, _⟩ := recover_prepared_loop_inserts create_backup_fails hcbf
      (st.recovered.m_prepared_xa_trans ++
        [{ id := b.id, mod_tables := b.mod_tables, one_phase_prepared := false }]) srv
      (by intro k a hmem; simp [hempty] at hmem)
    simp only [Recovered_xa_transactions.recover_prepared_xa_transactions, hinit, if_true]
    refine ⟨j1, ?_⟩
    have hsome := j3 { id := b.id, mod_tables := b.mod_tables, one_phase_prepared := false }
      (by simp)
    obtain ⟨a, ha⟩ := Option.isSome_iff_exists.mp hsome
    exact ⟨a, ha, (j2 _ a (cache_find_mem _ a _ ha)).2⟩

/-- Witness for C1: the retain row. The engine reports the external branch t1,
which the binlog shows as prepared and neither committed nor aborted: no
engine call is made, the branch is counted and its id recorded. -/
theorem xarecover_external_decision_table_witness :
    (xarecover_loop (fun _ => false) TC_HEURISTIC.TC_HEURISTIC_NOT_USED (sample_engine [])
      [{ id := sample_xid, mod_tables := [], one_phase_prepared := false }]
      (sample_scan [] [[116, 49]] [] [] [])).2.calls = [] ∧
    (xarecover_loop (fun _ => false) TC_HEURISTIC.TC_HEURISTIC_NOT_USED (sample_engine [])
      [{ id := sample_xid, mod_tables := [], one_phase_prepared := false }]
      (sample_scan [] [[116, 49]] [] [] [])).2.info.found_foreign_xids = 1 ∧
    (xarecover_loop (fun _ => false) TC_HEURISTIC.TC_HEURISTIC_NOT_USED (sample_engine [])
      [{ id := sample_xid, mod_tables := [], one_phase_prepared := false }]
      (sample_scan [] [[116, 49]] [] [] [])).2.info.binlog_xa_prepared_engine =
        some [[116, 49]] := by
  rw [(xarecover_external_decision_table (fun _ => false) TC_HEURISTIC.TC_HEURISTIC_NOT_USED
    (sample_engine []) { id := sample_xid, mod_tables := [], one_phase_prepared := false } []
    (sample_scan [] [[116, 49]] [] [] []) [] [[116, 49]] [] [] []
    rfl rfl rfl rfl rfl rfl (by decide) rfl).1]
  decide

/-- C2: outside dry-run, the loop of xarecover_handlerton makes exactly one
engine call for an internal branch (my = get_my_xid() != 0): with binlog
recovery enabled commit_by_xid iff my is in commit_list, with binlog recovery
disabled commit_by_xid iff tc_heuristic_recover is COMMIT at the time of the
scan, and rollback_by_xid in every other case. -/
theorem xarecover_internal_decision (alloc_fails : Nat → Bool) (heuristic : TC_HEURISTIC)
    (hton : handlerton) (b : XA_recover_txn) (rest : List XA_recover_txn) (st : Recover_state)
    (h_ctor : st.info.m_do_binlog_recovery = st.info.commit_list.isSome)
    (h_dry : st.info.dry_run = false)
    (h_int : b.id.get_my_xid ≠ 0) :
    (∀ commit_list, st.info.commit_list = some commit_list →
      xarecover_loop alloc_fails heuristic hton (b :: rest) st =
        xarecover_loop alloc_fails heuristic hton rest
          { st with calls := st.calls ++
              [if b.id.get_my_xid ∈ commit_list then Engine_call.commit_by_xid hton.slot b.id
               else Engine_call.rollback_by_xid hton.slot b.id] }) ∧
    (st.info.commit_list = none →
      xarecover_loop alloc_fails heuristic hton (b :: rest) st =
        xarecover_loop alloc_fails heuristic hton rest
          { st with calls := st.calls ++
              [if heuristic = TC_HEURISTIC.TC_HEURISTIC_RECOVER_COMMIT then
                 Engine_call.commit_by_xid hton.slot b.id
               else Engine_call.rollback_by_xid hton.slot b.id] }) := by
  constructor
  · intro commit_list hcl
    have hdo : st.info.m_do_binlog_recovery = true := by rw [h_ctor, hcl]; rfl
    by_cases hm : b.id.get_my_xid ∈ commit_list
    · simp [xarecover_loop, xarecover_txn, xarecover_recovery_mode, xarecover_commit,
        xarecover_st.do_binlog_recovery, h_int, h_dry, hdo, hcl, hm]
    · simp [xarecover_loop, xarecover_txn, xarecover_recovery_mode, xarecover_abort,
        xarecover_st.do_binlog_recovery, h_int, h_dry, hdo, hcl, hm]
  · intro hcl
    have hdo : st.info.m_do_binlog_recovery = false := by rw [h_ctor, hcl]; rfl
    by_cases hh : heuristic = TC_HEURISTIC.TC_HEURISTIC_RECOVER_COMMIT
    · simp [xarecover_loop, xarecover_txn, xarecover_recovery_mode, xarecover_commit,
        xarecover_st.do_binlog_recovery, h_int, h_dry, hdo, hh]
    · simp [xarecover_loop, xarecover_txn, xarecover_recovery_mode, xarecover_abort,
        xarecover_st.do_binlog_recovery, h_int, h_dry, hdo, hh]

/-- Witness for C2: with binlog recovery enabled and the id 7 in commit_list,
the internal branch with id 7 is committed in the engine. -/
theorem xarecover_internal_decision_witness :
    (xarecover_loop (fun _ => false) TC_HEURISTIC.TC_HEURISTIC_NOT_USED (sample_engine [])
      [{ id := sample_internal_xid, mod_tables := [], one_phase_prepared := false }]
      (sample_scan [7] [] [] [] [])).2.calls =
        [Engine_call.commit_by_xid 0 sample_internal_xid] := by
  rw [(xarecover_internal_decision (fun _ => false) TC_HEURISTIC.TC_HEURISTIC_NOT_USED
    (sample_engine []) { id := sample_internal_xid, mod_tables := [],
                         one_phase_prepared := false } []
    (sample_scan [7] [] [] [] []) rfl rfl (by decide)).1 [7] rfl]
  decide

/-- With binlog recovery off, the heuristic unused and more than one two-phase
engine besides the binlog, ha_recover runs the scan in dry-run. -/
theorem ha_recover_dry_run_scan (alloc_fails : Nat → Bool) (plugins : List handlerton)
    (g : Recover_globals) (recovered : Recovered_xa_transactions)
    (h_heuristic : g.tc_heuristic_recover = TC_HEURISTIC.TC_HEURISTIC_NOT_USED)
    (h_engines : g.total_ha_2pc > g.opt_bin_log.toNat + 1) :
    (ha_recover alloc_fails plugins g recovered none none none none none none).2.2 =
      (plugin_foreach (xarecover_handlerton alloc_fails TC_HEURISTIC.TC_HEURISTIC_NOT_USED)
        plugins
        { info := { xarecover_st.create none none none none none none with dry_run := true },
          recovered := recovered, calls := [] }).2 := by
  have h1 : ¬ g.total_ha_2pc ≤ g.opt_bin_log.toNat := by omega
  obtain ⟨p1, -⟩ := plugin_foreach_dry_run alloc_fails
    TC_HEURISTIC.TC_HEURISTIC_NOT_USED plugins
    { info := { xarecover_st.create none none none none none none with dry_run := true },
      recovered := recovered, calls := [] } rfl
  unfold ha_recover
  simp only [h1, h_heuristic, h_engines, if_true, if_false, xarecover_st.create,
    xarecover_st.do_binlog_recovery, Option.isSome_none, beq_self_eq_true, decide_True,
    Bool.and_self, reduceCtorEq, and_false]
  simp only [xarecover_st.create, Option.isSome_none] at p1
  cases hpf : plugin_foreach (xarecover_handlerton alloc_fails
      TC_HEURISTIC.TC_HEURISTIC_NOT_USED) plugins
      { info := { found_foreign_xids := 0, found_my_xids := 0, commit_list := none,
                  binlog_xa_prepared_engine := none, binlog_xa_prepared := none,
                  binlog_xa_cop := none, binlog_xa_committed := none,
                  binlog_xa_aborted := none, dry_run := true,
                  m_do_binlog_recovery := false },
        recovered := recovered, calls := [] } with
  | mk r s =>
    rw [hpf] at p1
    simp only at p1
    subst p1
    simp only
    split <;> rfl

/-- C3, as amended: when ha_recover runs with binlog recovery disabled (no
binlog sets), tc_heuristic_recover == NOT_USED and more than one two-phase
engine besides the binlog (total_ha_2pc > opt_bin_log + 1), the scan is a dry
run: no engine commit_by_xid or rollback_by_xid is made, no branch is kept for
the cache, found_foreign_xids is the number of external branches reported and
found_my_xids the number of internal ones. -/
theorem ha_recover_dry_run_purity (alloc_fails : Nat → Bool) (plugins : List handlerton)
    (g : Recover_globals) (recovered : Recovered_xa_transactions)
    (h_heuristic : g.tc_heuristic_recover = TC_HEURISTIC.TC_HEURISTIC_NOT_USED)
    (h_engines : g.total_ha_2pc > g.opt_bin_log.toNat + 1) :
    (ha_recover alloc_fails plugins g recovered none none none none none none).2.2.calls = [] ∧
    (ha_recover alloc_fails plugins g recovered none none none none none
      none).2.2.recovered.m_prepared_xa_trans = recovered.m_prepared_xa_trans ∧
    (ha_recover alloc_fails plugins g recovered none none none none none
      none).2.2.info.found_foreign_xids = count_external (all_reported plugins) ∧
    (ha_recover alloc_fails plugins g recovered none none none none none
      none).2.2.info.found_my_xids = count_internal (all_reported plugins) := by
  obtain ⟨_, p2, p3, _, p5, p6⟩ := plugin_foreach_dry_run alloc_fails
    TC_HEURISTIC.TC_HEURISTIC_NOT_USED plugins
    { info := { xarecover_st.create none none none none none none with dry_run := true },
      recovered := recovered, calls := [] } rfl
  rw [ha_recover_dry_run_scan alloc_fails plugins g recovered h_heuristic h_engines]
  refine ⟨p2, p3, ?_, ?_⟩
  · rw [p5]; simp [xarecover_st.create]
  · rw [p6]; simp [xarecover_st.create]

/-- C3, the claim as stated fails: with a single two-phase engine and no binlog
(total_ha_2pc = 1, opt_bin_log off), binlog recovery disabled and
tc_heuristic_recover == NOT_USED, ha_recover forces the heuristic to ROLLBACK
and leaves dry-run: the internal branch the engine reports is rolled back in
the engine and is not counted in found_my_xids. -/
theorem ha_recover_single_engine_rolls_back :
    (ha_recover (fun _ => false)
      [sample_engine [{ id := sample_internal_xid, mod_tables := [],
                        one_phase_prepared := false }]]
      { total_ha_2pc := 1, opt_bin_log := false,
        tc_heuristic_recover := TC_HEURISTIC.TC_HEURISTIC_NOT_USED,
        g_did_binlog_recovery := 0 }
      { m_prepared_xa_trans := [], m_mem_root_inited := false }
      none none none none none none).2.2.calls =
        [Engine_call.rollback_by_xid 0 sample_internal_xid] ∧
    (ha_recover (fun _ => false)
      [sample_engine [{ id := sample_internal_xid, mod_tables := [],
                        one_phase_prepared := false }]]
      { total_ha_2pc := 1, opt_bin_log := false,
        tc_heuristic_recover := TC_HEURISTIC.TC_HEURISTIC_NOT_USED,
        g_did_binlog_recovery := 0 }
      { m_prepared_xa_trans := [], m_mem_root_inited := false }
      none none none none none none).2.2.info.found_my_xids = 0 ∧
    count_internal (all_reported
      [sample_engine [{ id := sample_internal_xid, mod_tables := [],
                        one_phase_prepared := false }]]) = 1 := by
  decide

/-- Witness for C3: two two-phase engines, no binlog: the dry run of an engine
reporting one internal and one external branch makes no engine call and
counts one of each. -/
theorem ha_recover_dry_run_purity_witness :
    (ha_recover (fun _ => false)
      [sample_engine [{ id := sample_internal_xid, mod_tables := [],
                        one_phase_prepared := false },
                      { id := sample_xid, mod_tables := [], one_phase_prepared := false }]]
      { total_ha_2pc := 2, opt_bin_log := false,
        tc_heuristic_recover := TC_HEURISTIC.TC_HEURISTIC_NOT_USED,
        g_did_binlog_recovery := 0 }
      { m_prepared_xa_trans := [], m_mem_root_inited := false }
      none none none none none none).2.2.calls = [] ∧
    (ha_recover (fun _ => false)
      [sample_engine [{ id := sample_internal_xid, mod_tables := [],
                        one_phase_prepared := false },
                      { id := sample_xid, mod_tables := [], one_phase_prepared := false }]]
      { total_ha_2pc := 2, opt_bin_log := false,
        tc_heuristic_recover := TC_HEURISTIC.TC_HEURISTIC_NOT_USED,
        g_did_binlog_recovery := 0 }
      { m_prepared_xa_trans := [], m_mem_root_inited := false }
      none none none none none none).2.2.info.found_my_xids = 1 := by
  have h := ha_recover_dry_run_purity (fun _ => false)
    [sample_engine [{ id := sample_internal_xid, mod_tables := [],
                      one_phase_prepared := false },
                    { id := sample_xid, mod_tables := [], one_phase_prepared := false }]]
    { total_ha_2pc := 2, opt_bin_log := false,
      tc_heuristic_recover := TC_HEURISTIC.TC_HEURISTIC_NOT_USED,
      g_did_binlog_recovery := 0 }
    { m_prepared_xa_trans := [], m_mem_root_inited := false } rfl (by decide)
  refine ⟨h.1, ?_⟩
  rw [h.2.2.2]
  decide

/-! ## The transition table of the session commands -/

/-- C4, as amended: a session in state ACTIVE with XID x, rm_error == 0 and a
clean diagnostics area: XA START x fails with XAER_RMFAIL, XA PREPARE x fails
with XAER_RMFAIL, XA COMMIT x (with any option) fails with XAER_RMFAIL and XA
ROLLBACK x fails with XAER_RMFAIL, each leaving the XID_STATE as it was; XA END
x succeeds and the state becomes IDLE. -/
theorem xa_active_row (env : Collaborators) (x : XID) (srv : Server) (thd : THD)
    (h_state : (srv.xid_state thd.m_transaction).xa_state = xa_states.XA_ACTIVE)
    (h_xid : (srv.xid_state thd.m_transaction).m_xid = x)
    (h_rm : (srv.xid_state thd.m_transaction).rm_error = 0)
    (h_da : thd.da = []) :
    ((trans_xa_start env x xa_option_words.XA_NONE srv thd).1 = true ∧
      (trans_xa_start env x xa_option_words.XA_NONE srv thd).2.2.da = [ER_XAER_RMFAIL] ∧
      (trans_xa_start env x xa_option_words.XA_NONE srv thd).2.1.xid_state thd.m_transaction =
        srv.xid_state thd.m_transaction) ∧
    ((trans_xa_end x xa_option_words.XA_NONE srv thd).1 = false ∧
      (trans_xa_end x xa_option_words.XA_NONE srv thd).2.2.da = [] ∧
      ((trans_xa_end x xa_option_words.XA_NONE srv thd).2.1.xid_state thd.m_transaction).xa_state
        = xa_states.XA_IDLE) ∧
    ((trans_xa_prepare env x srv thd).1 = true ∧
      (trans_xa_prepare env x srv thd).2.2.da = [ER_XAER_RMFAIL] ∧
      (trans_xa_prepare env x srv thd).2.1.xid_state thd.m_transaction =
        srv.xid_state thd.m_transaction) ∧
    (∀ opt, (trans_xa_commit env x opt srv thd).1 = true ∧
      (trans_xa_commit env x opt srv thd).2.2.da = [ER_XAER_RMFAIL] ∧
      (trans_xa_commit env x opt srv thd).2.1.xid_state thd.m_transaction =
        srv.xid_state thd.m_transaction) ∧
    ((trans_xa_rollback env x srv thd).1 = true ∧
      (trans_xa_rollback env x srv thd).2.2.da = [ER_XAER_RMFAIL] ∧
      (trans_xa_rollback env x srv thd).2.1.xid_state thd.m_transaction =
        srv.xid_state thd.m_transaction) := by
  subst h_xid
  obtain ⟨r1, r2, r3, -⟩ := xa_trans_rolled_back_at_no_error thd.m_transaction srv thd h_rm
  simp only [h_state] at r1
  refine ⟨?_, ?_, ?_, ?_, ?_⟩
  · simp [trans_xa_start, XID_STATE.has_state, h_state, my_error, h_da, THD.is_error]
  · simp [trans_xa_end, XID_STATE.has_state, XID_STATE.has_same_xid, XID_eq_self, h_state,
      h_da, THD.is_error, r1, r2, XID_STATE.set_state]
  · simp [trans_xa_prepare, XID_STATE.has_state, h_state, my_error, h_da, THD.is_error]
  · intro opt
    simp [trans_xa_commit, process_internal_xa_commit, XID_STATE.has_state,
      XID_STATE.has_same_xid, XID_eq_self, h_state, my_error, h_da, r1, r2, r3]
  · simp [trans_xa_rollback, process_internal_xa_rollback, XID_STATE.has_state,
      XID_STATE.has_same_xid, XID_eq_self, h_state, my_error, h_da]

/-- C4, the claim as stated fails: in state ACTIVE, XA ROLLBACK of the
session's own XID is refused with XAER_RMFAIL and the state stays ACTIVE; it
does not succeed and the state does not become NOTR. -/
theorem xa_rollback_in_active_is_refused :
    (trans_xa_rollback sample_env sample_xid
      (sample_server xa_states.XA_ACTIVE 0 [(sample_xid.key, 0)]) sample_thd).1 = true ∧
    (trans_xa_rollback sample_env sample_xid
      (sample_server xa_states.XA_ACTIVE 0 [(sample_xid.key, 0)]) sample_thd).2.2.da =
        [ER_XAER_RMFAIL] ∧
    ((trans_xa_rollback sample_env sample_xid
      (sample_server xa_states.XA_ACTIVE 0 [(sample_xid.key, 0)]) sample_thd).2.1.xid_state
        0).xa_state = xa_states.XA_ACTIVE := by
  decide

/-- Witness for C4: XA END of the own XID in state ACTIVE succeeds and leaves
the state IDLE. -/
theorem xa_active_row_witness :
    (trans_xa_end sample_xid xa_option_words.XA_NONE
      (sample_server xa_states.XA_ACTIVE 0 [(sample_xid.key, 0)]) sample_thd).1 = false ∧
    (trans_xa_end sample_xid xa_option_words.XA_NONE
      (sample_server xa_states.XA_ACTIVE 0 [(sample_xid.key, 0)]) sample_thd).2.2.da = [] ∧
    ((trans_xa_end sample_xid xa_option_words.XA_NONE
      (sample_server xa_states.XA_ACTIVE 0 [(sample_xid.key, 0)])
        sample_thd).2.1.xid_state sample_thd.m_transaction).xa_state = xa_states.XA_IDLE :=
  (xa_active_row sample_env sample_xid
    (sample_server xa_states.XA_ACTIVE 0 [(sample_xid.key, 0)]) sample_thd rfl rfl rfl rfl).2.1

/-- C5: a session in state IDLE with XID x, rm_error == 0, a clean diagnostics
area and succeeding collaborators (not a replication applier holding an empty
transaction): XA START x RESUME succeeds and the state becomes ACTIVE; XA
START RESUME with a different XID fails with XAER_NOTA and XA START without
option fails with XAER_RMFAIL, the XID_STATE staying as it was; XA END x fails
with XAER_RMFAIL; XA PREPARE x succeeds and the state becomes PREPARED; XA
COMMIT x ONE PHASE succeeds and the state becomes NOTR; XA ROLLBACK x succeeds
and the state becomes NOTR. -/
theorem xa_idle_row (env : Collaborators) (x : XID) (srv : Server) (thd : THD)
    (h_state : (srv.xid_state thd.m_transaction).xa_state = xa_states.XA_IDLE)
    (h_xid : (srv.xid_state thd.m_transaction).m_xid = x)
    (h_rm : (srv.xid_state thd.m_transaction).rm_error = 0)
    (h_da : thd.da = [])
    (h_applier : ¬ (thd.slave_thread = true ∧ env.is_transaction_empty = true))
    (h_lock : env.acquire_lock = Outcome.ok)
    (h_prepare : env.ha_prepare = Outcome.ok)
    (h_commit : env.ha_commit_trans = Outcome.ok)
    (h_gtid : env.commit_owned_gtids = Outcome.ok)
    (h_rollback : env.ha_rollback_trans = Outcome.ok) :
    ((trans_xa_start env x xa_option_words.XA_RESUME srv thd).1 = false ∧
      (trans_xa_start env x xa_option_words.XA_RESUME srv thd).2.2.da = [] ∧
      ((trans_xa_start env x xa_option_words.XA_RESUME srv thd).2.1.xid_state
        thd.m_transaction).xa_state = xa_states.XA_ACTIVE) ∧
    (∀ y : XID, x.eq y = false →
      (trans_xa_start env y xa_option_words.XA_RESUME srv thd).1 = true ∧
      (trans_xa_start env y xa_option_words.XA_RESUME srv thd).2.2.da = [ER_XAER_NOTA] ∧
      (trans_xa_start env y xa_option_words.XA_RESUME srv thd).2.1.xid_state thd.m_transaction =
        srv.xid_state thd.m_transaction) ∧
    (∀ y : XID,
      (trans_xa_start env y xa_option_words.XA_NONE srv thd).1 = true ∧
      (trans_xa_start env y xa_option_words.XA_NONE srv thd).2.2.da = [ER_XAER_RMFAIL] ∧
      (trans_xa_start env y xa_option_words.XA_NONE srv thd).2.1.xid_state thd.m_transaction =
        srv.xid_state thd.m_transaction) ∧
    ((trans_xa_end x xa_option_words.XA_NONE srv thd).1 = true ∧
      (trans_xa_end x xa_option_words.XA_NONE srv thd).2.2.da = [ER_XAER_RMFAIL] ∧
      (trans_xa_end x xa_option_words.XA_NONE srv thd).2.1.xid_state thd.m_transaction =
        srv.xid_state thd.m_transaction) ∧
    ((trans_xa_prepare env x srv thd).1 = false ∧
      (trans_xa_prepare env x srv thd).2.2.da = [] ∧
      ((trans_xa_prepare env x srv thd).2.1.xid_state thd.m_transaction).xa_state =
        xa_states.XA_PREPARED) ∧
    ((trans_xa_commit env x xa_option_words.XA_ONE_PHASE srv thd).1 = false ∧
      (trans_xa_commit env x xa_option_words.XA_ONE_PHASE srv thd).2.2.da = [] ∧
      ((trans_xa_commit env x xa_option_words.XA_ONE_PHASE srv thd).2.1.xid_state
        thd.m_transaction).xa_state = xa_states.XA_NOTR) ∧
    ((trans_xa_rollback env x srv thd).1 = false ∧
      (trans_xa_rollback env x srv thd).2.2.da = [] ∧
      ((trans_xa_rollback env x srv thd).2.1.xid_state thd.m_transaction).xa_state =
        xa_states.XA_NOTR) := by
  subst h_xid
  obtain ⟨r1, r2, r3, -⟩ := xa_trans_rolled_back_at_no_error thd.m_transaction srv thd h_rm
  simp only [h_state] at r1
  refine ⟨?_, ?_, ?_, ?_, ?_, ?_, ?_⟩
  · simp [trans_xa_start, XID_STATE.has_state, XID_STATE.has_same_xid, XID_eq_self, h_state,
      h_da, XID_STATE.set_state]
  · intro y hy
    simp [trans_xa_start, XID_STATE.has_state, XID_STATE.has_same_xid, hy, h_state,
      h_da, my_error]
  · intro y
    simp [trans_xa_start, XID_STATE.has_state, h_state, my_error, h_da, THD.is_error]
  · simp [trans_xa_end, XID_STATE.has_state, h_state, my_error, h_da, THD.is_error]
  · simp [trans_xa_prepare, XID_STATE.has_state, XID_STATE.has_same_xid, XID_eq_self, h_state,
      h_da, THD.is_error, h_lock, h_prepare, XID_STATE.set_state, h_applier]
    split <;> simp [h_da]
  · simp [trans_xa_commit, process_internal_xa_commit, XID_STATE.has_state,
      XID_STATE.has_same_xid, XID_eq_self, h_state, h_da, r1, r2, r3, h_commit,
      XID_STATE.set_state, XID_STATE.unset_binlogged]
  · simp [trans_xa_rollback, process_internal_xa_rollback, xa_trans_force_rollback,
      XID_STATE.has_state, XID_STATE.has_same_xid, XID_eq_self, h_state, h_da, h_lock, h_gtid,
      h_rollback, XID_STATE.set_state, XID_STATE.unset_binlogged, XID_STATE.reset_error]

/-- Witness for C5: XA PREPARE of the own XID in state IDLE succeeds and
leaves the state PREPARED. -/
theorem xa_idle_row_witness :
    (trans_xa_prepare sample_env sample_xid
      (sample_server xa_states.XA_IDLE 0 [(sample_xid.key, 0)]) sample_thd).1 = false ∧
    (trans_xa_prepare sample_env sample_xid
      (sample_server xa_states.XA_IDLE 0 [(sample_xid.key, 0)]) sample_thd).2.2.da = [] ∧
    ((trans_xa_prepare sample_env sample_xid
      (sample_server xa_states.XA_IDLE 0 [(sample_xid.key, 0)]) sample_thd).2.1.xid_state
        sample_thd.m_transaction).xa_state = xa_states.XA_PREPARED :=
  (xa_idle_row sample_env sample_xid (sample_server xa_states.XA_IDLE 0 [(sample_xid.key, 0)])
    sample_thd rfl rfl rfl rfl (by decide) rfl rfl rfl rfl rfl).2.2.2.2.1

/-- C6: a session in state PREPARED with XID x, rm_error == 0, a clean
diagnostics area and succeeding collaborators: XA START x, XA END x and XA
PREPARE x fail with XAER_RMFAIL and leave the XID_STATE as it was; XA COMMIT x
without ONE PHASE succeeds, the state becomes NOTR and the binlogged flag is
cleared; XA ROLLBACK x succeeds and the state becomes NOTR. -/
theorem xa_prepared_row (env : Collaborators) (x : XID) (srv : Server) (thd : THD)
    (h_state : (srv.xid_state thd.m_transaction).xa_state = xa_states.XA_PREPARED)
    (h_xid : (srv.xid_state thd.m_transaction).m_xid = x)
    (h_rm : (srv.xid_state thd.m_transaction).rm_error = 0)
    (h_da : thd.da = [])
    (h_lock : env.acquire_lock = Outcome.ok)
    (h_gtid : env.commit_owned_gtids = Outcome.ok)
    (h_tc_log : env.tc_log_commit = Outcome.ok)
    (h_commit_low : env.ha_commit_low = Outcome.ok)
    (h_rollback : env.ha_rollback_trans = Outcome.ok) :
    ((trans_xa_start env x xa_option_words.XA_NONE srv thd).1 = true ∧
      (trans_xa_start env x xa_option_words.XA_NONE srv thd).2.2.da = [ER_XAER_RMFAIL] ∧
      (trans_xa_start env x xa_option_words.XA_NONE srv thd).2.1.xid_state thd.m_transaction =
        srv.xid_state thd.m_transaction) ∧
    ((trans_xa_end x xa_option_words.XA_NONE srv thd).1 = true ∧
      (trans_xa_end x xa_option_words.XA_NONE srv thd).2.2.da = [ER_XAER_RMFAIL] ∧
      (trans_xa_end x xa_option_words.XA_NONE srv thd).2.1.xid_state thd.m_transaction =
        srv.xid_state thd.m_transaction) ∧
    ((trans_xa_prepare env x srv thd).1 = true ∧
      (trans_xa_prepare env x srv thd).2.2.da = [ER_XAER_RMFAIL] ∧
      (trans_xa_prepare env x srv thd).2.1.xid_state thd.m_transaction =
        srv.xid_state thd.m_transaction) ∧
    ((trans_xa_commit env x xa_option_words.XA_NONE srv thd).1 = false ∧
      (trans_xa_commit env x xa_option_words.XA_NONE srv thd).2.2.da = [] ∧
      ((trans_xa_commit env x xa_option_words.XA_NONE srv thd).2.1.xid_state
        thd.m_transaction).xa_state = xa_states.XA_NOTR ∧
      ((trans_xa_commit env x xa_option_words.XA_NONE srv thd).2.1.xid_state
        thd.m_transaction).m_is_binlogged = false) ∧
    ((trans_xa_rollback env x srv thd).1 = false ∧
      (trans_xa_rollback env x srv thd).2.2.da = [] ∧
      ((trans_xa_rollback env x srv thd).2.1.xid_state thd.m_transaction).xa_state =
        xa_states.XA_NOTR) := by
  subst h_xid
  obtain ⟨r1, r2, r3, -⟩ := xa_trans_rolled_back_at_no_error thd.m_transaction srv thd h_rm
  simp only [h_state] at r1
  refine ⟨?_, ?_, ?_, ?_, ?_⟩
  · simp [trans_xa_start, XID_STATE.has_state, h_state, my_error, h_da, THD.is_error]
  · simp [trans_xa_end, XID_STATE.has_state, h_state, my_error, h_da, THD.is_error]
  · simp [trans_xa_prepare, XID_STATE.has_state, h_state, my_error, h_da, THD.is_error]
  · cases htc : env.tc_log <;>
    simp [trans_xa_commit, process_internal_xa_commit, XID_STATE.has_state,
      XID_STATE.has_same_xid, XID_eq_self, h_state, h_da, r1, r2, r3, h_lock, h_gtid, h_tc_log,
      h_commit_low, htc, XID_STATE.set_state, XID_STATE.unset_binlogged]
  · simp [trans_xa_rollback, process_internal_xa_rollback, xa_trans_force_rollback,
      XID_STATE.has_state, XID_STATE.has_same_xid, XID_eq_self, h_state, h_da, h_lock, h_gtid,
      h_rollback, XID_STATE.set_state, XID_STATE.unset_binlogged, XID_STATE.reset_error]

/-- Witness for C6: XA COMMIT of the own XID in state PREPARED succeeds, the
state becomes NOTR and the binlogged flag is cleared. -/
theorem xa_prepared_row_witness :
    (trans_xa_commit sample_env sample_xid xa_option_words.XA_NONE
      (sample_server xa_states.XA_PREPARED 0 [(sample_xid.key, 0)]) sample_thd).1 = false ∧
    (trans_xa_commit sample_env sample_xid xa_option_words.XA_NONE
      (sample_server xa_states.XA_PREPARED 0 [(sample_xid.key, 0)]) sample_thd).2.2.da = [] ∧
    ((trans_xa_commit sample_env sample_xid xa_option_words.XA_NONE
      (sample_server xa_states.XA_PREPARED 0 [(sample_xid.key, 0)]) sample_thd).2.1.xid_state
        sample_thd.m_transaction).xa_state = xa_states.XA_NOTR ∧
    ((trans_xa_commit sample_env sample_xid xa_option_words.XA_NONE
      (sample_server xa_states.XA_PREPARED 0 [(sample_xid.key, 0)]) sample_thd).2.1.xid_state
        sample_thd.m_transaction).m_is_binlogged = false :=
  (xa_prepared_row sample_env sample_xid
    (sample_server xa_states.XA_PREPARED 0 [(sample_xid.key, 0)])
    sample_thd rfl rfl rfl rfl rfl rfl rfl rfl rfl).2.2.2.1

/-- C8: a session in state IDLE issuing XA PREPARE with its own XID, not being
a replication applier with an empty transaction: trans_xa_prepare returns
false with the state PREPARED exactly when the commit MDL lock was acquired
and ha_prepare succeeded; in every other case it returns true, the state is
NOTR, rm_error is 0, XA_RBROLLBACK is reported and the entry of the session is
erased from the transaction cache (the cache is otherwise unchanged). -/
theorem xa_prepare_all_or_nothing (env : Collaborators) (x : XID) (srv : Server) (thd : THD)
    (h_state : (srv.xid_state thd.m_transaction).xa_state = xa_states.XA_IDLE)
    (h_xid : (srv.xid_state thd.m_transaction).has_same_xid x = true)
    (h_da : thd.da = [])
    (h_applier : ¬ (thd.slave_thread = true ∧ env.is_transaction_empty = true)) :
    (env.acquire_lock = Outcome.ok ∧ env.ha_prepare = Outcome.ok →
      (trans_xa_prepare env x srv thd).1 = false ∧
      ((trans_xa_prepare env x srv thd).2.1.xid_state thd.m_transaction).xa_state =
        xa_states.XA_PREPARED) ∧
    (¬ (env.acquire_lock = Outcome.ok ∧ env.ha_prepare = Outcome.ok) →
      (trans_xa_prepare env x srv thd).1 = true ∧
      ((trans_xa_prepare env x srv thd).2.1.xid_state thd.m_transaction).xa_state =
        xa_states.XA_NOTR ∧
      ((trans_xa_prepare env x srv thd).2.1.xid_state thd.m_transaction).rm_error = 0 ∧
      ER_XA_RBROLLBACK ∈ (trans_xa_prepare env x srv thd).2.2.da ∧
      (trans_xa_prepare env x srv thd).2.1.transaction_cache =
        (if cache_find (srv.xid_state thd.m_transaction).m_xid.key srv.transaction_cache =
            some thd.m_transaction then
          cache_erase (srv.xid_state thd.m_transaction).m_xid.key srv.transaction_cache
        else srv.transaction_cache) ∧
      cache_find (srv.xid_state thd.m_transaction).m_xid.key
        (trans_xa_prepare env x srv thd).2.1.transaction_cache ≠ some thd.m_transaction) ∧
    (((trans_xa_prepare env x srv thd).2.1.xid_state thd.m_transaction).xa_state =
        xa_states.XA_PREPARED ↔
      (env.acquire_lock = Outcome.ok ∧ env.ha_prepare = Outcome.ok)) := by
  have hm : ∀ (c : Prop) [Decidable c],
      (if c then ({ thd with ignore_durability := true } : THD) else thd).m_transaction =
        thd.m_transaction := by
    intro c _; split <;> rfl
  have hd : ∀ (c : Prop) [Decidable c],
      (if c then ({ thd with ignore_durability := true } : THD) else thd).da = [] := by
    intro c _; split <;> simp [h_da]
  have hok : env.acquire_lock = Outcome.ok ∧ env.ha_prepare = Outcome.ok →
      (trans_xa_prepare env x srv thd).1 = false ∧
      ((trans_xa_prepare env x srv thd).2.1.xid_state thd.m_transaction).xa_state =
        xa_states.XA_PREPARED := by
    rintro ⟨h_lock, h_prepare⟩
    simp [trans_xa_prepare, XID_STATE.has_state, h_xid, h_state, THD.is_error, h_lock,
      h_prepare, XID_STATE.set_state, h_applier, hd]
  have hfail : ¬ (env.acquire_lock = Outcome.ok ∧ env.ha_prepare = Outcome.ok) →
      (trans_xa_prepare env x srv thd).1 = true ∧
      ((trans_xa_prepare env x srv thd).2.1.xid_state thd.m_transaction).xa_state =
        xa_states.XA_NOTR ∧
      ((trans_xa_prepare env x srv thd).2.1.xid_state thd.m_transaction).rm_error = 0 ∧
      ER_XA_RBROLLBACK ∈ (trans_xa_prepare env x srv thd).2.2.da ∧
      (trans_xa_prepare env x srv thd).2.1.transaction_cache =
        (if cache_find (srv.xid_state thd.m_transaction).m_xid.key srv.transaction_cache =
            some thd.m_transaction then
          cache_erase (srv.xid_state thd.m_transaction).m_xid.key srv.transaction_cache
        else srv.transaction_cache) := by
    intro hnot
    by_cases h_lock : env.acquire_lock = Outcome.ok
    · have h_prepare : env.ha_prepare.result ≠ 0 := by
        intro h0
        exact hnot ⟨h_lock, (outcome_result_eq_zero _).mp h0⟩
      simp [trans_xa_prepare, XID_STATE.has_state, h_xid, h_state, THD.is_error, h_lock,
        h_prepare, XID_STATE.set_state, h_applier, hd, hm, my_error, XID_STATE.reset_error,
        cache_cleanup_trans_state]
    · have h_l : env.acquire_lock.result ≠ 0 := by
        intro h0
        exact h_lock ((outcome_result_eq_zero _).mp h0)
      simp [trans_xa_prepare, XID_STATE.has_state, h_xid, h_state, THD.is_error,
        h_l, XID_STATE.set_state, h_applier, hd, hm, my_error, XID_STATE.reset_error,
        cache_cleanup_trans_state]
  refine ⟨hok, ?_, ?_⟩
  · intro hnot
    obtain ⟨f1, f2, f3, f4, f5⟩ := hfail hnot
    refine ⟨f1, f2, f3, f4, f5, ?_⟩
    rw [f5]
    split
    · rw [cache_find_erase]; simp
    · assumption
  · constructor
    · intro hp
      by_contra hnot
      rw [(hfail hnot).2.1] at hp
      exact absurd hp (by decide)
    · intro h; exact (hok h).2

/-- Witness for C8: with the lock acquired and ha_prepare succeeding, XA
PREPARE returns false and the state is PREPARED. -/
theorem xa_prepare_all_or_nothing_witness :
    (trans_xa_prepare sample_env sample_xid
      (sample_server xa_states.XA_IDLE 0 [(sample_xid.key, 0)]) sample_thd).1 = false ∧
    ((trans_xa_prepare sample_env sample_xid
      (sample_server xa_states.XA_IDLE 0 [(sample_xid.key, 0)]) sample_thd).2.1.xid_state
        sample_thd.m_transaction).xa_state = xa_states.XA_PREPARED :=
  (xa_prepare_all_or_nothing sample_env sample_xid
    (sample_server xa_states.XA_IDLE 0 [(sample_xid.key, 0)]) sample_thd
    rfl (by decide) rfl (by decide)).1 ⟨rfl, rfl⟩

/-- C9: XA START x (no option, outside locked-tables mode and any
multi-statement transaction, x passing the reserved-byte test, trans_begin
succeeding) from a session in state NOTR, when the key of x is already in the
transaction cache: the statement fails with XAER_DUPID, the state afterwards
is NOTR and the cache is unchanged, the key still mapping to the original
branch and occurring once. Moreover the keys of the cache stay pairwise
distinct under every sequence of cache operations. -/
theorem xa_start_duplicate_xid (env : Collaborators) (x : XID) (srv : Server) (thd : THD)
    (original : Nat)
    (h_state : (srv.xid_state thd.m_transaction).xa_state = xa_states.XA_NOTR)
    (h_locked : thd.locked_tables_mode = false)
    (h_in_trans : thd.status_in_trans = false)
    (h_bytes : strnchr x.data 124 (size_t_of (x.bqual_length + x.gtrid_length)) = none)
    (h_begin : env.trans_begin = Outcome.ok)
    (h_da : thd.da = [])
    (h_present : cache_find x.key srv.transaction_cache = some original) :
    ((trans_xa_start env x xa_option_words.XA_NONE srv thd).1 = true ∧
      (trans_xa_start env x xa_option_words.XA_NONE srv thd).2.2.da =
        ER_XAER_DUPID :: env.trans_rollback.raised ∧
      ((trans_xa_start env x xa_option_words.XA_NONE srv thd).2.1.xid_state
        thd.m_transaction).xa_state = xa_states.XA_NOTR ∧
      (trans_xa_start env x xa_option_words.XA_NONE srv thd).2.1.transaction_cache =
        srv.transaction_cache ∧
      cache_find x.key
        (trans_xa_start env x xa_option_words.XA_NONE srv thd).2.1.transaction_cache =
          some original ∧
      (srv.cache_keys.Nodup →
        (trans_xa_start env x xa_option_words.XA_NONE srv thd).2.1.transaction_cache.filter
          (fun e => decide (e.1 = x.key)) = [(x.key, original)])) ∧
    (∀ (session : THD) (ops : List Cache_op) (srv0 : Server), srv0.cache_keys.Nodup →
      (ops.foldl (fun s op => op.run session s) srv0).cache_keys.Nodup) := by
  have hcache : (trans_xa_start env x xa_option_words.XA_NONE srv thd).2.1.transaction_cache =
      srv.transaction_cache := by
    simp [trans_xa_start, XID_STATE.has_state, h_state, h_locked, h_in_trans,
      THD.in_active_multi_stmt_transaction, h_bytes, h_begin, h_present]
  refine ⟨⟨?_, ?_, ?_, hcache, ?_, ?_⟩, fun session ops srv0 h => cache_ops_keys_nodup session ops srv0 h⟩
  · simp [trans_xa_start, XID_STATE.has_state, h_state, h_locked, h_in_trans,
      THD.in_active_multi_stmt_transaction, h_bytes, h_begin, h_present, THD.is_error, my_error]
  · simp [trans_xa_start, XID_STATE.has_state, h_state, h_locked, h_in_trans,
      THD.in_active_multi_stmt_transaction, h_bytes, h_begin, h_present, my_error, h_da]
  · simp [trans_xa_start, XID_STATE.has_state, h_state, h_locked, h_in_trans,
      THD.in_active_multi_stmt_transaction, h_bytes, h_begin, h_present, XID_STATE.reset]
  · rw [hcache]; exact h_present
  · intro hnd
    rw [hcache]
    exact cache_entries_of_key x.key original srv.transaction_cache hnd h_present

/-- C10: XA START x without option from a session in state NOTR with a clean
diagnostics area, outside locked-tables mode and any multi-statement
transaction, where the bytes of x hold no reserved byte (124), the key of x is
absent from the cache and trans_begin succeeds: trans_xa_start returns false,
the state is ACTIVE, the stored XID is x, the xa_type is EXTERNAL and the cache
maps the key of x to the session's own Transaction_ctx. -/
theorem xa_start_success (env : Collaborators) (x : XID) (srv : Server) (thd : THD)
    (h_state : (srv.xid_state thd.m_transaction).xa_state = xa_states.XA_NOTR)
    (h_locked : thd.locked_tables_mode = false)
    (h_in_trans : thd.status_in_trans = false)
    (h_bytes : 124 ∉ x.data.take (size_t_of (x.bqual_length + x.gtrid_length)))
    (h_begin : env.trans_begin = Outcome.ok)
    (h_da : thd.da = [])
    (h_absent : cache_find x.key srv.transaction_cache = none) :
    (trans_xa_start env x xa_option_words.XA_NONE srv thd).1 = false ∧
    (trans_xa_start env x xa_option_words.XA_NONE srv thd).2.2.da = [] ∧
    ((trans_xa_start env x xa_option_words.XA_NONE srv thd).2.1.xid_state
      thd.m_transaction).xa_state = xa_states.XA_ACTIVE ∧
    ((trans_xa_start env x xa_option_words.XA_NONE srv thd).2.1.xid_state
      thd.m_transaction).m_xid = x ∧
    ((trans_xa_start env x xa_option_words.XA_NONE srv thd).2.1.xid_state
      thd.m_transaction).m_xa_type = xa_type_t.XA_EXTERNAL ∧
    (trans_xa_start env x xa_option_words.XA_NONE srv thd).2.1.transaction_cache =
      srv.transaction_cache ++ [(x.key, thd.m_transaction)] ∧
    cache_find x.key
      (trans_xa_start env x xa_option_words.XA_NONE srv thd).2.1.transaction_cache =
        some thd.m_transaction := by
  have hs : strnchr x.data 124 (size_t_of (x.bqual_length + x.gtrid_length)) = none :=
    strnchr_loop_none 124 x.data _ 0 h_bytes
  have hcache : (trans_xa_start env x xa_option_words.XA_NONE srv thd).2.1.transaction_cache =
      srv.transaction_cache ++ [(x.key, thd.m_transaction)] := by
    simp [trans_xa_start, XID_STATE.has_state, h_state, h_locked, h_in_trans,
      THD.in_active_multi_stmt_transaction, hs, h_begin, h_absent]
  refine ⟨?_, ?_, ?_, ?_, ?_, hcache, ?_⟩
  · simp [trans_xa_start, XID_STATE.has_state, h_state, h_locked, h_in_trans,
      THD.in_active_multi_stmt_transaction, hs, h_begin, h_absent, THD.is_error, h_da, XID_STATE.start_normal_xa,
      XID_STATE.set_xa_type]
  · simp [trans_xa_start, XID_STATE.has_state, h_state, h_locked, h_in_trans,
      THD.in_active_multi_stmt_transaction, hs, h_begin, h_absent, h_da]
  · simp [trans_xa_start, XID_STATE.has_state, h_state, h_locked, h_in_trans,
      THD.in_active_multi_stmt_transaction, hs, h_begin, h_absent, XID_STATE.start_normal_xa, XID_STATE.set_xa_type]
  · simp [trans_xa_start, XID_STATE.has_state, h_state, h_locked, h_in_trans,
      THD.in_active_multi_stmt_transaction, hs, h_begin, h_absent, XID_STATE.start_normal_xa, XID_STATE.set_xa_type]
  · simp [trans_xa_start, XID_STATE.has_state, h_state, h_locked, h_in_trans,
      THD.in_active_multi_stmt_transaction, hs, h_begin, h_absent, XID_STATE.start_normal_xa, XID_STATE.set_xa_type]
  · rw [hcache, cache_find_append, h_absent]
    simp

/-- Witness for C9: the key of t1 already maps to the branch at address 5; XA
START t1 from another session fails with XAER_DUPID and the cache still holds
that single entry. -/
theorem xa_start_duplicate_xid_witness :
    (trans_xa_start sample_env sample_xid xa_option_words.XA_NONE
      (sample_server xa_states.XA_NOTR 0 [(sample_xid.key, 5)]) sample_thd).1 = true ∧
    (trans_xa_start sample_env sample_xid xa_option_words.XA_NONE
      (sample_server xa_states.XA_NOTR 0 [(sample_xid.key, 5)]) sample_thd).2.2.da =
        ER_XAER_DUPID :: sample_env.trans_rollback.raised ∧
    ((trans_xa_start sample_env sample_xid xa_option_words.XA_NONE
      (sample_server xa_states.XA_NOTR 0 [(sample_xid.key, 5)]) sample_thd).2.1.xid_state
        sample_thd.m_transaction).xa_state = xa_states.XA_NOTR ∧
    (trans_xa_start sample_env sample_xid xa_option_words.XA_NONE
      (sample_server xa_states.XA_NOTR 0 [(sample_xid.key, 5)]) sample_thd).2.1.transaction_cache
        = (sample_server xa_states.XA_NOTR 0 [(sample_xid.key, 5)]).transaction_cache :=
  have h := (xa_start_duplicate_xid sample_env sample_xid
    (sample_server xa_states.XA_NOTR 0 [(sample_xid.key, 5)]) sample_thd 5
    rfl rfl rfl (by decide) rfl rfl (by decide)).1
  ⟨h.1, h.2.1, h.2.2.1, h.2.2.2.1⟩

/-- Witness for C10: XA START t1 on an empty cache succeeds; the session is
ACTIVE with XID t1 and the cache maps the key of t1 to the session. -/
theorem xa_start_success_witness :
    (trans_xa_start sample_env sample_xid xa_option_words.XA_NONE
      (sample_server xa_states.XA_NOTR 0 []) sample_thd).1 = false ∧
    (trans_xa_start sample_env sample_xid xa_option_words.XA_NONE
      (sample_server xa_states.XA_NOTR 0 []) sample_thd).2.2.da = [] ∧
    ((trans_xa_start sample_env sample_xid xa_option_words.XA_NONE
      (sample_server xa_states.XA_NOTR 0 []) sample_thd).2.1.xid_state
        sample_thd.m_transaction).xa_state = xa_states.XA_ACTIVE ∧
    ((trans_xa_start sample_env sample_xid xa_option_words.XA_NONE
      (sample_server xa_states.XA_NOTR 0 []) sample_thd).2.1.xid_state
        sample_thd.m_transaction).m_xid = sample_xid :=
  have h := xa_start_success sample_env sample_xid
    (sample_server xa_states.XA_NOTR 0 []) sample_thd rfl rfl rfl (by decide) rfl rfl rfl
  ⟨h.1, h.2.1, h.2.2.1, h.2.2.2.1⟩

/-! ## The cache, the by-xid fan-out and xa_trans_rolled_back -/

/-- Lookup of another key is not affected by an erase. -/
theorem cache_find_erase_ne (k k1 : Int × Int × List Nat) (h : k1 ≠ k) :
    ∀ c : List ((Int × Int × List Nat) × Nat),
      cache_find k1 (cache_erase k c) = cache_find k1 c := by
  intro c
  induction c with
  | nil => rfl
  | cons e rest ih =>
    obtain ⟨k2, a⟩ := e
    by_cases h2 : k2 = k
    · have h3 : ¬ k2 = k1 := fun h4 => h (h4.symm.trans h2)
      simpa [cache_erase, h2, cache_find, h3, h2 ▸ h3] using ih
    · by_cases h3 : k2 = k1
      · subst h3
        simp [cache_erase, h2, cache_find]
      · simpa [cache_erase, h2, cache_find, h3] using ih

/-- C13: transaction_cache_delete(ctx) erases the entry stored under the key of
the XID of ctx exactly when that entry is ctx itself; when the key is absent
or maps to another branch the cache is left as it was. Entries under other
keys, and the memory, are never affected. -/
theorem transaction_cache_delete_aba_safe (ctx : Nat) (srv : Server) :
    (cache_find (srv.xid_state ctx).m_xid.key srv.transaction_cache = some ctx →
      (transaction_cache_delete ctx srv).transaction_cache =
        cache_erase (srv.xid_state ctx).m_xid.key srv.transaction_cache ∧
      cache_find (srv.xid_state ctx).m_xid.key
        (transaction_cache_delete ctx srv).transaction_cache = none) ∧
    (cache_find (srv.xid_state ctx).m_xid.key srv.transaction_cache ≠ some ctx →
      (transaction_cache_delete ctx srv).transaction_cache = srv.transaction_cache) ∧
    (∀ k, k ≠ (srv.xid_state ctx).m_xid.key →
      cache_find k (transaction_cache_delete ctx srv).transaction_cache =
        cache_find k srv.transaction_cache) ∧
    (transaction_cache_delete ctx srv).transaction_cache.filter
        (fun e => decide (e.1 ≠ (srv.xid_state ctx).m_xid.key)) =
      srv.transaction_cache.filter
        (fun e => decide (e.1 ≠ (srv.xid_state ctx).m_xid.key)) ∧
    (transaction_cache_delete ctx srv).heap = srv.heap := by
  cases hf : cache_find (srv.xid_state ctx).m_xid.key srv.transaction_cache with
  | none =>
    simp [transaction_cache_delete, hf]
  | some a =>
    by_cases ha : a = ctx
    · subst ha
      simp only [transaction_cache_delete, hf, if_true, true_implies, ne_eq, not_true_eq_false,
        false_implies, true_and]
      refine ⟨cache_find_erase _ _, fun k hk => cache_find_erase_ne _ _ hk _, ?_⟩
      simp [cache_erase]
    · simp [transaction_cache_delete, hf, ha]

/-- Witness for C13: the branch at address 1 holds the XID t1, whose key now
maps to the later branch at address 2; deleting the branch at address 1 leaves
the cache as it was. -/
theorem transaction_cache_delete_aba_safe_witness :
    (transaction_cache_delete 1
      { sample_recovered_server with transaction_cache := [(sample_xid.key, 2)] }
      ).transaction_cache = [(sample_xid.key, 2)] :=
  (transaction_cache_delete_aba_safe 1
    { sample_recovered_server with transaction_cache := [(sample_xid.key, 2)] }).2.1
    (by decide)

/-- C16: xacommit_handlerton and xarollback_handlerton return false without
calling the engine and without raising an error when the engine is not
enabled or has no recover capability; on an enabled engine they call
commit_by_xid / rollback_by_xid once and return false, raising nothing, when
it answers XA_OK or XAER_NOTA, and raise ER_XAER_RMERR and return true for
every other status. -/
theorem by_xid_fan_out_tolerates_nota (xid : XID) (hton : handlerton) (srv : Server)
    (thd : THD) :
    (¬ (hton.state = SHOW_COMP_OPTION.SHOW_OPTION_YES ∧ hton.recover.isSome = true) →
      xacommit_handlerton xid hton (srv, thd) = (false, (srv, thd)) ∧
      xarollback_handlerton xid hton (srv, thd) = (false, (srv, thd))) ∧
    (hton.state = SHOW_COMP_OPTION.SHOW_OPTION_YES ∧ hton.recover.isSome = true →
      (xacommit_handlerton xid hton (srv, thd)).2.1.calls =
        srv.calls ++ [Call.engine (Engine_call.commit_by_xid hton.slot xid)] ∧
      (xarollback_handlerton xid hton (srv, thd)).2.1.calls =
        srv.calls ++ [Call.engine (Engine_call.rollback_by_xid hton.slot xid)] ∧
      (hton.commit_by_xid xid = xa_status_code.XA_OK ∨
          hton.commit_by_xid xid = xa_status_code.XAER_NOTA →
        (xacommit_handlerton xid hton (srv, thd)).1 = false ∧
        (xacommit_handlerton xid hton (srv, thd)).2.2 = thd) ∧
      (¬ (hton.commit_by_xid xid = xa_status_code.XA_OK ∨
          hton.commit_by_xid xid = xa_status_code.XAER_NOTA) →
        (xacommit_handlerton xid hton (srv, thd)).1 = true ∧
        (xacommit_handlerton xid hton (srv, thd)).2.2.da = thd.da ++ [ER_XAER_RMERR]) ∧
      (hton.rollback_by_xid xid = xa_status_code.XA_OK ∨
          hton.rollback_by_xid xid = xa_status_code.XAER_NOTA →
        (xarollback_handlerton xid hton (srv, thd)).1 = false ∧
        (xarollback_handlerton xid hton (srv, thd)).2.2 = thd) ∧
      (¬ (hton.rollback_by_xid xid = xa_status_code.XA_OK ∨
          hton.rollback_by_xid xid = xa_status_code.XAER_NOTA) →
        (xarollback_handlerton xid hton (srv, thd)).1 = true ∧
        (xarollback_handlerton xid hton (srv, thd)).2.2.da = thd.da ++ [ER_XAER_RMERR])) := by
  constructor
  · intro h
    simp [xacommit_handlerton, xarollback_handlerton, h]
  · intro h
    refine ⟨?_, ?_, ?_, ?_, ?_, ?_⟩
    · simp only [xacommit_handlerton, h, and_self, if_true]
      split <;> rfl
    · simp only [xarollback_handlerton, h, and_self, if_true]
      split <;> rfl
    · intro hs
      rcases hs with hs | hs <;> simp [xacommit_handlerton, h, hs]
    · intro hs
      simp only [not_or] at hs
      simp [xacommit_handlerton, h, hs, my_error]
    · intro hs
      rcases hs with hs | hs <;> simp [xarollback_handlerton, h, hs]
    · intro hs
      simp only [not_or] at hs
      simp [xarollback_handlerton, h, hs, my_error]

/-- Witness for C16: an enabled engine that answers XAER_NOTA to commit_by_xid
makes xacommit_handlerton return false with nothing raised. -/
theorem by_xid_fan_out_tolerates_nota_witness :
    (xacommit_handlerton sample_xid
      { sample_engine [] with commit_by_xid := fun _ => xa_status_code.XAER_NOTA }
      (sample_empty_server, sample_thd)).1 = false ∧
    (xacommit_handlerton sample_xid
      { sample_engine [] with commit_by_xid := fun _ => xa_status_code.XAER_NOTA }
      (sample_empty_server, sample_thd)).2.2 = sample_thd :=
  ((by_xid_fan_out_tolerates_nota sample_xid
    { sample_engine [] with commit_by_xid := fun _ => xa_status_code.XAER_NOTA }
    sample_empty_server sample_thd).2 ⟨rfl, rfl⟩).2.2.1 (Or.inr rfl)

/-- C20: XID_STATE::xa_trans_rolled_back. With rm_error != 0 it reports
XA_RBTIMEOUT for the lock-wait-timeout error, XA_RBDEADLOCK for the deadlock
error and XA_RBROLLBACK for every other value, sets the state to
ROLLBACK_ONLY, changes nothing else and returns true; with rm_error == 0 it
reports nothing, changes nothing and returns true exactly when the state is
ROLLBACK_ONLY. -/
theorem xa_trans_rolled_back_contract (xs : XID_STATE) (thd : THD) :
    (xs.rm_error ≠ 0 →
      (xs.xa_trans_rolled_back thd).1 = true ∧
      (xs.xa_trans_rolled_back thd).2.1 = { xs with xa_state := xa_states.XA_ROLLBACK_ONLY } ∧
      (xs.xa_trans_rolled_back thd).2.2 =
        my_error (if xs.rm_error = ER_LOCK_WAIT_TIMEOUT then ER_XA_RBTIMEOUT
                  else if xs.rm_error = ER_LOCK_DEADLOCK then ER_XA_RBDEADLOCK
                  else ER_XA_RBROLLBACK) thd) ∧
    (xs.rm_error = 0 →
      ((xs.xa_trans_rolled_back thd).1 = true ↔ xs.xa_state = xa_states.XA_ROLLBACK_ONLY) ∧
      (xs.xa_trans_rolled_back thd).2.1 = xs ∧
      (xs.xa_trans_rolled_back thd).2.2 = thd) := by
  constructor
  · intro h
    simp only [XID_STATE.xa_trans_rolled_back, ne_eq, h, not_false_eq_true, if_true, true_and]
    split
    · rfl
    · split <;> rfl
  · intro h
    simp [XID_STATE.xa_trans_rolled_back, h]

/-- Witness for C20: with the deadlock error pending the call returns true. -/
theorem xa_trans_rolled_back_contract_witness :
    (((sample_server xa_states.XA_ACTIVE ER_LOCK_DEADLOCK []).xid_state 0).xa_trans_rolled_back
      sample_thd).1 = true :=
  ((xa_trans_rolled_back_contract
    ((sample_server xa_states.XA_ACTIVE ER_LOCK_DEADLOCK []).xid_state 0) sample_thd).1
    (by decide)).1

/-! ## Foreign terminators and commit modes -/

/-- A lookup that fails leaves nothing but the error: the address is none
exactly in the three cases of find_trn_for_recover_and_check_its_state. -/
theorem find_trn_failure (x : XID) (srv : Server) (thd : THD) :
    ((srv.xid_state thd.m_transaction).xa_state ≠ xa_states.XA_NOTR →
      find_trn_for_recover_and_check_its_state x srv thd =
        (none, my_error ER_XAER_RMFAIL thd)) ∧
    ((srv.xid_state thd.m_transaction).xa_state = xa_states.XA_NOTR →
      (cache_find x.key srv.transaction_cache = none ∨
        ∃ a, cache_find x.key srv.transaction_cache = some a ∧
          (srv.xid_state a).in_recovery = false) →
      find_trn_for_recover_and_check_its_state x srv thd =
        (none, my_error ER_XAER_NOTA thd)) := by
  constructor
  · intro h
    simp [find_trn_for_recover_and_check_its_state, XID_STATE.has_state, h]
  · intro h hc
    rcases hc with hc | ⟨a, hc, hr⟩
    · simp [find_trn_for_recover_and_check_its_state, XID_STATE.has_state, h,
        transaction_cache_search, hc]
    · simp [find_trn_for_recover_and_check_its_state, XID_STATE.has_state, h,
        transaction_cache_search, hc, hr]

/-- C14: XA COMMIT x and XA ROLLBACK x with x different from the XID of the
session: when the state of the session is not NOTR the command fails with
XAER_RMFAIL; in state NOTR, when the cache has no entry for x or the entry
found is not in_recovery, it fails with XAER_NOTA. In these failures the
server is left exactly as it was: no engine call, same cache, same
XID_STATE. -/
theorem foreign_terminator_lookup (env : Collaborators) (x : XID) (opt : xa_option_words)
    (srv : Server) (thd : THD)
    (h_foreign : (srv.xid_state thd.m_transaction).has_same_xid x = false) :
    ((srv.xid_state thd.m_transaction).xa_state ≠ xa_states.XA_NOTR →
      trans_xa_commit env x opt srv thd = (true, srv, my_error ER_XAER_RMFAIL thd) ∧
      trans_xa_rollback env x srv thd = (true, srv, my_error ER_XAER_RMFAIL thd)) ∧
    ((srv.xid_state thd.m_transaction).xa_state = xa_states.XA_NOTR →
      (cache_find x.key srv.transaction_cache = none ∨
        ∃ a, cache_find x.key srv.transaction_cache = some a ∧
          (srv.xid_state a).in_recovery = false) →
      trans_xa_commit env x opt srv thd = (true, srv, my_error ER_XAER_NOTA thd) ∧
      trans_xa_rollback env x srv thd = (true, srv, my_error ER_XAER_NOTA thd)) := by
  obtain ⟨f1, f2⟩ := find_trn_failure x srv thd
  constructor
  · intro h
    simp [trans_xa_commit, trans_xa_rollback, process_external_xa_commit,
      process_external_xa_rollback, h_foreign, f1 h]
  · intro h hc
    simp [trans_xa_commit, trans_xa_rollback, process_external_xa_commit,
      process_external_xa_rollback, h_foreign, f2 h hc]

/-- Witness for C14: a session in state NOTR commits the unknown XID t1 on an
empty cache. -/
theorem foreign_terminator_lookup_witness :
    trans_xa_commit sample_env sample_xid xa_option_words.XA_NONE sample_empty_server
      sample_thd = (true, sample_empty_server, my_error ER_XAER_NOTA sample_thd) :=
  ((foreign_terminator_lookup sample_env sample_xid xa_option_words.XA_NONE
    sample_empty_server sample_thd (by decide)).2 (by decide) (Or.inl (by decide))).1

/-- Storing back the XID_STATE found at an address changes nothing. -/
theorem set_xid_state_self (srv : Server) (a : Nat) :
    srv.set_xid_state a (srv.xid_state a) = srv := by
  simp [Server.set_xid_state, Server.xid_state]

/-- C18: a session committing its own XID with rm_error == 0 outside state
ROLLBACK_ONLY: unless the state is IDLE with ONE PHASE or PREPARED without
option, XA COMMIT fails with XAER_RMFAIL and leaves the server exactly as it
was (no collaborator or engine call, same state, binlogged flag and cache). -/
theorem xa_commit_mode_must_match (env : Collaborators) (x : XID) (opt : xa_option_words)
    (srv : Server) (thd : THD)
    (h_own : (srv.xid_state thd.m_transaction).has_same_xid x = true)
    (h_rm : (srv.xid_state thd.m_transaction).rm_error = 0)
    (h_rb : (srv.xid_state thd.m_transaction).xa_state ≠ xa_states.XA_ROLLBACK_ONLY)
    (h_one_phase : ¬ ((srv.xid_state thd.m_transaction).xa_state = xa_states.XA_IDLE ∧
      opt = xa_option_words.XA_ONE_PHASE))
    (h_plain : ¬ ((srv.xid_state thd.m_transaction).xa_state = xa_states.XA_PREPARED ∧
      opt = xa_option_words.XA_NONE)) :
    trans_xa_commit env x opt srv thd = (true, srv, my_error ER_XAER_RMFAIL thd) := by
  have hrb : xa_trans_rolled_back_at thd.m_transaction srv thd = (false, srv, thd) := by
    simp [xa_trans_rolled_back_at, XID_STATE.xa_trans_rolled_back, h_rm, h_rb,
      set_xid_state_self]
  have c1 := iff_false_intro h_one_phase
  have c2 := iff_false_intro h_plain
  simp [trans_xa_commit, process_internal_xa_commit, h_own, hrb, XID_STATE.has_state, c1, c2]

/-- Witness for C18: XA COMMIT ONE PHASE in state PREPARED is refused. -/
theorem xa_commit_mode_must_match_witness :
    trans_xa_commit sample_env sample_xid xa_option_words.XA_ONE_PHASE
      (sample_server xa_states.XA_PREPARED 0 [(sample_xid.key, 0)]) sample_thd =
      (true, sample_server xa_states.XA_PREPARED 0 [(sample_xid.key, 0)],
        my_error ER_XAER_RMFAIL sample_thd) :=
  xa_commit_mode_must_match sample_env sample_xid xa_option_words.XA_ONE_PHASE
    (sample_server xa_states.XA_PREPARED 0 [(sample_xid.key, 0)]) sample_thd
    (by decide) rfl (by decide) (by decide) (by decide)

/-! ## The reserved byte, the literal form and lock failures -/

/-- The function strnchr finds the byte when it occurs among the first n bytes
and no NUL byte does. -/
theorem strnchr_loop_some (c : Nat) (hc : c ≠ 0) :
    ∀ (l : List Nat) (n i : Nat), c ∈ l.take n → 0 ∉ l.take n →
      (strnchr_loop c l n i).isSome = true := by
  intro l
  induction l with
  | nil => intro n i h _; simp at h
  | cons b rest ih =>
    intro n i h h0
    cases n with
    | zero => simp at h
    | succ m =>
      simp only [List.take_succ_cons, List.mem_cons, not_or] at h h0
      have hb0 : ¬ b = 0 := fun h2 => h0.1 h2.symm
      by_cases hb : b = c
      · simp [strnchr_loop, hb, hc]
      · have hmem : c ∈ rest.take m := by
          rcases h with h | h
          · exact absurd h.symm hb
          · exact h
        simpa [strnchr_loop, hb, hb0] using ih m (i + 1) hmem h0.2

/-- XA START without option from state NOTR, outside any other transaction,
of an XID in which strnchr finds the reserved byte: XAER_INVAL, and the server
is left exactly as it was. -/
theorem xa_start_rejects_found_reserved_byte (env : Collaborators) (x : XID) (srv : Server)
    (thd : THD)
    (h_state : (srv.xid_state thd.m_transaction).xa_state = xa_states.XA_NOTR)
    (h_locked : thd.locked_tables_mode = false)
    (h_in_trans : thd.status_in_trans = false)
    (h_found : (strnchr x.data 124 (size_t_of (x.bqual_length + x.gtrid_length))).isSome = true) :
    trans_xa_start env x xa_option_words.XA_NONE srv thd =
      (true, srv, my_error ER_XAER_INVAL thd) := by
  simp [trans_xa_start, XID_STATE.has_state, h_state, h_locked, h_in_trans,
    THD.in_active_multi_stmt_transaction, h_found]

/-- C11, the code at the failing input: the XID with gtrid bytes a, NUL, bar, b
holds the reserved byte 124 among its gtrid_length + bqual_length data bytes,
yet strnchr stops at the NUL byte and XA START accepts it from state NOTR: the
call returns false with no error, trans_begin is called, the state is ACTIVE
and the XID is inserted into the cache. -/
theorem xa_start_accepts_reserved_byte_after_nul :
    124 ∈ sample_nul_bar_xid.data.take
      (sample_nul_bar_xid.gtrid_length + sample_nul_bar_xid.bqual_length).toNat ∧
    strnchr sample_nul_bar_xid.data 124
      (size_t_of (sample_nul_bar_xid.bqual_length + sample_nul_bar_xid.gtrid_length)) = none ∧
    (trans_xa_start sample_env sample_nul_bar_xid xa_option_words.XA_NONE
      (sample_server xa_states.XA_NOTR 0 []) sample_thd).1 = false ∧
    (trans_xa_start sample_env sample_nul_bar_xid xa_option_words.XA_NONE
      (sample_server xa_states.XA_NOTR 0 []) sample_thd).2.2.da = [] ∧
    (trans_xa_start sample_env sample_nul_bar_xid xa_option_words.XA_NONE
      (sample_server xa_states.XA_NOTR 0 []) sample_thd).2.1.calls = [Call.trans_begin] ∧
    ((trans_xa_start sample_env sample_nul_bar_xid xa_option_words.XA_NONE
      (sample_server xa_states.XA_NOTR 0 []) sample_thd).2.1.xid_state 0).xa_state =
        xa_states.XA_ACTIVE ∧
    (trans_xa_start sample_env sample_nul_bar_xid xa_option_words.XA_NONE
      (sample_server xa_states.XA_NOTR 0 []) sample_thd).2.1.transaction_cache =
        [(sample_nul_bar_xid.key, 0)] := by
  decide

/-- C12, the code at the failing input: the literal serialization of the XID
with gtrid a, empty bqual and format id 1 is the text X'61',X'',1; on it
deserialize_xid returns false with fmt = 1, gln = 1 and dat = a, but bln = 3
(computed as i - 4 - gln = 8 - 4 - 1) where the length of bqual is 0. -/
theorem deserialize_xid_literal_reports_wrong_bqual_length :
    sample_short_xid.serialize = [88, 39, 54, 49, 39, 44, 88, 39, 39, 44, 49] ∧
    deserialize_xid false (sample_short_xid.serialize ++ [0]) =
      some { ret := false, fmt := some 1, gln := some 1, bln := some 3, dat := [97] } ∧
    sample_short_xid.bqual_length = 0 := by
  decide

/-- C15, the code at the failing inputs: when acquire_lock fails, XA ROLLBACK
of the session's own PREPARED branch and XA ROLLBACK of a recovered branch
both return true raising ER_XAER_RMERR, not ER_XA_RETRY, whereas the two XA
COMMIT paths raise ER_XA_RETRY; in all four no call follows acquire_lock, the
branch stays PREPARED and the cache is unchanged. -/
theorem xa_rollback_lock_failure_raises_rmerr :
    trans_xa_rollback sample_env_lock_timeout sample_xid
        (sample_server xa_states.XA_PREPARED 0 [(sample_xid.key, 0)]) sample_thd =
      (true,
        { sample_server xa_states.XA_PREPARED 0 [(sample_xid.key, 0)] with
          calls := [Call.acquire_lock] },
        { sample_thd with da := [ER_LOCK_WAIT_TIMEOUT, ER_XAER_RMERR] }) ∧
    (trans_xa_rollback sample_env_lock_timeout sample_xid sample_recovered_server
        sample_thd).1 = true ∧
    (trans_xa_rollback sample_env_lock_timeout sample_xid sample_recovered_server
        sample_thd).2.2.da = [ER_LOCK_WAIT_TIMEOUT, ER_XAER_RMERR] ∧
    (trans_xa_rollback sample_env_lock_timeout sample_xid sample_recovered_server
        sample_thd).2.1.calls = [Call.acquire_lock] ∧
    (trans_xa_rollback sample_env_lock_timeout sample_xid sample_recovered_server
        sample_thd).2.1.transaction_cache = sample_recovered_server.transaction_cache ∧
    ((trans_xa_rollback sample_env_lock_timeout sample_xid sample_recovered_server
        sample_thd).2.1.xid_state 1).xa_state = xa_states.XA_PREPARED ∧
    (trans_xa_commit sample_env_lock_timeout sample_xid xa_option_words.XA_NONE
        (sample_server xa_states.XA_PREPARED 0 [(sample_xid.key, 0)]) sample_thd).2.2.da =
      [ER_LOCK_WAIT_TIMEOUT, ER_XA_RETRY] ∧
    (trans_xa_commit sample_env_lock_timeout sample_xid xa_option_words.XA_NONE
        sample_recovered_server sample_thd).2.2.da = [ER_LOCK_WAIT_TIMEOUT, ER_XA_RETRY] := by
  refine ⟨?_, by decide, by decide, by decide, by decide, by decide, by decide, by decide⟩
  simp [trans_xa_rollback, process_internal_xa_rollback, sample_env_lock_timeout, sample_server,
    sample_thd, sample_xid, Server.xid_state, XID_STATE.has_same_xid, XID.eq,
    XID_STATE.has_state, collab, Outcome.result, Outcome.raised, Outcome.set_error, my_error]

/-! ## Finalizing a foreign branch -/

/-- A projection of the state that every callback preserves is preserved by
plugin_foreach. -/
theorem plugin_foreach_preserves {σ α : Type} (f : handlerton → σ → Bool × σ) (g : σ → α)
    (hf : ∀ hton st, g (f hton st).2 = g st) :
    ∀ (plugins : List handlerton) (st : σ), g (plugin_foreach f plugins st).2 = g st := by
  intro plugins
  induction plugins with
  | nil => intro st; rfl
  | cons hton rest ih =>
    intro st
    rw [plugin_foreach]
    cases hh : f hton st with
    | mk r s =>
      have h1 := hf hton st
      rw [hh] at h1
      cases r with
      | true => exact h1
      | false => exact (ih s).trans h1

/-- The by-xid fan-out only calls engines and raises errors: memory, cache and
the session's Transaction_ctx stay as they were. -/
theorem fan_out_frame (env : Collaborators) (xid : XID) (commit : Bool) (srv : Server)
    (thd : THD) :
    (ha_commit_or_rollback_by_xid env xid commit srv thd).2.1.heap = srv.heap ∧
    (ha_commit_or_rollback_by_xid env xid commit srv thd).2.1.transaction_cache =
      srv.transaction_cache ∧
    (ha_commit_or_rollback_by_xid env xid commit srv thd).2.2.m_transaction =
      thd.m_transaction := by
  have hc : ∀ hton (st : Server × THD),
      ((xacommit_handlerton xid hton st).2.1.heap,
        (xacommit_handlerton xid hton st).2.1.transaction_cache,
        (xacommit_handlerton xid hton st).2.2.m_transaction) =
      (st.1.heap, st.1.transaction_cache, st.2.m_transaction) := by
    intro hton st
    simp only [xacommit_handlerton]
    split
    · split <;> rfl
    · rfl
  have hr : ∀ hton (st : Server × THD),
      ((xarollback_handlerton xid hton st).2.1.heap,
        (xarollback_handlerton xid hton st).2.1.transaction_cache,
        (xarollback_handlerton xid hton st).2.2.m_transaction) =
      (st.1.heap, st.1.transaction_cache, st.2.m_transaction) := by
    intro hton st
    simp only [xarollback_handlerton]
    split
    · split <;> rfl
    · rfl
  cases commit with
  | true =>
    have h := plugin_foreach_preserves (xacommit_handlerton xid)
      (fun st : Server × THD => (st.1.heap, st.1.transaction_cache, st.2.m_transaction)) hc
      env.plugins (srv, thd)
    simp only [Prod.mk.injEq] at h
    simpa [ha_commit_or_rollback_by_xid] using h
  | false =>
    have h := plugin_foreach_preserves (xarollback_handlerton xid)
      (fun st : Server × THD => (st.1.heap, st.1.transaction_cache, st.2.m_transaction)) hr
      env.plugins (srv, thd)
    simp only [Prod.mk.injEq] at h
    simpa [ha_commit_or_rollback_by_xid] using h

/-- The by-xid fan-out leaves every XID_STATE as it was. -/
theorem fan_out_xid_state (env : Collaborators) (xid : XID) (commit : Bool) (srv : Server)
    (thd : THD) (a : Nat) :
    (ha_commit_or_rollback_by_xid env xid commit srv thd).2.1.xid_state a =
      srv.xid_state a := by
  simp only [Server.xid_state, (fan_out_frame env xid commit srv thd).1]

/-- The call xa_trans_rolled_back on a branch touches only the state of that
branch and the diagnostics area. -/
theorem xa_trans_rolled_back_at_frame (t : Nat) (srv : Server) (thd : THD) :
    (xa_trans_rolled_back_at t srv thd).2.1.transaction_cache = srv.transaction_cache ∧
    (∀ a, ((xa_trans_rolled_back_at t srv thd).2.1.xid_state a).m_xid =
      (srv.xid_state a).m_xid) ∧
    (∀ a, ((xa_trans_rolled_back_at t srv thd).2.1.xid_state a).in_recovery =
      (srv.xid_state a).in_recovery) ∧
    (∀ a, a ≠ t → (xa_trans_rolled_back_at t srv thd).2.1.xid_state a = srv.xid_state a) ∧
    (xa_trans_rolled_back_at t srv thd).2.2.m_transaction = thd.m_transaction ∧
    (xa_trans_rolled_back_at t srv thd).2.2.status_in_trans = thd.status_in_trans := by
  have hx : ((srv.xid_state t).xa_trans_rolled_back thd).2.1.m_xid = (srv.xid_state t).m_xid ∧
      ((srv.xid_state t).xa_trans_rolled_back thd).2.1.in_recovery =
        (srv.xid_state t).in_recovery ∧
      ((srv.xid_state t).xa_trans_rolled_back thd).2.2.m_transaction = thd.m_transaction ∧
      ((srv.xid_state t).xa_trans_rolled_back thd).2.2.status_in_trans =
        thd.status_in_trans := by
    simp only [XID_STATE.xa_trans_rolled_back]
    split
    · refine ⟨rfl, rfl, ?_, ?_⟩
      · split
        · rfl
        · split <;> rfl
      · split
        · rfl
        · split <;> rfl
    · exact ⟨rfl, rfl, rfl, rfl⟩
  refine ⟨rfl, ?_, ?_, ?_, hx.2.2.1, hx.2.2.2⟩
  · intro a
    by_cases h : a = t
    · subst h; simp [xa_trans_rolled_back_at, hx.1]
    · simp [xa_trans_rolled_back_at, h]
  · intro a
    by_cases h : a = t
    · subst h; simp [xa_trans_rolled_back_at, hx.2.1]
    · simp [xa_trans_rolled_back_at, h]
  · intro a h
    simp [xa_trans_rolled_back_at, h]

/-- The by-xid fan-out leaves the cache as it was. -/
theorem fan_out_cache (env : Collaborators) (xid : XID) (commit : Bool) (srv : Server)
    (thd : THD) :
    (ha_commit_or_rollback_by_xid env xid commit srv thd).2.1.transaction_cache =
      srv.transaction_cache :=
  (fan_out_frame env xid commit srv thd).2.1

/-- Erasing through transaction_cache_delete when the branch is found under the
key of its XID. -/
theorem cache_delete_found (t : Nat) (srv : Server) (k : Int × Int × List Nat)
    (hk : (srv.xid_state t).m_xid.key = k)
    (hf : cache_find k srv.transaction_cache = some t) :
    (transaction_cache_delete t srv).transaction_cache =
      cache_erase k srv.transaction_cache := by
  simp [transaction_cache_delete, hk, hf]

/-- A lookup that passes returns the branch found and raises nothing. -/
theorem find_trn_success (x : XID) (srv : Server) (thd : THD) (t : Nat)
    (h_notr : (srv.xid_state thd.m_transaction).xa_state = xa_states.XA_NOTR)
    (h_found : cache_find x.key srv.transaction_cache = some t)
    (h_rec : (srv.xid_state t).in_recovery = true)
    (h_in_trans : thd.status_in_trans = false) :
    find_trn_for_recover_and_check_its_state x srv thd = (some t, thd) := by
  simp [find_trn_for_recover_and_check_its_state, XID_STATE.has_state, h_notr,
    transaction_cache_search, h_found, h_rec, THD.in_active_multi_stmt_transaction, h_in_trans]

/-- The call xa_trans_rolled_back on a branch leaves the cache alone. -/
theorem rb_at_cache (t : Nat) (srv : Server) (thd : THD) :
    (xa_trans_rolled_back_at t srv thd).2.1.transaction_cache = srv.transaction_cache :=
  (xa_trans_rolled_back_at_frame t srv thd).1

/-- The call xa_trans_rolled_back on a branch leaves every XID alone. -/
theorem rb_at_m_xid (t : Nat) (srv : Server) (thd : THD) (a : Nat) :
    ((xa_trans_rolled_back_at t srv thd).2.1.xid_state a).m_xid = (srv.xid_state a).m_xid :=
  (xa_trans_rolled_back_at_frame t srv thd).2.1 a

/-- The metadata locks and the backup are taken when both collaborators
succeed. -/
theorem acquire_mandatory_metadata_locks_ok (env : Collaborators) (x : XID) (srv : Server)
    (thd : THD) (h_lock : env.acquire_lock = Outcome.ok)
    (h_backup : env.restore_backup = Outcome.ok) :
    acquire_mandatory_metadata_locks env x srv thd =
      (false, note_call (Call.restore_backup x.key) (note_call Call.acquire_lock srv), thd) := by
  simp [acquire_mandatory_metadata_locks, h_lock, h_backup, collab_ok]

/-- A foreign XA COMMIT that passes the lookup, the re-check and the lock
acquisition erases the entry of its XID and leaves every XID as it was. -/
theorem external_commit_erases (env : Collaborators) (x : XID) (srv : Server) (thd : THD)
    (t : Nat)
    (h_notr : (srv.xid_state thd.m_transaction).xa_state = xa_states.XA_NOTR)
    (h_live : (srv.xid_state thd.m_transaction).in_recovery = false)
    (h_found : cache_find x.key srv.transaction_cache = some t)
    (h_rec : (srv.xid_state t).in_recovery = true)
    (h_key : (srv.xid_state t).m_xid.key = x.key)
    (h_in_trans : thd.status_in_trans = false)
    (h_lock : env.acquire_lock = Outcome.ok)
    (h_backup : env.restore_backup = Outcome.ok) :
    (process_external_xa_commit env x srv thd).2.1.transaction_cache =
      cache_erase x.key srv.transaction_cache ∧
    (∀ a, ((process_external_xa_commit env x srv thd).2.1.xid_state a).m_xid =
      (srv.xid_state a).m_xid) := by
  have hne : thd.m_transaction ≠ t := by
    intro h
    rw [h] at h_live
    rw [h_live] at h_rec
    exact absurd h_rec (by decide)
  obtain ⟨r1, r2, r3, r4, r5, r6⟩ := xa_trans_rolled_back_at_frame t srv thd
  have hf1 := find_trn_success x srv thd t h_notr h_found h_rec h_in_trans
  have hf2 : find_trn_for_recover_and_check_its_state x
      (xa_trans_rolled_back_at t srv thd).2.1 (xa_trans_rolled_back_at t srv thd).2.2 =
      (some t, (xa_trans_rolled_back_at t srv thd).2.2) := by
    apply find_trn_success
    · rw [r5, r4 _ hne]; exact h_notr
    · rw [r1]; exact h_found
    · rw [r3]; exact h_rec
    · rw [r6]; exact h_in_trans
  have hm := acquire_mandatory_metadata_locks_ok env x (xa_trans_rolled_back_at t srv thd).2.1
    (xa_trans_rolled_back_at t srv thd).2.2 h_lock h_backup
  simp only [process_external_xa_commit, hf1, hf2, hm, Bool.false_eq_true, if_false]
  constructor
  · simp only [cache_note_call]
    rw [cache_delete_found t _ x.key]
    · simp [fan_out_cache, apply_ite Server.transaction_cache, r1]
    · simp [fan_out_xid_state, hne.symm, apply_ite (fun s : Server => s.xid_state t), r2,
        h_key]
    · simp [fan_out_cache, apply_ite Server.transaction_cache, r1, h_found]
  · intro a
    simp only [xid_state_note_call, xid_state_cache_delete, xid_state_set_xid_state,
      fan_out_xid_state]
    by_cases ha : a = thd.m_transaction
    · subst ha
      simp [XID_STATE.unset_binlogged, XID_STATE.set_binlogged,
        apply_ite (fun s : Server => s.xid_state thd.m_transaction), r2,
        apply_ite XID_STATE.m_xid]
    · simp [ha, apply_ite (fun s : Server => s.xid_state a), r2]

/-- A foreign XA ROLLBACK that passes the lookup, the re-check and the lock
acquisition erases the entry of its XID and leaves every XID as it was. -/
theorem external_rollback_erases (env : Collaborators) (x : XID) (srv : Server) (thd : THD)
    (t : Nat)
    (h_notr : (srv.xid_state thd.m_transaction).xa_state = xa_states.XA_NOTR)
    (h_live : (srv.xid_state thd.m_transaction).in_recovery = false)
    (h_found : cache_find x.key srv.transaction_cache = some t)
    (h_rec : (srv.xid_state t).in_recovery = true)
    (h_key : (srv.xid_state t).m_xid.key = x.key)
    (h_in_trans : thd.status_in_trans = false)
    (h_lock : env.acquire_lock = Outcome.ok)
    (h_backup : env.restore_backup = Outcome.ok) :
    (process_external_xa_rollback env x srv thd).2.1.transaction_cache =
      cache_erase x.key srv.transaction_cache ∧
    (∀ a, ((process_external_xa_rollback env x srv thd).2.1.xid_state a).m_xid =
      (srv.xid_state a).m_xid) := by
  have hne : thd.m_transaction ≠ t := by
    intro h
    rw [h] at h_live
    rw [h_live] at h_rec
    exact absurd h_rec (by decide)
  have hf1 := find_trn_success x srv thd t h_notr h_found h_rec h_in_trans
  have hm := acquire_mandatory_metadata_locks_ok env x srv thd h_lock h_backup
  simp only [process_external_xa_rollback, hf1, hm, Bool.false_eq_true, if_false]
  constructor
  · simp only [cache_note_call]
    rw [cache_delete_found t _ x.key]
    · simp [fan_out_cache, apply_ite Server.transaction_cache, rb_at_cache]
    · simp [fan_out_xid_state, hne.symm, apply_ite (fun s : Server => s.xid_state t),
        rb_at_m_xid, h_key]
    · simp [fan_out_cache, apply_ite Server.transaction_cache, rb_at_cache, h_found]
  · intro a
    simp only [xid_state_note_call, xid_state_cache_delete, xid_state_set_xid_state,
      fan_out_xid_state]
    by_cases ha : a = thd.m_transaction
    · subst ha
      simp [XID_STATE.unset_binlogged, XID_STATE.set_binlogged,
        apply_ite (fun s : Server => s.xid_state thd.m_transaction), rb_at_m_xid,
        apply_ite XID_STATE.m_xid]
    · simp [ha, apply_ite (fun s : Server => s.xid_state a), rb_at_m_xid]

/-- Every row XA RECOVER sends beyond the rows it starts from is the XID of an
entry of the list it walks. -/
theorem trans_xa_recover_loop_rows (end_row_fails : Nat → Bool)
    (bin_to_hex_str : List Nat → List Nat) (m_xid : Option XID) (hex : Bool) (srv : Server) :
    ∀ (c : List ((Int × Int × List Nat) × Nat)) (rows : List Xid_row),
      ∀ r ∈ (trans_xa_recover_loop end_row_fails bin_to_hex_str m_xid hex srv c rows).2,
        r ∈ rows ∨ ∃ e ∈ c, r = (srv.xid_state e.2).store_xid_info bin_to_hex_str hex := by
  intro c
  induction c with
  | nil => intro rows r hr; exact Or.inl hr
  | cons e rest ih =>
    obtain ⟨k, a⟩ := e
    intro rows r hr
    simp only [trans_xa_recover_loop] at hr
    split at hr
    · split at hr
      · exact Or.inl hr
      · rcases ih _ r hr with h | ⟨e, he, h⟩
        · rcases List.mem_append.mp h with h | h
          · exact Or.inl h
          · exact Or.inr ⟨(k, a), List.mem_cons_self _ _, by simpa using h⟩
        · exact Or.inr ⟨e, List.mem_cons_of_mem _ he, h⟩
    · rcases ih _ r hr with h | ⟨e, he, h⟩
      · exact Or.inl h
      · exact Or.inr ⟨e, List.mem_cons_of_mem _ he, h⟩

/-- A foreign XA COMMIT or XA ROLLBACK of an XID the cache does not hold fails
and leaves the server as it was; the error is XAER_NOTA in state NOTR. -/
theorem foreign_terminator_of_absent (env : Collaborators) (x : XID) (opt : xa_option_words)
    (srv : Server) (thd : THD)
    (h_foreign : (srv.xid_state thd.m_transaction).has_same_xid x = false)
    (h_absent : cache_find x.key srv.transaction_cache = none) :
    (trans_xa_commit env x opt srv thd).1 = true ∧
    (trans_xa_commit env x opt srv thd).2.1 = srv ∧
    (trans_xa_rollback env x srv thd).1 = true ∧
    (trans_xa_rollback env x srv thd).2.1 = srv ∧
    ((srv.xid_state thd.m_transaction).xa_state = xa_states.XA_NOTR →
      (trans_xa_commit env x opt srv thd).2.2 = my_error ER_XAER_NOTA thd ∧
      (trans_xa_rollback env x srv thd).2.2 = my_error ER_XAER_NOTA thd) := by
  obtain ⟨f1, f2⟩ := find_trn_failure x srv thd
  by_cases h : (srv.xid_state thd.m_transaction).xa_state = xa_states.XA_NOTR
  · simp [trans_xa_commit, trans_xa_rollback, process_external_xa_commit,
      process_external_xa_rollback, h_foreign, f2 h (Or.inl h_absent)]
  · simp [trans_xa_commit, trans_xa_rollback, process_external_xa_commit,
      process_external_xa_rollback, h_foreign, f1 h, h]

/-- C17: let a foreign XA COMMIT x or XA ROLLBACK x pass the lookup (session in
state NOTR and outside a transaction, x found in the cache as a recovered
branch), the re-check and the lock acquisition, on a cache whose entries are
filed under the keys of their XIDs. When the command returns, the cache has no
entry for x. Hence any later foreign XA COMMIT x or XA ROLLBACK x fails and
leaves the server, the log of engine calls included, as it found it, with
XAER_NOTA when its session is in state NOTR; and every row of a later XA
RECOVER is the XID of a branch whose key is not the key of x. -/
theorem foreign_branch_finalized_once (env : Collaborators) (x : XID) (opt : xa_option_words)
    (srv srv1 : Server) (thd : THD) (t : Nat)
    (h_foreign : (srv.xid_state thd.m_transaction).has_same_xid x = false)
    (h_notr : (srv.xid_state thd.m_transaction).xa_state = xa_states.XA_NOTR)
    (h_live : (srv.xid_state thd.m_transaction).in_recovery = false)
    (h_found : cache_find x.key srv.transaction_cache = some t)
    (h_rec : (srv.xid_state t).in_recovery = true)
    (h_in_trans : thd.status_in_trans = false)
    (h_keyed : srv.cache_keyed_by_xid = true)
    (h_lock : env.acquire_lock = Outcome.ok)
    (h_backup : env.restore_backup = Outcome.ok)
    (h_cmd : srv1 = (trans_xa_commit env x opt srv thd).2.1 ∨
      srv1 = (trans_xa_rollback env x srv thd).2.1) :
    cache_find x.key srv1.transaction_cache = none ∧
    (∀ (env2 : Collaborators) (opt2 : xa_option_words) (thd2 : THD),
      (srv1.xid_state thd2.m_transaction).has_same_xid x = false →
        (trans_xa_commit env2 x opt2 srv1 thd2).1 = true ∧
        (trans_xa_commit env2 x opt2 srv1 thd2).2.1 = srv1 ∧
        (trans_xa_rollback env2 x srv1 thd2).1 = true ∧
        (trans_xa_rollback env2 x srv1 thd2).2.1 = srv1 ∧
        ((srv1.xid_state thd2.m_transaction).xa_state = xa_states.XA_NOTR →
          (trans_xa_commit env2 x opt2 srv1 thd2).2.2 = my_error ER_XAER_NOTA thd2 ∧
          (trans_xa_rollback env2 x srv1 thd2).2.2 = my_error ER_XAER_NOTA thd2)) ∧
    (∀ (send_result_metadata_fails : Bool) (end_row_fails : Nat → Bool)
      (bin_to_hex_str : List Nat → List Nat) (filter : Option XID) (hex : Bool),
      ∀ r ∈ (trans_xa_recover send_result_metadata_fails end_row_fails bin_to_hex_str filter
          hex srv1).2,
        ∃ a, r = (srv1.xid_state a).store_xid_info bin_to_hex_str hex ∧
          (srv1.xid_state a).m_xid.key ≠ x.key ∧
          (hex = false → (r.gtrid_length, r.bqual_length, r.data) ≠ x.key)) := by
  have h_key : (srv.xid_state t).m_xid.key = x.key := by
    have hm := cache_find_mem _ _ _ h_found
    simp only [Server.cache_keyed_by_xid, List.all_eq_true, decide_eq_true_eq] at h_keyed
    exact h_keyed _ hm
  have hs : srv1.transaction_cache = cache_erase x.key srv.transaction_cache ∧
      ∀ a, (srv1.xid_state a).m_xid = (srv.xid_state a).m_xid := by
    rcases h_cmd with h | h
    · rw [h]
      simp only [trans_xa_commit, h_foreign, Bool.not_false, if_true]
      exact external_commit_erases env x srv thd t h_notr h_live h_found h_rec h_key
        h_in_trans h_lock h_backup
    · rw [h]
      simp only [trans_xa_rollback, h_foreign, Bool.not_false, if_true]
      exact external_rollback_erases env x srv thd t h_notr h_live h_found h_rec h_key
        h_in_trans h_lock h_backup
  obtain ⟨hc, hx⟩ := hs
  have h_absent : cache_find x.key srv1.transaction_cache = none := by
    rw [hc]; exact cache_find_erase _ _
  refine ⟨h_absent, ?_, ?_⟩
  · intro env2 opt2 thd2 hf
    exact foreign_terminator_of_absent env2 x opt2 srv1 thd2 hf h_absent
  · intro f erf b2h filter hex r hr
    simp only [trans_xa_recover] at hr
    split at hr
    · simp at hr
    · rcases trans_xa_recover_loop_rows erf b2h filter hex srv1 _ _ r hr with h | ⟨e, he, h⟩
      · simp at h
      · rw [hc] at he
        simp only [cache_erase, List.mem_filter, decide_eq_true_eq] at he
        simp only [Server.cache_keyed_by_xid, List.all_eq_true, decide_eq_true_eq] at h_keyed
        have hk : (srv1.xid_state e.2).m_xid.key ≠ x.key := by
          rw [hx, h_keyed _ he.1]; exact he.2
        refine ⟨e.2, h, hk, ?_⟩
        intro hh
        subst hh
        rw [h]
        exact hk

/-- Witness for C17: the session at address 0 commits the recovered branch t1
held at address 1. -/
theorem foreign_branch_finalized_once_witness :
    cache_find sample_xid.key
      (trans_xa_commit sample_env sample_xid xa_option_words.XA_NONE sample_recovered_server
        sample_thd).2.1.transaction_cache = none :=
  (foreign_branch_finalized_once sample_env sample_xid xa_option_words.XA_NONE
    sample_recovered_server _ sample_thd 1 (by decide) (by decide) (by decide) (by decide)
    (by decide) (by decide) (by decide) rfl rfl (Or.inl rfl)).1

/-! ## Protocol violations -/

/-- The first error of a list without protocol violation is none of them. -/
theorem headD_no_protocol_violation (l : List Nat) (h : no_protocol_violation l = true) :
    is_protocol_violation (l.headD 0) = false := by
  cases l with
  | nil => decide
  | cons e rest =>
    simp only [no_protocol_violation, List.all_cons, Bool.and_eq_true, Bool.not_eq_true'] at h
    simpa using h.1

/-- Appending keeps lists free of protocol violations. -/
theorem no_protocol_violation_append (l1 l2 : List Nat) :
    no_protocol_violation (l1 ++ l2) =
      (no_protocol_violation l1 && no_protocol_violation l2) := by
  simp [no_protocol_violation, List.all_append]

/-- The errors xa_trans_rolled_back raises are no protocol violations. -/
theorem rb_at_da (a : Nat) (srv : Server) (thd : THD) :
    ∃ l, (xa_trans_rolled_back_at a srv thd).2.2.da = thd.da ++ l ∧
      no_protocol_violation l = true := by
  simp only [xa_trans_rolled_back_at, XID_STATE.xa_trans_rolled_back]
  split
  · split
    · exact ⟨[ER_XA_RBTIMEOUT], rfl, by decide⟩
    · split
      · exact ⟨[ER_XA_RBDEADLOCK], rfl, by decide⟩
      · exact ⟨[ER_XA_RBROLLBACK], rfl, by decide⟩
  · exact ⟨[], by simp, by decide⟩

/-- When xa_trans_rolled_back returns false it has changed nothing. -/
theorem rb_at_false (a : Nat) (srv : Server) (thd : THD)
    (h : (xa_trans_rolled_back_at a srv thd).1 = false) :
    (xa_trans_rolled_back_at a srv thd).2.1 = srv ∧
    (xa_trans_rolled_back_at a srv thd).2.2 = thd := by
  simp only [xa_trans_rolled_back_at, XID_STATE.xa_trans_rolled_back] at h ⊢
  split at h
  · simp at h
  · rename_i h0
    simp only [h0, if_false]
    exact ⟨set_xid_state_self _ _, trivial⟩

/-- A single error is free of protocol violations when it is none of them. -/
theorem no_protocol_violation_singleton (e : Nat) :
    no_protocol_violation [e] = !is_protocol_violation e := by
  simp [no_protocol_violation]

/-- The empty list is free of protocol violations. -/
theorem no_protocol_violation_nil : no_protocol_violation [] = true := rfl

/-- XA PREPARE either fails leaving the server as it was, or reports no
protocol violation. -/
theorem trans_xa_prepare_dichotomy (env : Collaborators) (x : XID) (srv : Server) (thd : THD)
    (h_clean : thd.da = [])
    (h_env : env.raise_no_protocol_violation = true) :
    ((trans_xa_prepare env x srv thd).1 = true ∧ (trans_xa_prepare env x srv thd).2.1 = srv) ∨
    is_protocol_violation (trans_xa_prepare env x srv thd).2.2.mysql_errno = false := by
  simp only [Collaborators.raise_no_protocol_violation, Bool.and_eq_true] at h_env
  obtain ⟨⟨⟨⟨⟨⟨⟨⟨⟨e1, e2⟩, e3⟩, e4⟩, e5⟩, e6⟩, e7⟩, e8⟩, e9⟩, e10⟩ := h_env
  simp only [trans_xa_prepare]
  split_ifs
  all_goals first
    | (left; exact ⟨by simp_all [THD.is_error, my_error], rfl⟩)
    | (right
       apply headD_no_protocol_violation
       simp [my_error, h_clean, no_protocol_violation_append, no_protocol_violation_nil,
         apply_ite THD.da, apply_ite no_protocol_violation,
         no_protocol_violation_singleton, e1, e2, e3, e4, e5, e6, e7, e8, e9, e10,
         is_protocol_violation, ER_XAER_RMFAIL, ER_XAER_NOTA, ER_XAER_INVAL, ER_XAER_OUTSIDE,
         ER_XA_RBROLLBACK, ER_XAER_RMERR, ER_XA_REPLICATION_FILTERS, ER_XA_RETRY,
         ER_XAER_DUPID])

/-- The errors xa_trans_rolled_back raises are no protocol violations. -/
theorem rb_at_no_protocol_violation (a : Nat) (srv : Server) (thd : THD) :
    no_protocol_violation (xa_trans_rolled_back_at a srv thd).2.2.da =
      no_protocol_violation thd.da := by
  obtain ⟨l, hl, hq⟩ := rb_at_da a srv thd
  rw [hl, no_protocol_violation_append, hq, Bool.and_true]

/-- The errors the by-xid fan-out raises are no protocol violations. -/
theorem fan_out_no_protocol_violation (env : Collaborators) (xid : XID) (commit : Bool)
    (srv : Server) (thd : THD) :
    no_protocol_violation (ha_commit_or_rollback_by_xid env xid commit srv thd).2.2.da =
      no_protocol_violation thd.da := by
  have hc : ∀ hton (st : Server × THD),
      no_protocol_violation (xacommit_handlerton xid hton st).2.2.da =
        no_protocol_violation st.2.da := by
    intro hton st
    simp only [xacommit_handlerton]
    split
    · split
      · simp only [my_error, no_protocol_violation_append, no_protocol_violation_singleton]
        rw [show is_protocol_violation ER_XAER_RMERR = false by decide]; simp
      · rfl
    · rfl
  have hr : ∀ hton (st : Server × THD),
      no_protocol_violation (xarollback_handlerton xid hton st).2.2.da =
        no_protocol_violation st.2.da := by
    intro hton st
    simp only [xarollback_handlerton]
    split
    · split
      · simp only [my_error, no_protocol_violation_append, no_protocol_violation_singleton]
        rw [show is_protocol_violation ER_XAER_RMERR = false by decide]; simp
      · rfl
    · rfl
  cases commit with
  | true =>
    simpa [ha_commit_or_rollback_by_xid] using
      plugin_foreach_preserves (xacommit_handlerton xid)
        (fun st : Server × THD => no_protocol_violation st.2.da) hc env.plugins (srv, thd)
  | false =>
    simpa [ha_commit_or_rollback_by_xid] using
      plugin_foreach_preserves (xarollback_handlerton xid)
        (fun st : Server × THD => no_protocol_violation st.2.da) hr env.plugins (srv, thd)

/-- XA END either fails leaving the server as it was, or reports no protocol
violation. -/
theorem trans_xa_end_dichotomy (x : XID) (opt : xa_option_words) (srv : Server) (thd : THD)
    (h_clean : thd.da = []) :
    ((trans_xa_end x opt srv thd).1 = true ∧ (trans_xa_end x opt srv thd).2.1 = srv) ∨
    is_protocol_violation (trans_xa_end x opt srv thd).2.2.mysql_errno = false := by
  simp only [trans_xa_end]
  split_ifs
  all_goals first
    | (left; exact ⟨by simp_all [THD.is_error, my_error], rfl⟩)
    | (right
       apply headD_no_protocol_violation
       simp [my_error, h_clean, no_protocol_violation_append, no_protocol_violation_nil,
         apply_ite THD.da, apply_ite no_protocol_violation,
         no_protocol_violation_singleton, rb_at_no_protocol_violation,
         is_protocol_violation, ER_XAER_RMFAIL, ER_XAER_NOTA, ER_XAER_INVAL, ER_XAER_OUTSIDE,
         ER_XA_RBROLLBACK, ER_XAER_RMERR, ER_XA_REPLICATION_FILTERS, ER_XA_RETRY,
         ER_XAER_DUPID])

/-- XA START either fails leaving the server as it was, or reports no protocol
violation. -/
theorem trans_xa_start_dichotomy (env : Collaborators) (x : XID) (opt : xa_option_words)
    (srv : Server) (thd : THD)
    (h_clean : thd.da = [])
    (h_env : env.raise_no_protocol_violation = true) :
    ((trans_xa_start env x opt srv thd).1 = true ∧ (trans_xa_start env x opt srv thd).2.1 = srv) ∨
    is_protocol_violation (trans_xa_start env x opt srv thd).2.2.mysql_errno = false := by
  simp only [Collaborators.raise_no_protocol_violation, Bool.and_eq_true] at h_env
  obtain ⟨⟨⟨⟨⟨⟨⟨⟨⟨e1, e2⟩, e3⟩, e4⟩, e5⟩, e6⟩, e7⟩, e8⟩, e9⟩, e10⟩ := h_env
  simp only [trans_xa_start]
  split_ifs
  all_goals first
    | (left; exact ⟨by simp_all [THD.is_error, my_error], rfl⟩)
    | (right
       apply headD_no_protocol_violation
       simp [my_error, h_clean, no_protocol_violation_append, no_protocol_violation_nil,
         apply_ite THD.da, apply_ite no_protocol_violation,
         no_protocol_violation_singleton, e1, e2, e3, e4, e5, e6, e7, e8, e9, e10,
         is_protocol_violation, ER_XAER_RMFAIL, ER_XAER_NOTA, ER_XAER_INVAL, ER_XAER_OUTSIDE,
         ER_XA_RBROLLBACK, ER_XAER_RMERR, ER_XA_REPLICATION_FILTERS, ER_XA_RETRY,
         ER_XAER_DUPID])

/-- The commit of the session's own branch either fails leaving the server as
it was, or reports no protocol violation. -/
theorem process_internal_xa_commit_dichotomy (env : Collaborators) (opt : xa_option_words)
    (srv : Server) (thd : THD)
    (h_clean : thd.da = [])
    (h_env : env.raise_no_protocol_violation = true) :
    ((process_internal_xa_commit env opt srv thd).1 = true ∧
      (process_internal_xa_commit env opt srv thd).2.1 = srv) ∨
    is_protocol_violation (process_internal_xa_commit env opt srv thd).2.2.mysql_errno =
      false := by
  simp only [Collaborators.raise_no_protocol_violation, Bool.and_eq_true] at h_env
  obtain ⟨⟨⟨⟨⟨⟨⟨⟨⟨e1, e2⟩, e3⟩, e4⟩, e5⟩, e6⟩, e7⟩, e8⟩, e9⟩, e10⟩ := h_env
  simp only [process_internal_xa_commit, xa_trans_force_rollback]
  split_ifs
  all_goals first
    | (left; exact ⟨rfl, (rb_at_false _ _ _ (by simp_all)).1⟩)
    | (right
       apply headD_no_protocol_violation
       simp [my_error, h_clean, no_protocol_violation_append, no_protocol_violation_nil,
         apply_ite THD.da, apply_ite no_protocol_violation, rb_at_no_protocol_violation,
         no_protocol_violation_singleton, e1, e2, e3, e4, e5, e6, e7, e8, e9, e10,
         is_protocol_violation, ER_XAER_RMFAIL, ER_XAER_NOTA, ER_XAER_INVAL, ER_XAER_OUTSIDE,
         ER_XA_RBROLLBACK, ER_XAER_RMERR, ER_XA_REPLICATION_FILTERS, ER_XA_RETRY,
         ER_XAER_DUPID])

/-- The rollback of the session's own branch either fails leaving the server as
it was, or reports no protocol violation. -/
theorem process_internal_xa_rollback_dichotomy (env : Collaborators) (srv : Server) (thd : THD)
    (h_clean : thd.da = [])
    (h_env : env.raise_no_protocol_violation = true) :
    ((process_internal_xa_rollback env srv thd).1 = true ∧
      (process_internal_xa_rollback env srv thd).2.1 = srv) ∨
    is_protocol_violation (process_internal_xa_rollback env srv thd).2.2.mysql_errno =
      false := by
  simp only [Collaborators.raise_no_protocol_violation, Bool.and_eq_true] at h_env
  obtain ⟨⟨⟨⟨⟨⟨⟨⟨⟨e1, e2⟩, e3⟩, e4⟩, e5⟩, e6⟩, e7⟩, e8⟩, e9⟩, e10⟩ := h_env
  simp only [process_internal_xa_rollback, xa_trans_force_rollback]
  split_ifs
  all_goals first
    | (left; exact ⟨rfl, rfl⟩)
    | (right
       apply headD_no_protocol_violation
       simp [my_error, h_clean, no_protocol_violation_append, no_protocol_violation_nil,
         apply_ite THD.da, apply_ite no_protocol_violation, rb_at_no_protocol_violation,
         no_protocol_violation_singleton, e1, e2, e3, e4, e5, e6, e7, e8, e9, e10,
         is_protocol_violation, ER_XAER_RMFAIL, ER_XAER_NOTA, ER_XAER_INVAL, ER_XAER_OUTSIDE,
         ER_XA_RBROLLBACK, ER_XAER_RMERR, ER_XA_REPLICATION_FILTERS, ER_XA_RETRY,
         ER_XAER_DUPID])

/-- The lookup either finds a branch and raises nothing, or finds none and
raises XAER_RMFAIL or XAER_NOTA. -/
theorem find_trn_cases (x : XID) (srv : Server) (thd : THD) :
    (∃ t, find_trn_for_recover_and_check_its_state x srv thd = (some t, thd)) ∨
    (∃ e, find_trn_for_recover_and_check_its_state x srv thd = (none, my_error e thd)) := by
  simp only [find_trn_for_recover_and_check_its_state]
  split
  · exact Or.inr ⟨_, rfl⟩
  · split
    · exact Or.inr ⟨_, rfl⟩
    · split
      · exact Or.inr ⟨_, rfl⟩
      · split
        · exact Or.inr ⟨_, rfl⟩
        · exact Or.inl ⟨_, rfl⟩

/-- A foreign XA ROLLBACK either fails leaving the server as it was, or reports
no protocol violation. -/
theorem process_external_xa_rollback_dichotomy (env : Collaborators) (x : XID) (srv : Server)
    (thd : THD)
    (h_clean : thd.da = [])
    (h_env : env.raise_no_protocol_violation = true) :
    ((process_external_xa_rollback env x srv thd).1 = true ∧
      (process_external_xa_rollback env x srv thd).2.1 = srv) ∨
    is_protocol_violation (process_external_xa_rollback env x srv thd).2.2.mysql_errno =
      false := by
  simp only [Collaborators.raise_no_protocol_violation, Bool.and_eq_true] at h_env
  obtain ⟨⟨⟨⟨⟨⟨⟨⟨⟨e1, e2⟩, e3⟩, e4⟩, e5⟩, e6⟩, e7⟩, e8⟩, e9⟩, e10⟩ := h_env
  rcases find_trn_cases x srv thd with ⟨t, hf⟩ | ⟨e, hf⟩
  · simp only [process_external_xa_rollback, hf, acquire_mandatory_metadata_locks]
    split_ifs
    all_goals
      right
      apply headD_no_protocol_violation
      simp [my_error, h_clean, no_protocol_violation_append, no_protocol_violation_nil,
         apply_ite THD.da, apply_ite no_protocol_violation, rb_at_no_protocol_violation,
         fan_out_no_protocol_violation,
         no_protocol_violation_singleton, e1, e2, e3, e4, e5, e6, e7, e8, e9, e10,
         is_protocol_violation, ER_XAER_RMFAIL, ER_XAER_NOTA, ER_XAER_INVAL, ER_XAER_OUTSIDE,
         ER_XA_RBROLLBACK, ER_XAER_RMERR, ER_XA_REPLICATION_FILTERS, ER_XA_RETRY,
         ER_XAER_DUPID]
  · left
    simp [process_external_xa_rollback, hf]

/-- Without a pending error xa_trans_rolled_back leaves the server as it was. -/
theorem rb_at_no_error_server (a : Nat) (srv : Server) (thd : THD)
    (h : (srv.xid_state a).rm_error = 0) :
    (xa_trans_rolled_back_at a srv thd).2.1 = srv := by
  simp only [xa_trans_rolled_back_at, XID_STATE.xa_trans_rolled_back, h, ne_eq,
    not_true_eq_false, if_false]
  exact set_xid_state_self _ _

/-- With a pending error xa_trans_rolled_back raises one error, which is no
protocol violation. -/
theorem rb_at_error_da (a : Nat) (srv : Server) (thd : THD)
    (h : (srv.xid_state a).rm_error ≠ 0) :
    ∃ e, (xa_trans_rolled_back_at a srv thd).2.2.da = thd.da ++ [e] ∧
      is_protocol_violation e = false := by
  simp only [xa_trans_rolled_back_at, XID_STATE.xa_trans_rolled_back, h, ne_eq,
    not_false_eq_true, if_true]
  split
  · exact ⟨ER_XA_RBTIMEOUT, rfl, by decide⟩
  · split
    · exact ⟨ER_XA_RBDEADLOCK, rfl, by decide⟩
    · exact ⟨ER_XA_RBROLLBACK, rfl, by decide⟩

/-- A foreign XA COMMIT either fails leaving the server as it was, or reports no
protocol violation. -/
theorem process_external_xa_commit_dichotomy (env : Collaborators) (x : XID) (srv : Server)
    (thd : THD)
    (h_clean : thd.da = [])
    (h_env : env.raise_no_protocol_violation = true) :
    ((process_external_xa_commit env x srv thd).1 = true ∧
      (process_external_xa_commit env x srv thd).2.1 = srv) ∨
    is_protocol_violation (process_external_xa_commit env x srv thd).2.2.mysql_errno =
      false := by
  simp only [Collaborators.raise_no_protocol_violation, Bool.and_eq_true] at h_env
  obtain ⟨⟨⟨⟨⟨⟨⟨⟨⟨e1, e2⟩, e3⟩, e4⟩, e5⟩, e6⟩, e7⟩, e8⟩, e9⟩, e10⟩ := h_env
  rcases find_trn_cases x srv thd with ⟨t, hf⟩ | ⟨e, hf⟩
  · rcases find_trn_cases x (xa_trans_rolled_back_at t srv thd).2.1
        (xa_trans_rolled_back_at t srv thd).2.2 with ⟨t2, hf2⟩ | ⟨e, hf2⟩
    · simp only [process_external_xa_commit, hf, hf2, acquire_mandatory_metadata_locks]
      split_ifs
      all_goals
        right
        apply headD_no_protocol_violation
        simp [my_error, h_clean, no_protocol_violation_append, no_protocol_violation_nil,
           apply_ite THD.da, apply_ite no_protocol_violation, rb_at_no_protocol_violation,
           fan_out_no_protocol_violation,
           no_protocol_violation_singleton, e1, e2, e3, e4, e5, e6, e7, e8, e9, e10,
           is_protocol_violation, ER_XAER_RMFAIL, ER_XAER_NOTA, ER_XAER_INVAL, ER_XAER_OUTSIDE,
           ER_XA_RBROLLBACK, ER_XAER_RMERR, ER_XA_REPLICATION_FILTERS, ER_XA_RETRY,
           ER_XAER_DUPID]
    · by_cases h0 : (srv.xid_state t).rm_error = 0
      · left
        simp only [process_external_xa_commit, hf, hf2]
        exact ⟨trivial, rb_at_no_error_server t srv thd h0⟩
      · right
        obtain ⟨e0, hd, he0⟩ := rb_at_error_da t srv thd h0
        simp [process_external_xa_commit, hf, hf2, my_error, THD.mysql_errno, hd, h_clean, he0]
  · left
    simp [process_external_xa_commit, hf]

/-- XA COMMIT either fails leaving the server as it was, or reports no protocol
violation. -/
theorem trans_xa_commit_dichotomy (env : Collaborators) (x : XID) (opt : xa_option_words)
    (srv : Server) (thd : THD)
    (h_clean : thd.da = [])
    (h_env : env.raise_no_protocol_violation = true) :
    ((trans_xa_commit env x opt srv thd).1 = true ∧
      (trans_xa_commit env x opt srv thd).2.1 = srv) ∨
    is_protocol_violation (trans_xa_commit env x opt srv thd).2.2.mysql_errno = false := by
  simp only [trans_xa_commit]
  split
  · exact process_external_xa_commit_dichotomy env x srv thd h_clean h_env
  · exact process_internal_xa_commit_dichotomy env opt srv thd h_clean h_env

/-- XA ROLLBACK either fails leaving the server as it was, or reports no
protocol violation. -/
theorem trans_xa_rollback_dichotomy (env : Collaborators) (x : XID) (srv : Server) (thd : THD)
    (h_clean : thd.da = [])
    (h_env : env.raise_no_protocol_violation = true) :
    ((trans_xa_rollback env x srv thd).1 = true ∧
      (trans_xa_rollback env x srv thd).2.1 = srv) ∨
    is_protocol_violation (trans_xa_rollback env x srv thd).2.2.mysql_errno = false := by
  simp only [trans_xa_rollback]
  split
  · exact process_external_xa_rollback_dichotomy env x srv thd h_clean h_env
  · exact process_internal_xa_rollback_dichotomy env srv thd h_clean h_env

/-- C19: protocol violations change nothing. Take a session whose diagnostics
area is clean and collaborators that raise none of XAER_RMFAIL, XAER_NOTA,
XAER_INVAL and XAER_OUTSIDE. Whenever XA START, XA END, XA PREPARE, XA COMMIT or
XA ROLLBACK (own or foreign XID, any state of the session) reports one of
these four errors, the handler returns true and the server after the call is
the server before the call: same XID_STATE of the session, same transaction
cache, same memory and same log of calls. -/
theorem protocol_violation_changes_nothing (env : Collaborators) (x : XID)
    (opt : xa_option_words) (srv : Server) (thd : THD) (r : Bool × Server × THD)
    (h_clean : thd.da = [])
    (h_env : env.raise_no_protocol_violation = true)
    (h_cmd : r = trans_xa_start env x opt srv thd ∨ r = trans_xa_end x opt srv thd ∨
      r = trans_xa_prepare env x srv thd ∨ r = trans_xa_commit env x opt srv thd ∨
      r = trans_xa_rollback env x srv thd)
    (h_fail : is_protocol_violation r.2.2.mysql_errno = true) :
    r.1 = true ∧
    r.2.1.xid_state thd.m_transaction = srv.xid_state thd.m_transaction ∧
    r.2.1.transaction_cache = srv.transaction_cache ∧
    r.2.1 = srv := by
  have hd : (r.1 = true ∧ r.2.1 = srv) ∨ is_protocol_violation r.2.2.mysql_errno = false := by
    rcases h_cmd with h | h | h | h | h
    · rw [h]; exact trans_xa_start_dichotomy env x opt srv thd h_clean h_env
    · rw [h]; exact trans_xa_end_dichotomy x opt srv thd h_clean
    · rw [h]; exact trans_xa_prepare_dichotomy env x srv thd h_clean h_env
    · rw [h]; exact trans_xa_commit_dichotomy env x opt srv thd h_clean h_env
    · rw [h]; exact trans_xa_rollback_dichotomy env x srv thd h_clean h_env
  rcases hd with ⟨h1, h2⟩ | h
  · exact ⟨h1, by rw [h2], by rw [h2], h2⟩
  · rw [h] at h_fail
    exact absurd h_fail (by decide)

/-- Witness for C19: XA PREPARE of t1 by a session in state ACTIVE fails with
XAER_RMFAIL and leaves the server as it was. -/
theorem protocol_violation_changes_nothing_witness :
    (trans_xa_prepare sample_env sample_xid
      (sample_server xa_states.XA_ACTIVE 0 [(sample_xid.key, 0)]) sample_thd).1 = true ∧
    (trans_xa_prepare sample_env sample_xid
      (sample_server xa_states.XA_ACTIVE 0 [(sample_xid.key, 0)]) sample_thd).2.1 =
      sample_server xa_states.XA_ACTIVE 0 [(sample_xid.key, 0)] :=
  have h := protocol_violation_changes_nothing sample_env sample_xid xa_option_words.XA_NONE
    (sample_server xa_states.XA_ACTIVE 0 [(sample_xid.key, 0)]) sample_thd _ rfl (by decide)
    (Or.inr (Or.inr (Or.inl rfl))) (by decide)
  ⟨h.1, h.2.2.2⟩

/-! ## Internal XIDs and the text forms -/

/-- The value of the little-endian bytes of a number is the number modulo the
size. -/
theorem le_value_le_bytes : ∀ (k n : Nat), le_value (le_bytes k n) = n % 256 ^ k := by
  intro k
  induction k with
  | zero => intro n; simp [le_bytes, le_value, Nat.mod_one]
  | succ k ih =>
    intro n
    simp only [le_bytes, le_value, ih]
    rw [pow_succ, mul_comm (256 ^ k) 256, Nat.mod_mul]

/-- The number of bytes written by le_bytes. -/
theorem le_bytes_length : ∀ (k n : Nat), (le_bytes k n).length = k := by
  intro k
  induction k with
  | zero => intro n; rfl
  | succ k ih => intro n; simp [le_bytes, ih]

/-- The bytes memcpy has written are found at the offset. -/
theorem memcpy_read (dst : List Nat) (off : Nat) (src : List Nat) :
    ((memcpy dst off src).drop off).take src.length = src := by
  have h : ((dst ++ List.replicate (off - dst.length) 0).take off).length = off := by
    simp only [List.length_take, List.length_append, List.length_replicate]
    omega
  simp only [memcpy, List.append_assoc]
  rw [List.drop_append_of_le_length (le_of_eq h.symm), List.drop_of_length_le (le_of_eq h)]
  simp

/-- The bytes before the offset of a memcpy are as they were when the array
reaches the offset. -/
theorem memcpy_take (dst : List Nat) (off : Nat) (src : List Nat) (n : Nat) (hn : n ≤ off)
    (hd : off ≤ dst.length) :
    (memcpy dst off src).take n = dst.take n := by
  have h0 : off - dst.length = 0 := by omega
  simp only [memcpy, h0, List.replicate_zero, List.append_nil, List.append_assoc]
  rw [List.take_append_of_le_length (by simp; omega), List.take_take, min_eq_left hn]

/-- The length of the array after a memcpy that reaches its end or beyond. -/
theorem memcpy_length (dst : List Nat) (off : Nat) (src : List Nat) :
    off + src.length ≤ (memcpy dst off src).length := by
  simp only [memcpy, List.length_append, List.length_take, List.length_replicate,
    List.length_drop]
  omega

/-- C24: internal-XID round trip. For every 64-bit id n other than 0 the XID
built by set(n) has get_my_xid() == n; set(0) gives get_my_xid() ==
INTERNAL_MYSQL_SYSTEM_XID taken as an unsigned 64-bit value, 2^64 - 1; so
get_my_xid() is never 0 after set. This holds whatever the server id and the
previous content of the XID are. -/
theorem xid_set_get_my_xid (x : XID) (server_id n : Nat) (h64 : n < 2 ^ 64) :
    (n ≠ 0 → (x.set server_id n).get_my_xid = n) ∧
    (x.set server_id 0).get_my_xid = 2 ^ 64 - 1 ∧
    (x.set server_id 0).get_my_xid = my_xid_of_int INTERNAL_MYSQL_SYSTEM_XID ∧
    (x.set server_id n).get_my_xid ≠ 0 := by
  have key : ∀ m : Nat, m < 2 ^ 64 →
      (if m = 0 then my_xid_of_int INTERNAL_MYSQL_SYSTEM_XID else m) < 2 ^ 64 →
      (x.set server_id m).get_my_xid =
        (if m = 0 then my_xid_of_int INTERNAL_MYSQL_SYSTEM_XID else m) := by
    intro m _ hm1
    have hp : MYSQL_XID_PREFIX_BYTES.length = 8 := rfl
    have hl1 := memcpy_length x.data 0 MYSQL_XID_PREFIX_BYTES
    have hl2 := memcpy_length (memcpy x.data 0 MYSQL_XID_PREFIX_BYTES) MYSQL_XID_PREFIX_LEN
      (le_bytes sizeof_server_id server_id)
    rw [le_bytes_length] at hl2
    rw [hp] at hl1
    have h1 : (memcpy x.data 0 MYSQL_XID_PREFIX_BYTES).take 8 = MYSQL_XID_PREFIX_BYTES := by
      have h := memcpy_read x.data 0 MYSQL_XID_PREFIX_BYTES
      rwa [List.drop_zero, hp] at h
    have h2 : (x.set server_id m).data.take MYSQL_XID_PREFIX_LEN = MYSQL_XID_PREFIX_BYTES := by
      simp only [XID.set]
      rw [memcpy_take _ _ _ _ (by decide) (by simpa [MYSQL_XID_OFFSET] using hl2),
        memcpy_take _ _ _ _ (le_refl _) (by simpa [MYSQL_XID_PREFIX_LEN] using hl1)]
      exact h1
    have h3 : ((x.set server_id m).data.drop MYSQL_XID_OFFSET).take sizeof_my_xid =
        le_bytes sizeof_my_xid
          (if m = 0 then my_xid_of_int INTERNAL_MYSQL_SYSTEM_XID else m) := by
      have h := memcpy_read
        (memcpy (memcpy x.data 0 MYSQL_XID_PREFIX_BYTES) MYSQL_XID_PREFIX_LEN
          (le_bytes sizeof_server_id server_id)) MYSQL_XID_OFFSET
        (le_bytes sizeof_my_xid
          (if m = 0 then my_xid_of_int INTERNAL_MYSQL_SYSTEM_XID else m))
      rw [le_bytes_length] at h
      exact h
    have h4 : (x.set server_id m).gtrid_length = (MYSQL_XID_GTRID_LEN : Int) ∧
        (x.set server_id m).bqual_length = 0 := ⟨rfl, rfl⟩
    simp only [XID.get_my_xid, h4.1, h4.2, h2, h3, and_self, if_true, le_value_le_bytes]
    exact Nat.mod_eq_of_lt (by simpa [sizeof_my_xid] using hm1)
  have hs : my_xid_of_int INTERNAL_MYSQL_SYSTEM_XID = 2 ^ 64 - 1 := by decide
  refine ⟨?_, ?_, ?_, ?_⟩
  · intro hn
    rw [key n h64 (by rw [if_neg hn]; exact h64)]
    simp [hn]
  · rw [key 0 (by norm_num) (by rw [hs]; norm_num)]
    simp [hs]
  · rw [key 0 (by norm_num) (by rw [hs]; norm_num)]
    simp
  · by_cases hn : n = 0
    · subst hn
      rw [key 0 (by norm_num) (by rw [hs]; norm_num)]
      simp [hs]
    · rw [key n h64 (by rw [if_neg hn]; exact h64)]
      simp [hn]

/-- Witness for C24: the XID built for the id 7 on server 1 carries the id 7. -/
theorem xid_set_get_my_xid_witness :
    ((default : XID).set 1 7).get_my_xid = 7 :=
  (xid_set_get_my_xid default 1 7 (by norm_num)).1 (by norm_num)

/-- C25: classification by get_my_xid. When gtrid_length is the fixed internal
gtrid length, bqual_length is 0 and the first 8 data bytes are the fixed
internal prefix, get_my_xid() is the 8-byte id stored at offset
prefix_len + sizeof(server_id) of the data; in every other case it is 0; the
format id plays no part. -/
theorem get_my_xid_classification (x : XID) :
    ((x.gtrid_length = ((MYSQL_XID_PREFIX_LEN + sizeof_server_id + sizeof_my_xid : Nat) : Int) ∧
        x.bqual_length = 0 ∧ x.data.take 8 = MYSQL_XID_PREFIX_BYTES) →
      x.get_my_xid =
        le_value ((x.data.drop (MYSQL_XID_PREFIX_LEN + sizeof_server_id)).take 8)) ∧
    (¬ (x.gtrid_length = ((MYSQL_XID_PREFIX_LEN + sizeof_server_id + sizeof_my_xid : Nat) : Int) ∧
        x.bqual_length = 0 ∧ x.data.take 8 = MYSQL_XID_PREFIX_BYTES) →
      x.get_my_xid = 0) ∧
    (∀ f : Int, ({ x with formatID := f } : XID).get_my_xid = x.get_my_xid) := by
  refine ⟨?_, ?_, ?_⟩
  · intro h
    have h' : x.gtrid_length = (MYSQL_XID_GTRID_LEN : Int) ∧ x.bqual_length = 0 ∧
        x.data.take MYSQL_XID_PREFIX_LEN = MYSQL_XID_PREFIX_BYTES := h
    rw [XID.get_my_xid, if_pos h']
    rfl
  · intro h
    have h' : ¬ (x.gtrid_length = (MYSQL_XID_GTRID_LEN : Int) ∧ x.bqual_length = 0 ∧
        x.data.take MYSQL_XID_PREFIX_LEN = MYSQL_XID_PREFIX_BYTES) := h
    rw [XID.get_my_xid, if_neg h']
  · intro f
    rfl

/-- Witness for C25: an XID with the internal prefix, 20 gtrid bytes and no
bqual carries its id; with any other shape it is external. -/
theorem get_my_xid_classification_witness :
    sample_internal_xid.get_my_xid = 7 ∧ sample_xid.get_my_xid = 0 :=
  ⟨((get_my_xid_classification sample_internal_xid).1 (by decide)).trans (by decide),
    (get_my_xid_classification sample_xid).2.1 (by decide)⟩

/-- The function strlen on a string without NUL byte followed by a NUL. -/
theorem strlen_append_nul : ∀ (l rest : List Nat), 0 ∉ l →
    strlen (l ++ 0 :: rest) = some l.length := by
  intro l
  induction l with
  | nil => intro rest _; simp [strlen]
  | cons c l ih =>
    intro rest h
    simp only [List.mem_cons, not_or] at h
    have hc : ¬ c = 0 := fun h2 => h.1 h2.symm
    simp [strlen, hc, ih rest h.2]

/-- C26, the code at the failing input: on the text X'61',X'',abc whose format
id is not numeric, deserialize_xid with ddc_mode off returns false (success);
sscanf stores nothing, so fmt is left unassigned. -/
theorem deserialize_xid_accepts_non_numeric_format_id :
    sscanf_lu [97, 98, 99, 0] = none ∧
    deserialize_xid false [88, 39, 54, 49, 39, 44, 88, 39, 39, 44, 97, 98, 99, 0] =
      some { ret := false, fmt := none, gln := some 1, bln := some 3, dat := [97] } := by
  decide

/-- C27, the code at the failing input: on the NUL-terminated text
X'61',X'6',1 whose second literal has odd length, the second hex loop steps
from the last hex digit over the closing quote and the comma and stops on the
terminating NUL at index 12; the test that follows reads index 13, outside the
buffer. -/
theorem deserialize_xid_odd_hex_reads_past_nul :
    hex_loop [88, 39, 54, 49, 39, 44, 88, 39, 54, 39, 44, 49, 0] 14 8 [97] =
      some (12, [97, 240, 81]) ∧
    ([88, 39, 54, 49, 39, 44, 88, 39, 54, 39, 44, 49, 0] : List Nat)[12]? = some 0 ∧
    ([88, 39, 54, 49, 39, 44, 88, 39, 54, 39, 44, 49, 0] : List Nat)[13]? = none ∧
    deserialize_xid false [88, 39, 54, 49, 39, 44, 88, 39, 54, 39, 44, 49, 0] = none := by
  decide

/-- C28: the quoted form. With ddc_mode on, for every byte string g of length
at least 1 without NUL byte, deserialize_xid on g enclosed in single quotes
returns false with gln == length of g, bln == 0 and dat == g (fmt is not
assigned); and every NUL-terminated input shorter than 3 characters, or not
beginning or not ending with a single quote, makes it return true. -/
theorem deserialize_xid_quoted_form :
    (∀ g : List Nat, 1 ≤ g.length → 0 ∉ g →
      deserialize_xid true ([39] ++ g ++ [39, 0]) =
        some { ret := false, fmt := none, gln := some (g.length : Int), bln := some 0,
               dat := g }) ∧
    (∀ (buf : List Nat) (bufl : Nat), strlen buf = some bufl →
      (bufl < 3 ∨ buf[0]? ≠ some 39 ∨ buf[bufl - 1]? ≠ some 39) →
      (deserialize_xid true buf).map Deserialized.ret = some true) := by
  constructor
  · intro g hg h0
    have hs : strlen ([39] ++ g ++ [39, 0]) = some (g.length + 2) := by
      have h := strlen_append_nul ([39] ++ g ++ [39]) [] (by simp [h0])
      have hl : ([39] ++ g ++ [39]).length = g.length + 2 := by simp
      rw [hl] at h
      simpa using h
    have h1 : ¬ g.length + 2 < 3 := by omega
    have h2 : ([39] ++ g ++ [39, 0])[0]? = some 39 := by simp
    have h3 : ([39] ++ g ++ [39, 0])[g.length + 2 - 1]? = some 39 := by
      have : g.length + 2 - 1 = g.length + 1 := by omega
      rw [this]
      have h4 : [39] ++ g ++ [39, 0] = (39 :: g) ++ [39, 0] := by simp
      rw [h4, List.getElem?_append_right (by simp)]
      simp
    simp only [deserialize_xid, if_true, hs, h1, h2, h3, ne_eq, not_true_eq_false, or_self,
      if_false]
    simp
  · intro buf bufl hs hc
    simp only [deserialize_xid, if_true, hs]
    rw [if_pos hc]
    rfl

/-- Witness for C28: the quoted text of the two bytes a, b. -/
theorem deserialize_xid_quoted_form_witness :
    deserialize_xid true [39, 97, 98, 39, 0] =
      some { ret := false, fmt := none, gln := some 2, bln := some 0, dat := [97, 98] } :=
  deserialize_xid_quoted_form.1 [97, 98] (by decide) (by decide)

/-! ## Recovery entries of the cache -/

/-- The emplace of an absent key appends the entry. -/
theorem cache_emplace_absent (k : Int × Int × List Nat) (a : Nat)
    (c : List ((Int × Int × List Nat) × Nat)) (h : cache_find k c = none) :
    cache_emplace k a c = (c ++ [(k, a)], true) := by
  simp [cache_emplace, h]

/-- C22: transaction_cache_insert_recovery is an idempotent insert-if-absent.
When the allocation of the Transaction_ctx succeeds it returns false and
raises nothing. If the key of x was absent, the cache gains the one entry
key(x) -> the new Transaction_ctx, whose XID_STATE is PREPARED, in_recovery,
binlogged, without error and holds x, and no other XID_STATE changes; if the
key was present the server is left as it was. A second call changes nothing.
(When the allocation fails and the key is absent the call returns true with
ER_OUTOFMEMORY and changes nothing.) -/
theorem insert_recovery_idempotent (x : XID) (srv : Server) :
    (transaction_cache_insert_recovery false x srv).1 = false ∧
    (transaction_cache_insert_recovery false x srv).2.2 = [] ∧
    (cache_find x.key srv.transaction_cache = none →
      (transaction_cache_insert_recovery false x srv).2.1.transaction_cache =
        srv.transaction_cache ++ [(x.key, srv.next_alloc)] ∧
      (transaction_cache_insert_recovery false x srv).2.1.transaction_cache.filter
        (fun e => decide (e.1 = x.key)) = [(x.key, srv.next_alloc)] ∧
      (transaction_cache_insert_recovery false x srv).2.1.xid_state srv.next_alloc =
        { xa_state := xa_states.XA_PREPARED, m_xid := x, rm_error := 0,
          m_is_binlogged := true, in_recovery := true,
          m_xa_type := XID_STATE.init.m_xa_type } ∧
      (∀ a, a ≠ srv.next_alloc →
        (transaction_cache_insert_recovery false x srv).2.1.xid_state a = srv.xid_state a)) ∧
    ((cache_find x.key srv.transaction_cache).isSome = true →
      (transaction_cache_insert_recovery false x srv).2.1 = srv) ∧
    (transaction_cache_insert_recovery false x
      (transaction_cache_insert_recovery false x srv).2.1).2.1 =
      (transaction_cache_insert_recovery false x srv).2.1 ∧
    (cache_find x.key srv.transaction_cache = none →
      transaction_cache_insert_recovery true x srv = (true, srv, [ER_OUTOFMEMORY])) := by
  have h_present : ∀ s : Server, (cache_find x.key s.transaction_cache).isSome = true →
      transaction_cache_insert_recovery false x s = (false, s, []) := by
    intro s h
    simp [transaction_cache_insert_recovery, h]
  cases hf : cache_find x.key srv.transaction_cache with
  | some a0 =>
    have h1 := h_present srv (by simp [hf])
    simp [h1, hf]
  | none =>
    have hk : ((Transaction_ctx.init.m_xid_state).start_recovery_xa x true).m_xid.key =
        x.key := rfl
    have h1 : transaction_cache_insert_recovery false x srv =
        (false,
          { srv with
            heap := Function.update srv.heap srv.next_alloc
              { Transaction_ctx.init with
                m_xid_state := (Transaction_ctx.init.m_xid_state).start_recovery_xa x true }
            next_alloc := srv.next_alloc + 1
            transaction_cache := srv.transaction_cache ++ [(x.key, srv.next_alloc)] },
          []) := by
      simp [transaction_cache_insert_recovery, hf, create_and_insert_new_transaction, hk,
        cache_emplace_absent]
    have h2 : (cache_find x.key
        (transaction_cache_insert_recovery false x srv).2.1.transaction_cache).isSome = true := by
      rw [h1]
      simp [cache_find_append, hf]
    have hnone : x.key ∉ srv.transaction_cache.map Prod.fst := (cache_find_eq_none _ _).mp hf
    refine ⟨by rw [h1], by rw [h1], fun _ => ⟨by rw [h1], ?_, ?_, ?_⟩, ?_, ?_, ?_⟩
    · rw [h1]
      simp only [List.filter_append]
      have : srv.transaction_cache.filter (fun e => decide (e.1 = x.key)) = [] := by
        rw [List.filter_eq_nil_iff]
        intro e he hek
        simp only [decide_eq_true_eq] at hek
        exact hnone (List.mem_map.mpr ⟨e, he, hek⟩)
      simp [this]
    · rw [h1]
      simp [Server.xid_state, XID_STATE.start_recovery_xa, Transaction_ctx.init,
        XID_STATE.init]
    · intro a ha
      rw [h1]
      simp [Server.xid_state, Function.update_noteq ha]
    · intro h
      simp at h
    · rw [h_present _ h2]
    · intro _
      simp [transaction_cache_insert_recovery, hf, create_and_insert_new_transaction]

/-- Witness for C22: on the empty cache the recovery of t1 files the new branch
at address 0 under the key of t1. -/
theorem insert_recovery_idempotent_witness :
    (transaction_cache_insert_recovery false sample_xid sample_empty_server
      ).2.1.transaction_cache = [(sample_xid.key, 0)] :=
  ((insert_recovery_idempotent sample_xid sample_empty_server).2.2.1 (by decide)).1

/-- C23: transaction_cache_detach(ctx), for a branch ctx whose key is in the
cache and with the allocation of the new Transaction_ctx succeeding, returns
false and leaves the cache with the same set of keys. The entry under the key
of ctx is then the new Transaction_ctx, which is not ctx and whose XID_STATE
holds the XID of ctx, is PREPARED and in_recovery and has the binlogged flag
ctx had; the entries under other keys, their order included, and every other
XID_STATE, that of ctx included, are as they were. -/
theorem transaction_cache_detach_replaces (ctx : Nat) (srv : Server)
    (h_present :
      (cache_find (srv.xid_state ctx).m_xid.key srv.transaction_cache).isSome = true)
    (h_alloc : ctx < srv.next_alloc) :
    (transaction_cache_detach false ctx srv).1 = false ∧
    (∀ k, k ∈ (transaction_cache_detach false ctx srv).2.1.cache_keys ↔ k ∈ srv.cache_keys) ∧
    cache_find (srv.xid_state ctx).m_xid.key
      (transaction_cache_detach false ctx srv).2.1.transaction_cache = some srv.next_alloc ∧
    srv.next_alloc ≠ ctx ∧
    ((transaction_cache_detach false ctx srv).2.1.xid_state srv.next_alloc).m_xid =
      (srv.xid_state ctx).m_xid ∧
    ((transaction_cache_detach false ctx srv).2.1.xid_state srv.next_alloc).xa_state =
      xa_states.XA_PREPARED ∧
    ((transaction_cache_detach false ctx srv).2.1.xid_state srv.next_alloc).in_recovery =
      true ∧
    ((transaction_cache_detach false ctx srv).2.1.xid_state srv.next_alloc).m_is_binlogged =
      (srv.xid_state ctx).m_is_binlogged ∧
    (transaction_cache_detach false ctx srv).2.1.transaction_cache.filter
        (fun e => decide (e.1 ≠ (srv.xid_state ctx).m_xid.key)) =
      srv.transaction_cache.filter
        (fun e => decide (e.1 ≠ (srv.xid_state ctx).m_xid.key)) ∧
    (∀ k, k ≠ (srv.xid_state ctx).m_xid.key →
      cache_find k (transaction_cache_detach false ctx srv).2.1.transaction_cache =
        cache_find k srv.transaction_cache) ∧
    (∀ a, a ≠ srv.next_alloc →
      (transaction_cache_detach false ctx srv).2.1.xid_state a = srv.xid_state a) := by
  have hk : ((Transaction_ctx.init.m_xid_state).start_recovery_xa (srv.xid_state ctx).m_xid
      (srv.xid_state ctx).m_is_binlogged).m_xid.key = (srv.xid_state ctx).m_xid.key := rfl
  have he := cache_find_erase (srv.xid_state ctx).m_xid.key srv.transaction_cache
  have h1 : transaction_cache_detach false ctx srv =
      (false,
        { srv with
          heap := Function.update srv.heap srv.next_alloc
            { Transaction_ctx.init with
              m_xid_state := (Transaction_ctx.init.m_xid_state).start_recovery_xa
                (srv.xid_state ctx).m_xid (srv.xid_state ctx).m_is_binlogged }
          next_alloc := srv.next_alloc + 1
          transaction_cache := cache_erase (srv.xid_state ctx).m_xid.key srv.transaction_cache ++
            [((srv.xid_state ctx).m_xid.key, srv.next_alloc)] },
        []) := by
    simp [transaction_cache_detach, create_and_insert_new_transaction, hk,
      cache_emplace_absent _ _ _ he]
  have hmem : (srv.xid_state ctx).m_xid.key ∈ srv.cache_keys := by
    by_contra hc
    rw [(cache_find_eq_none _ _).mpr hc] at h_present
    simp at h_present
  rw [h1]
  refine ⟨rfl, ?_, ?_, Nat.ne_of_gt h_alloc, ?_, ?_, ?_, ?_, ?_, ?_, ?_⟩
  · intro k
    simp only [Server.cache_keys, cache_erase, List.map_append, List.mem_append, List.mem_map,
      List.mem_filter, decide_eq_true_eq, List.mem_singleton, List.map_cons, List.map_nil]
    constructor
    · rintro (⟨e, ⟨he1, _⟩, he3⟩ | h)
      · exact ⟨e, he1, he3⟩
      · rw [h]
        simpa [Server.cache_keys] using hmem
    · rintro ⟨e, he1, he2⟩
      by_cases hkk : k = (srv.xid_state ctx).m_xid.key
      · exact Or.inr hkk
      · exact Or.inl ⟨e, ⟨he1, by rw [he2]; exact hkk⟩, he2⟩
  · simp [cache_find_append, he]
  · simp [Server.xid_state, XID_STATE.start_recovery_xa]
  · simp [Server.xid_state, XID_STATE.start_recovery_xa]
  · simp [Server.xid_state, XID_STATE.start_recovery_xa]
  · simp [Server.xid_state, XID_STATE.start_recovery_xa]
  · simp [cache_erase, List.filter_append, List.filter_filter]
  · intro k hkk
    simp only [cache_find_append]
    rw [cache_find_erase_ne _ _ hkk]
    cases cache_find k srv.transaction_cache with
    | some a => rfl
    | none => simp [Ne.symm hkk]
  · intro a ha
    simp [Server.xid_state, Function.update_noteq ha]

/-- Witness for C23: the session at address 0 holds t1 PREPARED and its entry is
in the cache; after the detach the key of t1 maps to the new branch at
address 1. -/
theorem transaction_cache_detach_replaces_witness :
    cache_find sample_xid.key
      (transaction_cache_detach false 0
        (sample_server xa_states.XA_PREPARED 0 [(sample_xid.key, 0)])).2.1.transaction_cache =
      some 1 :=
  (transaction_cache_detach_replaces 0
    (sample_server xa_states.XA_PREPARED 0 [(sample_xid.key, 0)]) (by decide)
    (by decide)).2.2.1

/-! ## Modes of the recovery scan -/

/-- A projection of the scan state that every iteration preserves is preserved
by the loop of xarecover_handlerton. -/
theorem xarecover_loop_preserves {α : Type} (alloc_fails : Nat → Bool)
    (heuristic : TC_HEURISTIC) (hton : handlerton) (f : Recover_state → α)
    (hf : ∀ b st, f (xarecover_txn alloc_fails heuristic hton b st).2 = f st) :
    ∀ (l : List XA_recover_txn) (st : Recover_state),
      f (xarecover_loop alloc_fails heuristic hton l st).2 = f st := by
  intro l
  induction l with
  | nil => intro st; rfl
  | cons b rest ih =>
    intro st
    rw [xarecover_loop]
    have h1 := hf b st
    cases hh : xarecover_txn alloc_fails heuristic hton b st with
    | mk r s =>
      rw [hh] at h1
      cases r with
      | true => exact h1
      | false => exact (ih s).trans h1

/-- The scan never changes the mode it runs in: the flags dry_run and
m_do_binlog_recovery and the commit list stay as they are. -/
theorem xarecover_txn_mode (alloc_fails : Nat → Bool) (heuristic : TC_HEURISTIC)
    (hton : handlerton) (b : XA_recover_txn) (st : Recover_state) :
    ((xarecover_txn alloc_fails heuristic hton b st).2.info.m_do_binlog_recovery,
      (xarecover_txn alloc_fails heuristic hton b st).2.info.dry_run,
      (xarecover_txn alloc_fails heuristic hton b st).2.info.commit_list) =
    (st.info.m_do_binlog_recovery, st.info.dry_run, st.info.commit_list) := by
  simp only [xarecover_txn, xarecover_recovery_mode, xarecover_commit, xarecover_abort]
  split_ifs <;> first | rfl | (split <;> rfl)

/-- The scan of one engine never changes the mode it runs in. -/
theorem xarecover_handlerton_mode (alloc_fails : Nat → Bool) (heuristic : TC_HEURISTIC)
    (hton : handlerton) (st : Recover_state) :
    ((xarecover_handlerton alloc_fails heuristic hton st).2.info.m_do_binlog_recovery,
      (xarecover_handlerton alloc_fails heuristic hton st).2.info.dry_run,
      (xarecover_handlerton alloc_fails heuristic hton st).2.info.commit_list) =
    (st.info.m_do_binlog_recovery, st.info.dry_run, st.info.commit_list) := by
  simp only [xarecover_handlerton]
  split
  · split
    · split
      · exact xarecover_loop_preserves alloc_fails heuristic hton
          (fun s => (s.info.m_do_binlog_recovery, s.info.dry_run, s.info.commit_list))
          (xarecover_txn_mode alloc_fails heuristic hton) _ _
      · rfl
    · rfl
  · rfl

/-- The scan over all engines never changes the mode it runs in. -/
theorem plugin_foreach_mode (alloc_fails : Nat → Bool) (heuristic : TC_HEURISTIC)
    (plugins : List handlerton) (st : Recover_state) :
    (plugin_foreach (xarecover_handlerton alloc_fails heuristic) plugins
        st).2.info.m_do_binlog_recovery = st.info.m_do_binlog_recovery ∧
    (plugin_foreach (xarecover_handlerton alloc_fails heuristic) plugins st).2.info.dry_run =
      st.info.dry_run ∧
    (plugin_foreach (xarecover_handlerton alloc_fails heuristic) plugins st).2.info.commit_list =
      st.info.commit_list := by
  have h := plugin_foreach_preserves (xarecover_handlerton alloc_fails heuristic)
    (fun s : Recover_state => (s.info.m_do_binlog_recovery, s.info.dry_run, s.info.commit_list))
    (xarecover_handlerton_mode alloc_fails heuristic) plugins st
  simp only [Prod.mk.injEq] at h
  exact h

/-- C30: when ha_recover scans in dry-run mode (binlog recovery disabled,
tc_heuristic_recover == NOT_USED and more than one two-phase engine besides
the binlog), it returns non-zero exactly when some engine reports an internal
XID (get_my_xid() != 0); with external XIDs only, or none, it returns 0. The
value returned is then 1 and the scan has ended in dry-run mode with
found_my_xids the number of internal XIDs reported. -/
theorem ha_recover_dry_run_aborts_on_internal (alloc_fails : Nat → Bool)
    (plugins : List handlerton) (g : Recover_globals) (recovered : Recovered_xa_transactions)
    (xa_prepared xa_cop xa_committed xa_aborted engine_prepared : Option (List (List Nat)))
    (h_heuristic : g.tc_heuristic_recover = TC_HEURISTIC.TC_HEURISTIC_NOT_USED)
    (h_engines : g.total_ha_2pc > g.opt_bin_log.toNat + 1) :
    ((ha_recover alloc_fails plugins g recovered none xa_prepared xa_cop xa_committed
        xa_aborted engine_prepared).1 ≠ 0 ↔
      ∃ b ∈ all_reported plugins, b.id.get_my_xid ≠ 0) ∧
    ((∀ b ∈ all_reported plugins, b.id.get_my_xid = 0) →
      (ha_recover alloc_fails plugins g recovered none xa_prepared xa_cop xa_committed
        xa_aborted engine_prepared).1 = 0) ∧
    ((∃ b ∈ all_reported plugins, b.id.get_my_xid ≠ 0) →
      (ha_recover alloc_fails plugins g recovered none xa_prepared xa_cop xa_committed
        xa_aborted engine_prepared).1 = 1) ∧
    (ha_recover alloc_fails plugins g recovered none xa_prepared xa_cop xa_committed
      xa_aborted engine_prepared).2.2.info.dry_run = true ∧
    (ha_recover alloc_fails plugins g recovered none xa_prepared xa_cop xa_committed
      xa_aborted engine_prepared).2.2.info.found_my_xids =
        count_internal (all_reported plugins) := by
  have h1 : ¬ g.total_ha_2pc ≤ g.opt_bin_log.toNat := by omega
  have hcount : count_internal (all_reported plugins) ≠ 0 ↔
      ∃ b ∈ all_reported plugins, b.id.get_my_xid ≠ 0 := by
    simp only [count_internal, ne_eq, List.length_eq_zero, List.filter_eq_nil_iff,
      decide_eq_true_eq, not_forall, not_not]
    constructor
    · rintro ⟨b, hb, hx⟩; exact ⟨b, hb, hx⟩
    · rintro ⟨b, hb, hx⟩; exact ⟨b, hb, hx⟩
  obtain ⟨p1, -, -, p4, -, p6⟩ := plugin_foreach_dry_run alloc_fails
    TC_HEURISTIC.TC_HEURISTIC_NOT_USED plugins
    { info := { xarecover_st.create none engine_prepared xa_prepared xa_cop xa_committed
                  xa_aborted with dry_run := true },
      recovered := recovered, calls := [] } rfl
  obtain ⟨m1, -, -⟩ := plugin_foreach_mode alloc_fails
    TC_HEURISTIC.TC_HEURISTIC_NOT_USED plugins
    { info := { xarecover_st.create none engine_prepared xa_prepared xa_cop xa_committed
                  xa_aborted with dry_run := true },
      recovered := recovered, calls := [] }
  have hr : ha_recover alloc_fails plugins g recovered none xa_prepared xa_cop xa_committed
      xa_aborted engine_prepared =
      (if count_internal (all_reported plugins) ≠ 0 then 1 else 0, g,
        (plugin_foreach (xarecover_handlerton alloc_fails TC_HEURISTIC.TC_HEURISTIC_NOT_USED)
          plugins
          { info := { xarecover_st.create none engine_prepared xa_prepared xa_cop xa_committed
                        xa_aborted with dry_run := true },
            recovered := recovered, calls := [] }).2) := by
    unfold ha_recover
    simp only [h1, h_heuristic, h_engines, if_true, if_false, xarecover_st.create,
      xarecover_st.do_binlog_recovery, Option.isSome_none, beq_self_eq_true, decide_True,
      Bool.and_self, reduceCtorEq, and_false]
    simp only [xarecover_st.create, Option.isSome_none] at p1 p4 p6 m1
    cases hpf : plugin_foreach (xarecover_handlerton alloc_fails
        TC_HEURISTIC.TC_HEURISTIC_NOT_USED) plugins
        { info := { found_foreign_xids := 0, found_my_xids := 0, commit_list := none,
                    binlog_xa_prepared_engine := engine_prepared,
                    binlog_xa_prepared := xa_prepared,
                    binlog_xa_cop := xa_cop, binlog_xa_committed := xa_committed,
                    binlog_xa_aborted := xa_aborted, dry_run := true,
                    m_do_binlog_recovery := false },
          recovered := recovered, calls := [] } with
    | mk r s =>
      rw [hpf] at p1 p4 p6 m1
      simp only at p1 p4 p6 m1
      subst p1
      simp only [m1, p4, p6, Bool.false_eq_true, if_false, true_and, zero_add, ne_eq,
        Nat.cast_eq_zero]
      split <;> rfl
  have hd : (ha_recover alloc_fails plugins g recovered none xa_prepared xa_cop xa_committed
      xa_aborted engine_prepared).1 =
      if count_internal (all_reported plugins) ≠ 0 then 1 else 0 := by rw [hr]
  refine ⟨?_, ?_, ?_, ?_, ?_⟩
  · rw [hd, ← hcount]
    by_cases hc : count_internal (all_reported plugins) = 0 <;> simp [hc]
  · intro hall
    have hc : count_internal (all_reported plugins) = 0 := by
      by_contra hc
      obtain ⟨b, hb, hx⟩ := hcount.mp hc
      exact hx (hall b hb)
    rw [hd]; simp [hc]
  · intro hex
    rw [hd, if_pos (hcount.mpr hex)]
  · rw [hr]; exact p4
  · rw [hr, p6]; simp [xarecover_st.create]

/-- Witness for C30: two two-phase engines, no binlog; an engine reporting the
internal XID of transaction 7 makes ha_recover return 1. -/
theorem ha_recover_dry_run_aborts_on_internal_witness :
    (ha_recover (fun _ => false)
      [sample_engine [{ id := sample_internal_xid, mod_tables := [],
                        one_phase_prepared := false }]]
      { total_ha_2pc := 2, opt_bin_log := false,
        tc_heuristic_recover := TC_HEURISTIC.TC_HEURISTIC_NOT_USED,
        g_did_binlog_recovery := 0 }
      { m_prepared_xa_trans := [], m_mem_root_inited := false }
      none none none none none none).1 = 1 :=
  (ha_recover_dry_run_aborts_on_internal (fun _ => false)
    [sample_engine [{ id := sample_internal_xid, mod_tables := [],
                      one_phase_prepared := false }]]
    { total_ha_2pc := 2, opt_bin_log := false,
      tc_heuristic_recover := TC_HEURISTIC.TC_HEURISTIC_NOT_USED,
      g_did_binlog_recovery := 0 }
    { m_prepared_xa_trans := [], m_mem_root_inited := false }
    none none none none none rfl (by decide)).2.2.1
    ⟨{ id := sample_internal_xid, mod_tables := [], one_phase_prepared := false },
      by decide, by decide⟩

/-- With binlog recovery enabled the heuristic plays no part in an iteration of
the scan. -/
theorem xarecover_txn_ignores_heuristic (alloc_fails : Nat → Bool) (h1 h2 : TC_HEURISTIC)
    (hton : handlerton) (b : XA_recover_txn) (st : Recover_state)
    (hb : st.info.m_do_binlog_recovery = true) :
    xarecover_txn alloc_fails h1 hton b st = xarecover_txn alloc_fails h2 hton b st := by
  simp [xarecover_txn, xarecover_recovery_mode, xarecover_st.do_binlog_recovery, hb]

/-- With binlog recovery enabled the heuristic plays no part in the loop of
the scan. -/
theorem xarecover_loop_ignores_heuristic (alloc_fails : Nat → Bool) (h1 h2 : TC_HEURISTIC)
    (hton : handlerton) :
    ∀ (l : List XA_recover_txn) (st : Recover_state), st.info.m_do_binlog_recovery = true →
      xarecover_loop alloc_fails h1 hton l st = xarecover_loop alloc_fails h2 hton l st := by
  intro l
  induction l with
  | nil => intro st _; rfl
  | cons b rest ih =>
    intro st hb
    have hm := xarecover_txn_mode alloc_fails h2 hton b st
    simp only [Prod.mk.injEq] at hm
    rw [xarecover_loop, xarecover_loop, xarecover_txn_ignores_heuristic alloc_fails h1 h2 hton
      b st hb]
    cases hh : xarecover_txn alloc_fails h2 hton b st with
    | mk r s =>
      rw [hh] at hm
      cases r with
      | true => rfl
      | false => exact ih s (hm.1.trans hb)

/-- With binlog recovery enabled the heuristic plays no part in the scan of an
engine. -/
theorem xarecover_handlerton_ignores_heuristic (alloc_fails : Nat → Bool)
    (h1 h2 : TC_HEURISTIC) (hton : handlerton) (st : Recover_state)
    (hb : st.info.m_do_binlog_recovery = true) :
    xarecover_handlerton alloc_fails h1 hton st = xarecover_handlerton alloc_fails h2 hton st := by
  simp only [xarecover_handlerton]
  split
  · split
    · split
      · exact xarecover_loop_ignores_heuristic alloc_fails h1 h2 hton _ _ hb
      · rfl
    · rfl
  · rfl

/-- With binlog recovery enabled the heuristic plays no part in the scan over
all engines. -/
theorem plugin_foreach_ignores_heuristic (alloc_fails : Nat → Bool) (h1 h2 : TC_HEURISTIC) :
    ∀ (plugins : List handlerton) (st : Recover_state),
      st.info.m_do_binlog_recovery = true →
      plugin_foreach (xarecover_handlerton alloc_fails h1) plugins st =
        plugin_foreach (xarecover_handlerton alloc_fails h2) plugins st := by
  intro plugins
  induction plugins with
  | nil => intro st _; rfl
  | cons hton rest ih =>
    intro st hb
    have hm := xarecover_handlerton_mode alloc_fails h2 hton st
    simp only [Prod.mk.injEq] at hm
    rw [plugin_foreach, plugin_foreach,
      xarecover_handlerton_ignores_heuristic alloc_fails h1 h2 hton st hb]
    cases hh : xarecover_handlerton alloc_fails h2 hton st with
    | mk r s =>
      rw [hh] at hm
      cases r with
      | true => rfl
      | false => exact ih s (hm.1.trans hb)

/-- One iteration of the scan outside dry-run, with binlog recovery disabled
and a heuristic other than COMMIT: the calls made so far are kept, an internal
branch is rolled back in the engine, and whatever is committed is external. -/
theorem xarecover_txn_rollback_mode (alloc_fails : Nat → Bool) (heuristic : TC_HEURISTIC)
    (hton : handlerton) (b : XA_recover_txn) (st : Recover_state)
    (hh : heuristic ≠ TC_HEURISTIC.TC_HEURISTIC_RECOVER_COMMIT)
    (hb : st.info.m_do_binlog_recovery = false) (hd : st.info.dry_run = false) :
    ∃ tail, (xarecover_txn alloc_fails heuristic hton b st).2.calls = st.calls ++ tail ∧
      (∀ slot xid, Engine_call.commit_by_xid slot xid ∈ tail → xid.get_my_xid = 0) ∧
      (b.id.get_my_xid ≠ 0 → Engine_call.rollback_by_xid hton.slot b.id ∈ tail) := by
  by_cases hx : b.id.get_my_xid = 0
  · simp only [xarecover_txn, hx, if_true, hd, Bool.false_eq_true, if_false,
      xarecover_recovery_mode, Bool.true_or, xarecover_commit, xarecover_abort]
    split_ifs
    · exact ⟨[Engine_call.commit_by_xid hton.slot b.id], rfl, by simp [hx], by simp⟩
    · exact ⟨[Engine_call.rollback_by_xid hton.slot b.id], rfl, by simp, by simp⟩
    · exact ⟨[Engine_call.commit_by_xid hton.slot b.id], rfl, by simp [hx], by simp⟩
    · exact ⟨[Engine_call.rollback_by_xid hton.slot b.id], rfl, by simp, by simp⟩
    · exact ⟨[Engine_call.rollback_by_xid hton.slot b.id], rfl, by simp, by simp⟩
    · split
      · exact ⟨[], by simp, by simp, by simp⟩
      · exact ⟨[], by simp, by simp, by simp⟩
  · refine ⟨[Engine_call.rollback_by_xid hton.slot b.id], ?_, by simp, by simp⟩
    simp [xarecover_txn, hx, hd, xarecover_recovery_mode, xarecover_st.do_binlog_recovery, hb,
      hh, xarecover_abort]

/-- The loop of the scan outside dry-run, with binlog recovery disabled and a
heuristic other than COMMIT: whatever is committed is external, and when the
loop runs to its end every internal branch of the list is rolled back. -/
theorem xarecover_loop_rollback_mode (alloc_fails : Nat → Bool) (heuristic : TC_HEURISTIC)
    (hton : handlerton) (hh : heuristic ≠ TC_HEURISTIC.TC_HEURISTIC_RECOVER_COMMIT) :
    ∀ (l : List XA_recover_txn) (st : Recover_state),
      st.info.m_do_binlog_recovery = false → st.info.dry_run = false →
      ∃ tail, (xarecover_loop alloc_fails heuristic hton l st).2.calls = st.calls ++ tail ∧
        (∀ slot xid, Engine_call.commit_by_xid slot xid ∈ tail → xid.get_my_xid = 0) ∧
        ((xarecover_loop alloc_fails heuristic hton l st).1 = false →
          ∀ b ∈ l, b.id.get_my_xid ≠ 0 →
            Engine_call.rollback_by_xid hton.slot b.id ∈ tail) := by
  intro l
  induction l with
  | nil => intro st _ _; exact ⟨[], by simp [xarecover_loop], by simp, by simp⟩
  | cons b rest ih =>
    intro st hb hd
    obtain ⟨t1, c1, c2, c3⟩ := xarecover_txn_rollback_mode alloc_fails heuristic hton b st hh hb hd
    have hm := xarecover_txn_mode alloc_fails heuristic hton b st
    simp only [Prod.mk.injEq] at hm
    rw [xarecover_loop]
    cases hstep : xarecover_txn alloc_fails heuristic hton b st with
    | mk r s =>
      rw [hstep] at c1 hm
      cases r with
      | true => exact ⟨t1, c1, c2, by simp⟩
      | false =>
        obtain ⟨t2, d1, d2, d3⟩ := ih s (hm.1.trans hb) (hm.2.1.trans hd)
        refine ⟨t1 ++ t2, ?_, ?_, ?_⟩
        · simp only at c1
          rw [d1, c1, List.append_assoc]
        · intro slot xid hmem
          rcases List.mem_append.mp hmem with h | h
          · exact c2 slot xid h
          · exact d2 slot xid h
        · intro hr b1 hb1 hx
          rcases List.mem_cons.mp hb1 with h | h
          · subst h
            exact List.mem_append_left _ (c3 hx)
          · exact List.mem_append_right _ (d3 hr b1 h hx)

/-- The scan of one engine outside dry-run, with binlog recovery disabled and a
heuristic other than COMMIT. -/
theorem xarecover_handlerton_rollback_mode (alloc_fails : Nat → Bool)
    (heuristic : TC_HEURISTIC) (hton : handlerton) (st : Recover_state)
    (hh : heuristic ≠ TC_HEURISTIC.TC_HEURISTIC_RECOVER_COMMIT)
    (hb : st.info.m_do_binlog_recovery = false) (hd : st.info.dry_run = false) :
    ∃ tail, (xarecover_handlerton alloc_fails heuristic hton st).2.calls = st.calls ++ tail ∧
      (∀ slot xid, Engine_call.commit_by_xid slot xid ∈ tail → xid.get_my_xid = 0) ∧
      ((xarecover_handlerton alloc_fails heuristic hton st).1 = false →
        ∀ b ∈ hton.reported, b.id.get_my_xid ≠ 0 →
          Engine_call.rollback_by_xid hton.slot b.id ∈ tail) := by
  unfold xarecover_handlerton handlerton.reported
  by_cases hs : hton.state = SHOW_COMP_OPTION.SHOW_OPTION_YES
  · simp only [hs, if_true]
    cases hr : hton.recover with
    | none => exact ⟨[], by simp, by simp, by simp⟩
    | some p =>
      obtain ⟨got, txn_list⟩ := p
      by_cases hg : got > 0
      · simp only [hg, if_true]
        exact xarecover_loop_rollback_mode alloc_fails heuristic hton hh
          (txn_list.take got.toNat)
          { st with recovered := st.recovered.get_allocated_memroot } hb hd
      · simp only [hg, if_false]
        exact ⟨[], by simp, by simp, by simp⟩
  · simp only [hs, if_false]
    exact ⟨[], by simp, by simp, by simp⟩

/-- The scan over all engines outside dry-run, with binlog recovery disabled
and a heuristic other than COMMIT: whatever is committed is external, and when
the scan runs to its end every internal branch reported is rolled back in the
engine that reported it. -/
theorem plugin_foreach_rollback_mode (alloc_fails : Nat → Bool) (heuristic : TC_HEURISTIC)
    (hh : heuristic ≠ TC_HEURISTIC.TC_HEURISTIC_RECOVER_COMMIT) :
    ∀ (plugins : List handlerton) (st : Recover_state),
      st.info.m_do_binlog_recovery = false → st.info.dry_run = false →
      ∃ tail,
        (plugin_foreach (xarecover_handlerton alloc_fails heuristic) plugins st).2.calls =
          st.calls ++ tail ∧
        (∀ slot xid, Engine_call.commit_by_xid slot xid ∈ tail → xid.get_my_xid = 0) ∧
        ((plugin_foreach (xarecover_handlerton alloc_fails heuristic) plugins st).1 = false →
          ∀ hton ∈ plugins, ∀ b ∈ hton.reported, b.id.get_my_xid ≠ 0 →
            Engine_call.rollback_by_xid hton.slot b.id ∈ tail) := by
  intro plugins
  induction plugins with
  | nil => intro st _ _; exact ⟨[], by simp [plugin_foreach], by simp, by simp⟩
  | cons hton rest ih =>
    intro st hb hd
    obtain ⟨t1, c1, c2, c3⟩ :=
      xarecover_handlerton_rollback_mode alloc_fails heuristic hton st hh hb hd
    have hm := xarecover_handlerton_mode alloc_fails heuristic hton st
    simp only [Prod.mk.injEq] at hm
    rw [plugin_foreach]
    cases hstep : xarecover_handlerton alloc_fails heuristic hton st with
    | mk r s =>
      rw [hstep] at c1 c3 hm
      cases r with
      | true => exact ⟨t1, c1, c2, by simp⟩
      | false =>
        obtain ⟨t2, d1, d2, d3⟩ := ih s (hm.1.trans hb) (hm.2.1.trans hd)
        refine ⟨t1 ++ t2, ?_, ?_, ?_⟩
        · simp only at c1
          rw [d1, c1, List.append_assoc]
        · intro slot xid hmem
          rcases List.mem_append.mp hmem with h | h
          · exact c2 slot xid h
          · exact d2 slot xid h
        · intro hr h1 hh1 b hb1 hx
          rcases List.mem_cons.mp hh1 with h | h
          · subst h
            exact List.mem_append_left _ (c3 rfl b hb1 hx)
          · exact List.mem_append_right _ (d3 hr h1 h b hb1 hx)

/-- With a single two-phase engine besides the binlog ha_recover forces the
heuristic to ROLLBACK, leaves dry-run and scans. -/
theorem ha_recover_single_engine_scan (alloc_fails : Nat → Bool) (plugins : List handlerton)
    (g : Recover_globals) (recovered : Recovered_xa_transactions)
    (commit_list : Option (List Nat))
    (xa_prepared xa_cop xa_committed xa_aborted engine_prepared : Option (List (List Nat)))
    (h_2pc : g.opt_bin_log.toNat < g.total_ha_2pc)
    (h_single : g.total_ha_2pc ≤ g.opt_bin_log.toNat + 1) :
    (ha_recover alloc_fails plugins g recovered commit_list xa_prepared xa_cop xa_committed
        xa_aborted engine_prepared).1 =
      (if (plugin_foreach
          (xarecover_handlerton alloc_fails TC_HEURISTIC.TC_HEURISTIC_RECOVER_ROLLBACK) plugins
          { info := xarecover_st.create commit_list engine_prepared xa_prepared xa_cop
              xa_committed xa_aborted,
            recovered := recovered, calls := [] }).1 = true then 1 else 0) ∧
    (ha_recover alloc_fails plugins g recovered commit_list xa_prepared xa_cop xa_committed
        xa_aborted engine_prepared).2.1.tc_heuristic_recover =
      TC_HEURISTIC.TC_HEURISTIC_RECOVER_ROLLBACK ∧
    (ha_recover alloc_fails plugins g recovered commit_list xa_prepared xa_cop xa_committed
        xa_aborted engine_prepared).2.2 =
      (plugin_foreach
        (xarecover_handlerton alloc_fails TC_HEURISTIC.TC_HEURISTIC_RECOVER_ROLLBACK) plugins
        { info := xarecover_st.create commit_list engine_prepared xa_prepared xa_cop
            xa_committed xa_aborted,
          recovered := recovered, calls := [] }).2 := by
  have h1 : ¬ g.total_ha_2pc ≤ g.opt_bin_log.toNat := by omega
  have h2 : ¬ g.total_ha_2pc > g.opt_bin_log.toNat + 1 := by omega
  obtain ⟨-, m2, -⟩ := plugin_foreach_mode alloc_fails
    TC_HEURISTIC.TC_HEURISTIC_RECOVER_ROLLBACK plugins
    { info := xarecover_st.create commit_list engine_prepared xa_prepared xa_cop
        xa_committed xa_aborted,
      recovered := recovered, calls := [] }
  unfold ha_recover
  simp only [h1, h2, if_false, false_and]
  simp only [xarecover_st.create] at m2 ⊢
  split
  · rename_i st3 heq
    simp only [heq, if_true, and_self]
  · rename_i st3 heq
    simp only [heq] at m2
    simp only [heq, m2, Bool.false_eq_true, false_and, if_false, true_and]
    split <;> simp

/-- When no allocation on the memory root fails, one iteration of the scan
never stops the loop. -/
theorem xarecover_txn_no_alloc_failure (alloc_fails : Nat → Bool) (heuristic : TC_HEURISTIC)
    (hton : handlerton) (b : XA_recover_txn) (st : Recover_state)
    (h_alloc : ∀ n, alloc_fails n = false) :
    (xarecover_txn alloc_fails heuristic hton b st).1 = false := by
  simp only [xarecover_txn, Recovered_xa_transactions.add_prepared_xa_transaction, h_alloc,
    Bool.false_eq_true, if_false]
  split_ifs <;> rfl

/-- When no allocation on the memory root fails, the loop over the branches of
an engine runs to its end. -/
theorem xarecover_loop_no_alloc_failure (alloc_fails : Nat → Bool) (heuristic : TC_HEURISTIC)
    (hton : handlerton) (h_alloc : ∀ n, alloc_fails n = false) :
    ∀ (l : List XA_recover_txn) (st : Recover_state),
      (xarecover_loop alloc_fails heuristic hton l st).1 = false := by
  intro l
  induction l with
  | nil => intro st; rfl
  | cons b rest ih =>
    intro st
    have h := xarecover_txn_no_alloc_failure alloc_fails heuristic hton b st h_alloc
    rw [xarecover_loop]
    cases hstep : xarecover_txn alloc_fails heuristic hton b st with
    | mk r s =>
      rw [hstep] at h
      simp only at h
      subst h
      exact ih s

/-- When no allocation on the memory root fails, the scan of an engine returns
false. -/
theorem xarecover_handlerton_no_alloc_failure (alloc_fails : Nat → Bool)
    (heuristic : TC_HEURISTIC) (hton : handlerton) (st : Recover_state)
    (h_alloc : ∀ n, alloc_fails n = false) :
    (xarecover_handlerton alloc_fails heuristic hton st).1 = false := by
  unfold xarecover_handlerton
  split_ifs
  · split
    · split_ifs
      · exact xarecover_loop_no_alloc_failure alloc_fails heuristic hton h_alloc _ _
      · rfl
    · rfl
  · rfl

/-- When no allocation on the memory root fails, the scan over all engines
runs to its end. -/
theorem plugin_foreach_no_alloc_failure (alloc_fails : Nat → Bool) (heuristic : TC_HEURISTIC)
    (h_alloc : ∀ n, alloc_fails n = false) :
    ∀ (plugins : List handlerton) (st : Recover_state),
      (plugin_foreach (xarecover_handlerton alloc_fails heuristic) plugins st).1 = false := by
  intro plugins
  induction plugins with
  | nil => intro st; rfl
  | cons hton rest ih =>
    intro st
    have h := xarecover_handlerton_no_alloc_failure alloc_fails heuristic hton st h_alloc
    rw [plugin_foreach]
    cases hstep : xarecover_handlerton alloc_fails heuristic hton st with
    | mk r s =>
      rw [hstep] at h
      simp only at h
      subst h
      exact ih s

/-- C29: single-engine forcing. When ha_recover runs with
opt_bin_log < total_ha_2pc <= opt_bin_log + 1 it forces tc_heuristic_recover
to ROLLBACK before the scan, whatever heuristic was configured. With binlog
recovery disabled no internal branch is then committed (every commit_by_xid
made is on an external XID); ha_recover returns 0 unless an allocation on the
memory root fails, and whenever it returns 0, so whenever no allocation
fails, every internal branch an engine reports is rolled back in that engine.
With binlog recovery enabled the scan is the one made under any other
heuristic h: the forced value changes no decision. -/
theorem ha_recover_single_engine_forcing (alloc_fails : Nat → Bool)
    (plugins : List handlerton) (g : Recover_globals) (recovered : Recovered_xa_transactions)
    (xa_prepared xa_cop xa_committed xa_aborted engine_prepared : Option (List (List Nat)))
    (h_2pc : g.opt_bin_log.toNat < g.total_ha_2pc)
    (h_single : g.total_ha_2pc ≤ g.opt_bin_log.toNat + 1) :
    (∀ commit_list,
      (ha_recover alloc_fails plugins g recovered commit_list xa_prepared xa_cop xa_committed
        xa_aborted engine_prepared).2.1.tc_heuristic_recover =
          TC_HEURISTIC.TC_HEURISTIC_RECOVER_ROLLBACK) ∧
    (∀ slot xid, Engine_call.commit_by_xid slot xid ∈
        (ha_recover alloc_fails plugins g recovered none xa_prepared xa_cop xa_committed
          xa_aborted engine_prepared).2.2.calls → xid.get_my_xid = 0) ∧
    ((ha_recover alloc_fails plugins g recovered none xa_prepared xa_cop xa_committed
        xa_aborted engine_prepared).1 = 0 →
      ∀ hton ∈ plugins, ∀ b ∈ hton.reported, b.id.get_my_xid ≠ 0 →
        Engine_call.rollback_by_xid hton.slot b.id ∈
          (ha_recover alloc_fails plugins g recovered none xa_prepared xa_cop xa_committed
            xa_aborted engine_prepared).2.2.calls) ∧
    ((∀ n, alloc_fails n = false) →
      (ha_recover alloc_fails plugins g recovered none xa_prepared xa_cop xa_committed
        xa_aborted engine_prepared).1 = 0 ∧
      ∀ hton ∈ plugins, ∀ b ∈ hton.reported, b.id.get_my_xid ≠ 0 →
        Engine_call.rollback_by_xid hton.slot b.id ∈
          (ha_recover alloc_fails plugins g recovered none xa_prepared xa_cop xa_committed
            xa_aborted engine_prepared).2.2.calls) ∧
    (∀ (commit_list : List Nat) (h : TC_HEURISTIC),
      (ha_recover alloc_fails plugins g recovered (some commit_list) xa_prepared xa_cop
          xa_committed xa_aborted engine_prepared).2.2 =
        (plugin_foreach (xarecover_handlerton alloc_fails h) plugins
          { info := xarecover_st.create (some commit_list) engine_prepared xa_prepared xa_cop
              xa_committed xa_aborted,
            recovered := recovered, calls := [] }).2 ∧
      (ha_recover alloc_fails plugins g recovered (some commit_list) xa_prepared xa_cop
          xa_committed xa_aborted engine_prepared).1 =
        (if (plugin_foreach (xarecover_handlerton alloc_fails h) plugins
          { info := xarecover_st.create (some commit_list) engine_prepared xa_prepared xa_cop
              xa_committed xa_aborted,
            recovered := recovered, calls := [] }).1 = true then 1 else 0)) := by
  obtain ⟨tail, c1, c2, c3⟩ := plugin_foreach_rollback_mode alloc_fails
    TC_HEURISTIC.TC_HEURISTIC_RECOVER_ROLLBACK (by decide) plugins
    { info := xarecover_st.create none engine_prepared xa_prepared xa_cop xa_committed
        xa_aborted,
      recovered := recovered, calls := [] } rfl rfl
  obtain ⟨s1, -, s3⟩ := ha_recover_single_engine_scan alloc_fails plugins g recovered none
    xa_prepared xa_cop xa_committed xa_aborted engine_prepared h_2pc h_single
  have h_rb : (ha_recover alloc_fails plugins g recovered none xa_prepared xa_cop xa_committed
        xa_aborted engine_prepared).1 = 0 →
      ∀ hton ∈ plugins, ∀ b ∈ hton.reported, b.id.get_my_xid ≠ 0 →
        Engine_call.rollback_by_xid hton.slot b.id ∈
          (ha_recover alloc_fails plugins g recovered none xa_prepared xa_cop xa_committed
            xa_aborted engine_prepared).2.2.calls := by
    intro hret hton hh b hb hx
    rw [s3, c1]
    have hfin : (plugin_foreach
        (xarecover_handlerton alloc_fails TC_HEURISTIC.TC_HEURISTIC_RECOVER_ROLLBACK) plugins
        { info := xarecover_st.create none engine_prepared xa_prepared xa_cop xa_committed
            xa_aborted,
          recovered := recovered, calls := [] }).1 = false := by
      rw [s1] at hret
      by_contra hc
      simp only [Bool.not_eq_false] at hc
      rw [if_pos hc] at hret
      exact absurd hret (by decide)
    simpa using c3 hfin hton hh b hb hx
  refine ⟨?_, ?_, h_rb, ?_, ?_⟩
  · intro commit_list
    exact (ha_recover_single_engine_scan alloc_fails plugins g recovered commit_list
      xa_prepared xa_cop xa_committed xa_aborted engine_prepared h_2pc h_single).2.1
  · intro slot xid hmem
    rw [s3, c1] at hmem
    exact c2 slot xid (by simpa using hmem)
  · intro h_alloc
    have hret : (ha_recover alloc_fails plugins g recovered none xa_prepared xa_cop
        xa_committed xa_aborted engine_prepared).1 = 0 := by
      rw [s1, plugin_foreach_no_alloc_failure alloc_fails
        TC_HEURISTIC.TC_HEURISTIC_RECOVER_ROLLBACK h_alloc]
      rfl
    exact ⟨hret, h_rb hret⟩
  · intro commit_list h
    obtain ⟨r1, -, r3⟩ := ha_recover_single_engine_scan alloc_fails plugins g recovered
      (some commit_list) xa_prepared xa_cop xa_committed xa_aborted engine_prepared h_2pc
      h_single
    rw [r1, r3, plugin_foreach_ignores_heuristic alloc_fails
      TC_HEURISTIC.TC_HEURISTIC_RECOVER_ROLLBACK h plugins _ rfl]
    exact ⟨rfl, rfl⟩

/-- Witness for C29: one two-phase engine, no binlog, reporting the internal
branch of transaction 7. With the heuristic NOT_USED configured, and with the
heuristic COMMIT configured, ha_recover returns 0 and the branch is rolled
back in the engine. -/
theorem ha_recover_single_engine_forcing_witness :
    ((ha_recover (fun _ => false) [sample_engine [sample_internal_branch]]
        { total_ha_2pc := 1, opt_bin_log := false,
          tc_heuristic_recover := TC_HEURISTIC.TC_HEURISTIC_NOT_USED,
          g_did_binlog_recovery := 0 }
        { m_prepared_xa_trans := [], m_mem_root_inited := false }
        none none none none none none).1 = 0 ∧
      Engine_call.rollback_by_xid 0 sample_internal_xid ∈
        (ha_recover (fun _ => false) [sample_engine [sample_internal_branch]]
          { total_ha_2pc := 1, opt_bin_log := false,
            tc_heuristic_recover := TC_HEURISTIC.TC_HEURISTIC_NOT_USED,
            g_did_binlog_recovery := 0 }
          { m_prepared_xa_trans := [], m_mem_root_inited := false }
          none none none none none none).2.2.calls) ∧
    ((ha_recover (fun _ => false) [sample_engine [sample_internal_branch]]
        { total_ha_2pc := 1, opt_bin_log := false,
          tc_heuristic_recover := TC_HEURISTIC.TC_HEURISTIC_RECOVER_COMMIT,
          g_did_binlog_recovery := 0 }
        { m_prepared_xa_trans := [], m_mem_root_inited := false }
        none none none none none none).1 = 0 ∧
      Engine_call.rollback_by_xid 0 sample_internal_xid ∈
        (ha_recover (fun _ => false) [sample_engine [sample_internal_branch]]
          { total_ha_2pc := 1, opt_bin_log := false,
            tc_heuristic_recover := TC_HEURISTIC.TC_HEURISTIC_RECOVER_COMMIT,
            g_did_binlog_recovery := 0 }
          { m_prepared_xa_trans := [], m_mem_root_inited := false }
          none none none none none none).2.2.calls) := by
  have h1 := (ha_recover_single_engine_forcing (fun _ => false)
    [sample_engine [sample_internal_branch]]
    { total_ha_2pc := 1, opt_bin_log := false,
      tc_heuristic_recover := TC_HEURISTIC.TC_HEURISTIC_NOT_USED,
      g_did_binlog_recovery := 0 }
    { m_prepared_xa_trans := [], m_mem_root_inited := false }
    none none none none none (by decide) (by decide)).2.2.2.1 (fun _ => rfl)
  have h2 := (ha_recover_single_engine_forcing (fun _ => false)
    [sample_engine [sample_internal_branch]]
    { total_ha_2pc := 1, opt_bin_log := false,
      tc_heuristic_recover := TC_HEURISTIC.TC_HEURISTIC_RECOVER_COMMIT,
      g_did_binlog_recovery := 0 }
    { m_prepared_xa_trans := [], m_mem_root_inited := false }
    none none none none none (by decide) (by decide)).2.2.2.1 (fun _ => rfl)
  exact ⟨⟨h1.1, h1.2 (sample_engine [sample_internal_branch]) (by simp)
      sample_internal_branch (by decide) (by decide)⟩,
    ⟨h2.1, h2.2 (sample_engine [sample_internal_branch]) (by simp)
      sample_internal_branch (by decide) (by decide)⟩⟩

/-! ## ROLLBACK_ONLY is sticky -/

/-- After xa_trans_rolled_back has returned true the state is ROLLBACK_ONLY. -/
theorem rb_at_true_state (a : Nat) (srv : Server) (thd : THD)
    (h : (xa_trans_rolled_back_at a srv thd).1 = true) :
    ((xa_trans_rolled_back_at a srv thd).2.1.xid_state a).xa_state =
      xa_states.XA_ROLLBACK_ONLY := by
  simp only [xa_trans_rolled_back_at, XID_STATE.xa_trans_rolled_back] at h ⊢
  split at h
  · rename_i h0
    simp [h0]
  · rename_i h0
    simp only [h0, if_false, xid_state_set_xid_state, if_true]
    simpa using h

/-- In state ROLLBACK_ONLY xa_trans_rolled_back returns true and the state
stays ROLLBACK_ONLY. -/
theorem rb_at_rollback_only (a : Nat) (srv : Server) (thd : THD)
    (h : (srv.xid_state a).xa_state = xa_states.XA_ROLLBACK_ONLY) :
    (xa_trans_rolled_back_at a srv thd).1 = true ∧
    ((xa_trans_rolled_back_at a srv thd).2.1.xid_state a).xa_state =
      xa_states.XA_ROLLBACK_ONLY := by
  simp only [xa_trans_rolled_back_at, XID_STATE.xa_trans_rolled_back]
  split
  · simp
  · simp [h]

/-- In state ROLLBACK_ONLY a statement that does not terminate the session's
branch is refused and leaves the server as it was. -/
theorem rollback_only_step (env : Collaborators) (c : Xa_command) (srv : Server) (thd : THD)
    (h_state : (srv.xid_state thd.m_transaction).xa_state = xa_states.XA_ROLLBACK_ONLY)
    (h_c : c.terminates (srv.xid_state thd.m_transaction) = false) :
    (c.run env srv thd).1 = true ∧ (c.run env srv thd).2.1 = srv ∧
    (c.run env srv thd).2.2.m_transaction = thd.m_transaction := by
  have hne : (srv.xid_state thd.m_transaction).xa_state ≠ xa_states.XA_NOTR := by
    rw [h_state]; decide
  cases c with
  | xa_start xid opt =>
    by_cases ho : opt = xa_option_words.XA_NONE <;>
      simp [Xa_command.run, trans_xa_start, XID_STATE.has_state, h_state, ho, my_error,
        THD.is_error]
  | xa_end xid opt =>
    by_cases ho : opt = xa_option_words.XA_NONE <;>
      simp [Xa_command.run, trans_xa_end, XID_STATE.has_state, h_state, ho, my_error,
        THD.is_error]
  | xa_prepare xid =>
    simp [Xa_command.run, trans_xa_prepare, XID_STATE.has_state, h_state, my_error,
      THD.is_error]
  | xa_commit xid opt =>
    simp only [Xa_command.terminates] at h_c
    simp [Xa_command.run, trans_xa_commit, h_c, process_external_xa_commit,
      (find_trn_failure xid srv thd).1 hne, my_error]
  | xa_rollback xid =>
    simp only [Xa_command.terminates] at h_c
    simp [Xa_command.run, trans_xa_rollback, h_c, process_external_xa_rollback,
      (find_trn_failure xid srv thd).1 hne, my_error]

/-- In state ROLLBACK_ONLY a list of statements none of which terminates the
session's branch leaves the server as it was. -/
theorem rollback_only_run (env : Collaborators) :
    ∀ (cmds : List Xa_command) (srv : Server) (thd : THD),
      (srv.xid_state thd.m_transaction).xa_state = xa_states.XA_ROLLBACK_ONLY →
      (∀ c ∈ cmds, c.terminates (srv.xid_state thd.m_transaction) = false) →
      (run_commands env cmds srv thd).1 = srv ∧
      (run_commands env cmds srv thd).2.m_transaction = thd.m_transaction := by
  intro cmds
  induction cmds with
  | nil => intro srv thd _ _; exact ⟨rfl, rfl⟩
  | cons c rest ih =>
    intro srv thd hs hc
    obtain ⟨-, s2, s3⟩ := rollback_only_step env c srv thd hs
      (hc c (List.mem_cons_self _ _))
    rw [run_commands, s2]
    have h := ih srv (c.run env srv thd).2.2 (by rw [s3]; exact hs)
      (by rw [s3]; exact fun c1 h1 => hc c1 (List.mem_cons_of_mem _ h1))
    exact ⟨h.1, h.2.trans s3⟩

/-- C21: ROLLBACK_ONLY is sticky. Let xa_trans_rolled_back() have returned true
for the branch of a session, leaving the server srv and the session thd. Then
the branch is in state ROLLBACK_ONLY, and after every list of statements XA
START (any option), XA END, XA PREPARE, and XA COMMIT or XA ROLLBACK of
another XID, the server is still srv, so the state is still ROLLBACK_ONLY, and
a further call of xa_trans_rolled_back() returns true and keeps the state.
XA COMMIT of the session's own XID moves the state to NOTR; XA ROLLBACK of
it moves the state to NOTR when the metadata lock is acquired and leaves it
ROLLBACK_ONLY when it is not. -/
theorem rollback_only_is_sticky (env : Collaborators) (srv0 srv : Server) (thd0 thd : THD)
    (cmds : List Xa_command)
    (h_call : xa_trans_rolled_back_at thd0.m_transaction srv0 thd0 = (true, srv, thd))
    (h_cmds : ∀ c ∈ cmds, c.terminates (srv.xid_state thd.m_transaction) = false) :
    (srv.xid_state thd.m_transaction).xa_state = xa_states.XA_ROLLBACK_ONLY ∧
    (run_commands env cmds srv thd).1 = srv ∧
    ((run_commands env cmds srv thd).1.xid_state thd.m_transaction).xa_state =
      xa_states.XA_ROLLBACK_ONLY ∧
    (xa_trans_rolled_back_at thd.m_transaction (run_commands env cmds srv thd).1
      (run_commands env cmds srv thd).2).1 = true ∧
    ((xa_trans_rolled_back_at thd.m_transaction (run_commands env cmds srv thd).1
      (run_commands env cmds srv thd).2).2.1.xid_state thd.m_transaction).xa_state =
      xa_states.XA_ROLLBACK_ONLY ∧
    (∀ (x : XID) (opt : xa_option_words) (thd1 : THD),
      thd1.m_transaction = thd.m_transaction →
      (srv.xid_state thd.m_transaction).has_same_xid x = true →
      ((trans_xa_commit env x opt srv thd1).2.1.xid_state thd.m_transaction).xa_state =
        xa_states.XA_NOTR) ∧
    (∀ (x : XID) (thd1 : THD), thd1.m_transaction = thd.m_transaction →
      (srv.xid_state thd.m_transaction).has_same_xid x = true →
      ((trans_xa_rollback env x srv thd1).2.1.xid_state thd.m_transaction).xa_state =
        if env.acquire_lock = Outcome.ok then xa_states.XA_NOTR
        else xa_states.XA_ROLLBACK_ONLY) := by
  have hm : thd.m_transaction = thd0.m_transaction := by
    have h := (xa_trans_rolled_back_at_frame thd0.m_transaction srv0 thd0).2.2.2.2.1
    rw [h_call] at h
    exact h
  have hs : (srv.xid_state thd.m_transaction).xa_state = xa_states.XA_ROLLBACK_ONLY := by
    have h := rb_at_true_state thd0.m_transaction srv0 thd0 (by rw [h_call])
    rw [h_call] at h
    rw [hm]
    exact h
  obtain ⟨r1, r2⟩ := rollback_only_run env cmds srv thd hs h_cmds
  have hrb := rb_at_rollback_only thd.m_transaction srv (run_commands env cmds srv thd).2 hs
  refine ⟨hs, r1, by rw [r1]; exact hs, by rw [r1]; exact hrb.1, by rw [r1]; exact hrb.2,
    ?_, ?_⟩
  · intro x opt thd1 ht hx
    have hrb1 := (rb_at_rollback_only thd.m_transaction srv thd1 hs).1
    simp [trans_xa_commit, process_internal_xa_commit, ht, hx, hrb1, XID_STATE.set_state,
      XID_STATE.unset_binlogged]
  · intro x thd1 ht hx
    by_cases hl : env.acquire_lock = Outcome.ok
    · simp [trans_xa_rollback, process_internal_xa_rollback, ht, hx, hs, XID_STATE.has_state,
        hl, collab_ok, XID_STATE.set_state, XID_STATE.unset_binlogged]
    · have hl2 : ¬ env.acquire_lock.result = 0 := fun h => hl ((outcome_result_eq_zero _).mp h)
      simp [trans_xa_rollback, process_internal_xa_rollback, ht, hx, hs, XID_STATE.has_state,
        hl, hl2]

/-- Witness for C21: the session holds t1 in state ACTIVE with the deadlock
error pending; after xa_trans_rolled_back has returned true, the statements
XA END t1, XA PREPARE t1, XA START t1 JOIN and XA COMMIT of another XID leave
the branch in state ROLLBACK_ONLY. -/
theorem rollback_only_is_sticky_witness :
    ((run_commands sample_env
      [Xa_command.xa_end sample_xid xa_option_words.XA_NONE,
       Xa_command.xa_prepare sample_xid,
       Xa_command.xa_start sample_xid xa_option_words.XA_JOIN,
       Xa_command.xa_commit sample_short_xid xa_option_words.XA_NONE]
      (xa_trans_rolled_back_at 0
        (sample_server xa_states.XA_ACTIVE ER_LOCK_DEADLOCK [(sample_xid.key, 0)])
        sample_thd).2.1
      (xa_trans_rolled_back_at 0
        (sample_server xa_states.XA_ACTIVE ER_LOCK_DEADLOCK [(sample_xid.key, 0)])
        sample_thd).2.2).1.xid_state 0).xa_state = xa_states.XA_ROLLBACK_ONLY :=
  (rollback_only_is_sticky sample_env
    (sample_server xa_states.XA_ACTIVE ER_LOCK_DEADLOCK [(sample_xid.key, 0)]) _ sample_thd _
    [Xa_command.xa_end sample_xid xa_option_words.XA_NONE,
     Xa_command.xa_prepare sample_xid,
     Xa_command.xa_start sample_xid xa_option_words.XA_JOIN,
     Xa_command.xa_commit sample_short_xid xa_option_words.XA_NONE]
    rfl (by decide)).2.2.1

/-! ## Unsupported options and XA RECOVER -/


/-- C35: unsupported options are rejected. In every state of the session, XA
START with an option other than none (JOIN, SUSPEND, FOR MIGRATE, ONE PHASE,
and RESUME outside state IDLE) and XA END with an option other than none
(SUSPEND, FOR MIGRATE and the others) return true raising XAER_INVAL, before
the state is looked at, and leave the server as it was. -/
theorem unsupported_options_rejected (env : Collaborators) (x : XID) (opt : xa_option_words)
    (srv : Server) (thd : THD) (h_opt : opt ≠ xa_option_words.XA_NONE) :
    (¬ ((srv.xid_state thd.m_transaction).xa_state = xa_states.XA_IDLE ∧
        opt = xa_option_words.XA_RESUME) →
      trans_xa_start env x opt srv thd = (true, srv, my_error ER_XAER_INVAL thd)) ∧
    trans_xa_end x opt srv thd = (true, srv, my_error ER_XAER_INVAL thd) := by
  constructor
  · intro h
    have c := iff_false_intro h
    simp [trans_xa_start, XID_STATE.has_state, c, h_opt, my_error, THD.is_error]
  · simp [trans_xa_end, h_opt, my_error, THD.is_error]

/-- Witness for C35: XA START t1 JOIN in state ACTIVE, where the state alone
would give XAER_RMFAIL. -/
theorem unsupported_options_rejected_witness :
    trans_xa_start sample_env sample_xid xa_option_words.XA_JOIN
      (sample_server xa_states.XA_ACTIVE 0 [(sample_xid.key, 0)]) sample_thd =
      (true, sample_server xa_states.XA_ACTIVE 0 [(sample_xid.key, 0)],
        my_error ER_XAER_INVAL sample_thd) :=
  (unsupported_options_rejected sample_env sample_xid xa_option_words.XA_JOIN
    (sample_server xa_states.XA_ACTIVE 0 [(sample_xid.key, 0)]) sample_thd
    (by decide)).1 (by decide)

/-- Without filter and with a protocol that never fails, the loop of XA RECOVER
sends one row for each PREPARED entry of the list it walks, in order. -/
theorem trans_xa_recover_loop_prepared (bin_to_hex_str : List Nat → List Nat) (hex : Bool)
    (srv : Server) :
    ∀ (c : List ((Int × Int × List Nat) × Nat)) (rows : List Xid_row),
      trans_xa_recover_loop (fun _ => false) bin_to_hex_str none hex srv c rows =
        (false, rows ++
          (c.filter (fun e => decide ((srv.xid_state e.2).xa_state = xa_states.XA_PREPARED))).map
            (fun e => (srv.xid_state e.2).store_xid_info bin_to_hex_str hex)) := by
  intro c
  induction c with
  | nil => intro rows; simp [trans_xa_recover_loop]
  | cons e rest ih =>
    obtain ⟨k, a⟩ := e
    intro rows
    by_cases hp : (srv.xid_state a).xa_state = xa_states.XA_PREPARED
    · simp [trans_xa_recover_loop, XID_STATE.has_state, hp, ih]
    · simp [trans_xa_recover_loop, XID_STATE.has_state, hp, ih]

/-- C32: XA RECOVER without XID filter, when sending the metadata and the rows
succeeds, returns false and sends exactly one row for each cache entry whose
XID_STATE is PREPARED, in the order of the cache, and none for an entry in
another state; a row holds formatID, gtrid_length, bqual_length and, printed
raw, the first gtrid_length + bqual_length data bytes of the entry's XID. The
function only reads the cache. -/
theorem trans_xa_recover_lists_prepared (bin_to_hex_str : List Nat → List Nat) (hex : Bool)
    (srv : Server) :
    trans_xa_recover false (fun _ => false) bin_to_hex_str none hex srv =
      (false,
        (srv.transaction_cache.filter
          (fun e => decide ((srv.xid_state e.2).xa_state = xa_states.XA_PREPARED))).map
          (fun e => (srv.xid_state e.2).store_xid_info bin_to_hex_str hex)) ∧
    (∀ xs : XID_STATE, xs.store_xid_info bin_to_hex_str false =
      { formatID := xs.m_xid.formatID, gtrid_length := xs.m_xid.gtrid_length,
        bqual_length := xs.m_xid.bqual_length,
        data := xs.m_xid.data.take (xs.m_xid.gtrid_length + xs.m_xid.bqual_length).toNat }) ∧
    (trans_xa_recover false (fun _ => false) bin_to_hex_str none hex srv).2.length =
      (srv.transaction_cache.filter
        (fun e => decide ((srv.xid_state e.2).xa_state = xa_states.XA_PREPARED))).length := by
  have h : trans_xa_recover false (fun _ => false) bin_to_hex_str none hex srv =
      (false,
        (srv.transaction_cache.filter
          (fun e => decide ((srv.xid_state e.2).xa_state = xa_states.XA_PREPARED))).map
          (fun e => (srv.xid_state e.2).store_xid_info bin_to_hex_str hex)) := by
    simp [trans_xa_recover, trans_xa_recover_loop_prepared]
  exact ⟨h, fun xs => by simp [XID_STATE.store_xid_info], by rw [h]; simp⟩

/-- Witness for C32: the recovered server lists its PREPARED branch t1. -/
theorem trans_xa_recover_lists_prepared_witness :
    trans_xa_recover false (fun _ => false) hex_lower none false sample_recovered_server =
      (false, [{ formatID := 1, gtrid_length := 2, bqual_length := 0, data := [116, 49] }]) :=
  (trans_xa_recover_lists_prepared hex_lower false sample_recovered_server).1.trans
    (by decide)

/-! ## Engine errors during the recovery scan -/


/-- C31, the code at the failing inputs: a single two-phase engine, no binlog,
reports one internal branch and answers XAER_RMERR to rollback_by_xid; the
scan calls rollback_by_xid, drops the status and ha_recover returns 0. With
binlog recovery and the id in commit_list the same engine answers XAER_RMERR
to commit_by_xid and ha_recover returns 0. An engine whose recover function
returns -1 is skipped and ha_recover returns 0 as well. -/
theorem ha_recover_ignores_engine_errors :
    (sample_failing_engine [sample_internal_branch]).rollback_by_xid sample_internal_xid =
      xa_status_code.XAER_RMERR ∧
    (ha_recover (fun _ => false)
      [sample_failing_engine [sample_internal_branch]]
      { total_ha_2pc := 1, opt_bin_log := false,
        tc_heuristic_recover := TC_HEURISTIC.TC_HEURISTIC_NOT_USED,
        g_did_binlog_recovery := 0 }
      { m_prepared_xa_trans := [], m_mem_root_inited := false }
      none none none none none none).2.2.calls =
        [Engine_call.rollback_by_xid 0 sample_internal_xid] ∧
    (ha_recover (fun _ => false)
      [sample_failing_engine [sample_internal_branch]]
      { total_ha_2pc := 1, opt_bin_log := false,
        tc_heuristic_recover := TC_HEURISTIC.TC_HEURISTIC_NOT_USED,
        g_did_binlog_recovery := 0 }
      { m_prepared_xa_trans := [], m_mem_root_inited := false }
      none none none none none none).1 = 0 ∧
    (ha_recover (fun _ => false)
      [sample_failing_engine [sample_internal_branch]]
      { total_ha_2pc := 2, opt_bin_log := true,
        tc_heuristic_recover := TC_HEURISTIC.TC_HEURISTIC_NOT_USED,
        g_did_binlog_recovery := 0 }
      { m_prepared_xa_trans := [], m_mem_root_inited := false }
      (some [7]) (some []) (some []) (some []) (some []) (some [])).2.2.calls =
        [Engine_call.commit_by_xid 0 sample_internal_xid] ∧
    (ha_recover (fun _ => false)
      [sample_failing_engine [sample_internal_branch]]
      { total_ha_2pc := 2, opt_bin_log := true,
        tc_heuristic_recover := TC_HEURISTIC.TC_HEURISTIC_NOT_USED,
        g_did_binlog_recovery := 0 }
      { m_prepared_xa_trans := [], m_mem_root_inited := false }
      (some [7]) (some []) (some []) (some []) (some []) (some [])).1 = 0 ∧
    (ha_recover (fun _ => false) [sample_recover_failing_engine]
      { total_ha_2pc := 1, opt_bin_log := false,
        tc_heuristic_recover := TC_HEURISTIC.TC_HEURISTIC_NOT_USED,
        g_did_binlog_recovery := 0 }
      { m_prepared_xa_trans := [], m_mem_root_inited := false }
      none none none none none none).1 = 0 := by
  decide

/-! ## Foreign branches are resolved by their gtrid -/


/-- C37: the decision of the scan for an external branch depends only on its
gtrid bytes and its one_phase_prepared flag. Take two external branches with
the same gtrid (the first gtrid_length data bytes of each) and the same
flag, whatever their bqual bytes, bqual_length and formatID. On the same scan
state the iteration of xarecover_handlerton returns the same bool and leaves
the same counters and binlog sets, and it takes the same action on both:
nothing is called (counted in dry-run, retained, or allocation failure), or
commit_by_xid is called on each, or rollback_by_xid is called on each. A
retained branch is recorded in engine_prepared by its gtrid bytes only. -/
theorem external_decision_depends_on_gtrid (alloc_fails : Nat → Bool)
    (heuristic : TC_HEURISTIC) (hton : handlerton) (b1 b2 : XA_recover_txn)
    (st : Recover_state)
    (h_ext1 : b1.id.get_my_xid = 0) (h_ext2 : b2.id.get_my_xid = 0)
    (h_gtrid : b1.id.data.take b1.id.gtrid_length.toNat =
      b2.id.data.take b2.id.gtrid_length.toNat)
    (h_flag : b1.one_phase_prepared = b2.one_phase_prepared) :
    (xarecover_txn alloc_fails heuristic hton b1 st).1 =
      (xarecover_txn alloc_fails heuristic hton b2 st).1 ∧
    (xarecover_txn alloc_fails heuristic hton b1 st).2.info =
      (xarecover_txn alloc_fails heuristic hton b2 st).2.info ∧
    (((xarecover_txn alloc_fails heuristic hton b1 st).2.calls = st.calls ∧
        (xarecover_txn alloc_fails heuristic hton b2 st).2.calls = st.calls) ∨
      ((xarecover_txn alloc_fails heuristic hton b1 st).2.calls =
          st.calls ++ [Engine_call.commit_by_xid hton.slot b1.id] ∧
        (xarecover_txn alloc_fails heuristic hton b2 st).2.calls =
          st.calls ++ [Engine_call.commit_by_xid hton.slot b2.id]) ∨
      ((xarecover_txn alloc_fails heuristic hton b1 st).2.calls =
          st.calls ++ [Engine_call.rollback_by_xid hton.slot b1.id] ∧
        (xarecover_txn alloc_fails heuristic hton b2 st).2.calls =
          st.calls ++ [Engine_call.rollback_by_xid hton.slot b2.id])) ∧
    (((xarecover_txn alloc_fails heuristic hton b1 st).2.recovered = st.recovered ∧
        (xarecover_txn alloc_fails heuristic hton b2 st).2.recovered = st.recovered) ∨
      ((xarecover_txn alloc_fails heuristic hton b1 st).2.recovered.m_prepared_xa_trans =
          st.recovered.m_prepared_xa_trans ++
            [{ id := b1.id, mod_tables := b1.mod_tables, one_phase_prepared := false }] ∧
        (xarecover_txn alloc_fails heuristic hton b2 st).2.recovered.m_prepared_xa_trans =
          st.recovered.m_prepared_xa_trans ++
            [{ id := b2.id, mod_tables := b2.mod_tables, one_phase_prepared := false }] ∧
        (xarecover_txn alloc_fails heuristic hton b1 st).2.info.binlog_xa_prepared_engine =
          st.info.binlog_xa_prepared_engine.map
            (fun s => set_insert s (b1.id.data.take b1.id.gtrid_length.toNat)))) := by
  have hd : b1.id.xid_data = b2.id.xid_data := h_gtrid
  have hd1 : b1.id.data.take b1.id.gtrid_length.toNat = b1.id.xid_data := rfl
  simp only [xarecover_txn, h_ext1, h_ext2, if_true, hd, h_flag, xarecover_recovery_mode,
    Bool.true_or, xarecover_commit, xarecover_abort,
    Recovered_xa_transactions.add_prepared_xa_transaction, hd1]
  split_ifs <;> simp
  right
  cases st.info.binlog_xa_prepared_engine <;> rfl

/-- Witness for C37: two external branches with gtrid t1, one with bqual and
another formatID, are both rolled back when the binlog does not know t1. -/
theorem external_decision_depends_on_gtrid_witness :
    (xarecover_txn (fun _ => false) TC_HEURISTIC.TC_HEURISTIC_NOT_USED (sample_engine [])
      { id := sample_xid, mod_tables := [], one_phase_prepared := false }
      (sample_scan [] [] [] [] [])).2.info =
    (xarecover_txn (fun _ => false) TC_HEURISTIC.TC_HEURISTIC_NOT_USED (sample_engine [])
      { id := ⟨5, 2, 1, [116, 49, 98]⟩, mod_tables := [], one_phase_prepared := false }
      (sample_scan [] [] [] [] [])).2.info :=
  (external_decision_depends_on_gtrid (fun _ => false) TC_HEURISTIC.TC_HEURISTIC_NOT_USED
    (sample_engine [])
    { id := sample_xid, mod_tables := [], one_phase_prepared := false }
    { id := ⟨5, 2, 1, [116, 49, 98]⟩, mod_tables := [], one_phase_prepared := false }
    (sample_scan [] [] [] [] []) (by decide) (by decide) (by decide) rfl).2.1

/-! ## The by-xid calls of a foreign commit -/


/-- The calls of the by-xid fan-out: one call into each capable engine, in
plugin order, up to and including the first hard error; the fan-out returns
true exactly when it met a hard error. -/
theorem fan_out_calls (env : Collaborators) (xid : XID) (commit : Bool) (srv : Server)
    (thd : THD) :
    (ha_commit_or_rollback_by_xid env xid commit srv thd).2.1.calls =
      srv.calls ++ (by_xid_called commit xid env.plugins).map (by_xid_call commit xid) ∧
    (ha_commit_or_rollback_by_xid env xid commit srv thd).1 =
      (by_xid_called commit xid env.plugins).any
        (fun hton => (hton.by_xid_status commit xid).is_hard_error) := by
  have key : ∀ (plugins : List handlerton) (st : Server × THD),
      (plugin_foreach (if commit then xacommit_handlerton xid else xarollback_handlerton xid)
          plugins st).2.1.calls =
        st.1.calls ++ (by_xid_called commit xid plugins).map (by_xid_call commit xid) ∧
      (plugin_foreach (if commit then xacommit_handlerton xid else xarollback_handlerton xid)
          plugins st).1 =
        (by_xid_called commit xid plugins).any
          (fun hton => (hton.by_xid_status commit xid).is_hard_error) := by
    intro plugins
    induction plugins with
    | nil => intro st; simp [plugin_foreach, by_xid_called]
    | cons hton rest ih =>
      intro st
      by_cases hc : hton.state = SHOW_COMP_OPTION.SHOW_OPTION_YES ∧ hton.recover.isSome = true
      · cases commit with
        | true =>
          by_cases he : hton.commit_by_xid xid ≠ xa_status_code.XA_OK ∧
              hton.commit_by_xid xid ≠ xa_status_code.XAER_NOTA
          · simp [plugin_foreach, by_xid_called, handlerton.by_xid_capable,
              xa_status_code.is_hard_error, handlerton.by_xid_status, xacommit_handlerton,
              by_xid_call, hc, he]
          · have c := iff_false_intro he
            have h := ih (xacommit_handlerton xid hton st).2
            simp only [if_true] at h
            simp only [ne_eq] at c
            simp [plugin_foreach, by_xid_called, handlerton.by_xid_capable,
              xa_status_code.is_hard_error, handlerton.by_xid_status, xacommit_handlerton,
              by_xid_call, hc, c] at h ⊢
            have hb : (!decide (hton.commit_by_xid xid = xa_status_code.XA_OK) &&
                !decide (hton.commit_by_xid xid = xa_status_code.XAER_NOTA)) = false := by
              cases hx : (!decide (hton.commit_by_xid xid = xa_status_code.XA_OK) &&
                !decide (hton.commit_by_xid xid = xa_status_code.XAER_NOTA))
              · rfl
              · exact absurd (by simpa using hx) he
            rw [hb, Bool.false_or]
            exact h
        | false =>
          by_cases he : hton.rollback_by_xid xid ≠ xa_status_code.XA_OK ∧
              hton.rollback_by_xid xid ≠ xa_status_code.XAER_NOTA
          · simp [plugin_foreach, by_xid_called, handlerton.by_xid_capable,
              xa_status_code.is_hard_error, handlerton.by_xid_status, xarollback_handlerton,
              by_xid_call, hc, he]
          · have c := iff_false_intro he
            have h := ih (xarollback_handlerton xid hton st).2
            simp only [Bool.false_eq_true, if_false] at h
            simp only [ne_eq] at c
            simp [plugin_foreach, by_xid_called, handlerton.by_xid_capable,
              xa_status_code.is_hard_error, handlerton.by_xid_status, xarollback_handlerton,
              by_xid_call, hc, c] at h ⊢
            have hb : (!decide (hton.rollback_by_xid xid = xa_status_code.XA_OK) &&
                !decide (hton.rollback_by_xid xid = xa_status_code.XAER_NOTA)) = false := by
              cases hx : (!decide (hton.rollback_by_xid xid = xa_status_code.XA_OK) &&
                !decide (hton.rollback_by_xid xid = xa_status_code.XAER_NOTA))
              · rfl
              · exact absurd (by simpa using hx) he
            rw [hb, Bool.false_or]
            exact h
      · have c := iff_false_intro hc
        have h := ih st
        cases commit <;>
          simp [plugin_foreach, by_xid_called, handlerton.by_xid_capable,
            xacommit_handlerton, xarollback_handlerton, c] at h ⊢ <;> exact h
  have h := key env.plugins (srv, thd)
  simpa [ha_commit_or_rollback_by_xid] using h

/-- A collaborator call appends its call to the record. -/
theorem collab_calls (c : Call) (o : Outcome) (srv : Server) (thd : THD) :
    (collab c o srv thd).2.1.calls = srv.calls ++ [c] := by
  simp only [collab]
  split <;> rfl

/-- The call xa_trans_rolled_back on a branch calls no collaborator. -/
theorem rb_at_calls (t : Nat) (srv : Server) (thd : THD) :
    (xa_trans_rolled_back_at t srv thd).2.1.calls = srv.calls := rfl

/-- C38: in process_external_xa_commit, once the lookup, the re-check and the
lock acquisition have passed, the engines are called through commit_by_xid
exactly when xa_trans_rolled_back() of the found branch returned false and
commit_owned_gtids returned 0; otherwise they are called through
rollback_by_xid and the command returns failure. The calls made are, in order:
the lock, the backup, commit_owned_gtids, the by-xid calls of that one kind,
the deletion of the backup and the GTID finish. In both cases the entry of the
XID is erased from the cache. -/
theorem external_commit_downgraded_on_error (env : Collaborators) (x : XID) (srv : Server)
    (thd : THD) (t : Nat)
    (h_notr : (srv.xid_state thd.m_transaction).xa_state = xa_states.XA_NOTR)
    (h_live : (srv.xid_state thd.m_transaction).in_recovery = false)
    (h_found : cache_find x.key srv.transaction_cache = some t)
    (h_rec : (srv.xid_state t).in_recovery = true)
    (h_key : (srv.xid_state t).m_xid.key = x.key)
    (h_in_trans : thd.status_in_trans = false)
    (h_lock : env.acquire_lock = Outcome.ok)
    (h_backup : env.restore_backup = Outcome.ok) :
    (process_external_xa_commit env x srv thd).2.1.calls =
      srv.calls ++
        [Call.acquire_lock, Call.restore_backup x.key, Call.commit_owned_gtids] ++
        (by_xid_called
          (!((xa_trans_rolled_back_at t srv thd).1 ||
            decide (env.commit_owned_gtids.result ≠ 0))) x env.plugins).map
          (by_xid_call
            (!((xa_trans_rolled_back_at t srv thd).1 ||
              decide (env.commit_owned_gtids.result ≠ 0))) x) ++
        [Call.delete_backup x.key, Call.gtid_state_commit_or_rollback] ∧
    (((xa_trans_rolled_back_at t srv thd).1 = true ∨ env.commit_owned_gtids.result ≠ 0) →
      (process_external_xa_commit env x srv thd).1 = true) ∧
    (process_external_xa_commit env x srv thd).2.1.transaction_cache =
      cache_erase x.key srv.transaction_cache := by
  refine ⟨?_, ?_, (external_commit_erases env x srv thd t h_notr h_live h_found h_rec h_key
    h_in_trans h_lock h_backup).1⟩
  all_goals
    have hne : thd.m_transaction ≠ t := by
      intro h
      rw [h] at h_live
      rw [h_live] at h_rec
      exact absurd h_rec (by decide)
    obtain ⟨r1, r2, r3, r4, r5, r6⟩ := xa_trans_rolled_back_at_frame t srv thd
    have hf1 := find_trn_success x srv thd t h_notr h_found h_rec h_in_trans
    have hf2 : find_trn_for_recover_and_check_its_state x
        (xa_trans_rolled_back_at t srv thd).2.1 (xa_trans_rolled_back_at t srv thd).2.2 =
        (some t, (xa_trans_rolled_back_at t srv thd).2.2) := by
      apply find_trn_success
      · rw [r5, r4 _ hne]; exact h_notr
      · rw [r1]; exact h_found
      · rw [r3]; exact h_rec
      · rw [r6]; exact h_in_trans
    have hm := acquire_mandatory_metadata_locks_ok env x (xa_trans_rolled_back_at t srv thd).2.1
      (xa_trans_rolled_back_at t srv thd).2.2 h_lock h_backup
    simp only [process_external_xa_commit, hf1, hf2, hm, Bool.false_eq_true, if_false]
  · simp only [calls_note_call, calls_cache_delete, calls_set_xid_state, fan_out_calls,
      apply_ite Server.calls, collab_calls, rb_at_calls, ite_self, collab_result]
    simp [List.append_assoc]
  · intro h
    rcases h with h | h
    · simp [h]
    · simp [h]

/-- C38 at a sample: a recovered PREPARED branch and one engine whose by-xid
calls succeed. When commit_owned_gtids succeeds the engine is asked to commit;
when it fails the engine is asked to roll back and the command fails; the
entry is erased both times. -/
theorem external_commit_downgraded_on_error_witness :
    ((process_external_xa_commit sample_env_engine sample_xid
      sample_recovered_server sample_thd).2.1.calls =
      [Call.acquire_lock, Call.restore_backup sample_xid.key, Call.commit_owned_gtids,
        Call.engine (Engine_call.commit_by_xid 0 sample_xid),
        Call.delete_backup sample_xid.key, Call.gtid_state_commit_or_rollback] ∧
    (process_external_xa_commit sample_env_engine sample_xid
      sample_recovered_server sample_thd).2.1.transaction_cache = []) ∧
    ((process_external_xa_commit sample_env_gtid_fails sample_xid
      sample_recovered_server sample_thd).2.1.calls =
      [Call.acquire_lock, Call.restore_backup sample_xid.key, Call.commit_owned_gtids,
        Call.engine (Engine_call.rollback_by_xid 0 sample_xid),
        Call.delete_backup sample_xid.key, Call.gtid_state_commit_or_rollback] ∧
    (process_external_xa_commit sample_env_gtid_fails sample_xid
      sample_recovered_server sample_thd).1 = true ∧
    (process_external_xa_commit sample_env_gtid_fails sample_xid
      sample_recovered_server sample_thd).2.1.transaction_cache = []) := by
  have h := external_commit_downgraded_on_error sample_env_engine sample_xid
    sample_recovered_server sample_thd 1 (by decide) (by decide) (by decide) (by decide)
    (by decide) (by decide) (by decide) (by decide)
  have k := external_commit_downgraded_on_error sample_env_gtid_fails sample_xid
    sample_recovered_server sample_thd 1 (by decide) (by decide) (by decide) (by decide)
    (by decide) (by decide) (by decide) (by decide)
  exact ⟨⟨h.1.trans (by decide), h.2.2.trans (by decide)⟩,
    k.1.trans (by decide), k.2.1 (Or.inr (by decide)), k.2.2.trans (by decide)⟩

/-! ## The snapshot of the registry -/

/-- The text List.intercalate builds from a non-empty list: the first element,
then every other element behind a separator. -/
theorem intercalate_cons_flatMap (sep : List Nat) : ∀ (rest : List (List Nat)) (i : List Nat),
    List.intercalate sep (i :: rest) = i ++ rest.flatMap (fun j => sep ++ j) := by
  intro rest
  induction rest with
  | nil => intro i; simp [List.intercalate]
  | cons j rest ih =>
    intro i
    have h := ih j
    simp only [List.intercalate, List.intersperse, List.flatten_cons, List.flatMap_cons,
      List.append_assoc] at h ⊢
    rw [h]

/-- The loop of a slot once a delimiter is due before every id. -/
theorem serialize_loop_delimited : ∀ (l : List (List Nat)) (cnt : Nat) (id : List Nat),
    (0 < cnt ∨ id ≠ []) →
    Slot.serialize_loop l cnt id = id ++ l.flatMap (fun j => [124] ++ j) := by
  intro l
  induction l with
  | nil => intro cnt id _; simp [Slot.serialize_loop]
  | cons i rest ih =>
    intro cnt id h
    have hc : cnt > 0 ∨ id.length > 0 := by
      rcases h with h | h
      · exact Or.inl h
      · exact Or.inr (List.length_pos.mpr h)
    simp only [Slot.serialize_loop, hc, if_true]
    rw [ih (cnt + 1) _ (Or.inl (Nat.succ_pos cnt))]
    simp

/-- The text obtained by serializing ids onto a string: the ids joined by the
delimiter when the string is empty, every id behind a delimiter otherwise. -/
theorem slot_serialize_eq (l : List (List Nat)) (id : List Nat) :
    Slot.serialize l id =
      if id = [] then List.intercalate [124] l else id ++ l.flatMap (fun j => [124] ++ j) := by
  by_cases h : id = []
  · subst h
    cases l with
    | nil => simp [Slot.serialize, Slot.serialize_loop, List.intercalate]
    | cons i rest =>
      simp only [Slot.serialize, Slot.serialize_loop, if_true, intercalate_cons_flatMap]
      rw [serialize_loop_delimited rest _ _ (Or.inl (by decide))]
      simp
  · simp only [Slot.serialize, h, if_false]
    exact serialize_loop_delimited l 0 id (Or.inr h)

/-- Serializing the slots of a registry whose ids are non-empty is serializing
the list of all its ids. -/
theorem serialize_slots_eq : ∀ (slots : List (List (List Nat))) (id : List Nat),
    (∀ s ∈ slots.flatten, s ≠ []) →
    slots.foldl (fun acc txnids => Slot.serialize txnids acc) id =
      if id = [] then List.intercalate [124] slots.flatten
      else id ++ slots.flatten.flatMap (fun j => [124] ++ j) := by
  intro slots
  induction slots with
  | nil => intro id _; by_cases h : id = [] <;> simp [h, List.intercalate]
  | cons a slots ih =>
    intro id h
    have ha : ∀ s ∈ a, s ≠ [] := fun s hs => h s (by simp [hs])
    have hr : ∀ s ∈ slots.flatten, s ≠ [] := fun s hs => h s (by simp [hs])
    simp only [List.foldl_cons, List.flatten_cons]
    rw [ih _ hr, slot_serialize_eq]
    by_cases hid : id = []
    · subst hid
      cases a with
      | nil => simp [List.intercalate]
      | cons i rest =>
        have hi : i ≠ [] := ha i (by simp)
        simp [intercalate_cons_flatMap, hi]
    · simp [hid]

/-- The byte behind a prefix of a buffer. -/
theorem getElem?_behind (pre : List Nat) (b : Nat) (tail : List Nat) :
    (pre ++ b :: tail)[pre.length]? = some b := by
  rw [List.getElem?_append_right (le_refl _)]
  simp

/-- The function strchr skips the bytes that are neither the one sought nor
NUL. -/
theorem strchr_skip (c : Nat) : ∀ (s pre : List Nat) (b : Nat) (tail : List Nat) (fuel : Nat),
    (∀ x ∈ s, x ≠ c ∧ x ≠ 0) → (b = c ∨ b = 0) → s.length < fuel →
    strchr (pre ++ s ++ b :: tail) c fuel pre.length =
      if b = c then some (some (pre.length + s.length)) else some none := by
  intro s
  induction s with
  | nil =>
    intro pre b tail fuel _ hb hf
    obtain ⟨f, rfl⟩ : ∃ f, fuel = f + 1 := ⟨fuel - 1, by simp at hf; omega⟩
    have hg := getElem?_behind pre b tail
    simp only [List.append_nil, strchr, hg, List.length_nil, Nat.add_zero]
    rcases hb with hb | hb
    · simp [hb]
    · simp [hb]
  | cons x s ih =>
    intro pre b tail fuel hs hb hf
    obtain ⟨f, rfl⟩ : ∃ f, fuel = f + 1 := ⟨fuel - 1, by simp at hf; omega⟩
    have hx := hs x (by simp)
    have hs2 : ∀ y ∈ s, y ≠ c ∧ y ≠ 0 := fun y hy => hs y (by simp [hy])
    have h : strchr (pre ++ x :: (s ++ b :: tail)) c f (pre.length + 1) =
        if b = c then some (some (pre.length + 1 + s.length)) else some none := by
      have h0 := ih (pre ++ [x]) b tail f hs2 hb (by simp at hf; omega)
      simpa using h0
    have hg := getElem?_behind pre x (s ++ b :: tail)
    simp only [List.append_assoc, List.cons_append, List.length_cons]
    simp only [strchr, hg, hx.1, hx.2, if_false]
    rw [h, Nat.add_assoc, Nat.add_comm 1]

/-- The string built at the start of a segment that ends in a NUL. -/
theorem c_string_segment (pre s tail : List Nat) (h : 0 ∉ s) :
    c_string (pre ++ s ++ 0 :: tail) pre.length = some s := by
  simp [c_string, List.append_assoc, strlen_append_nul s tail h]

/-- Overwriting the byte behind a segment. -/
theorem set_behind_segment (pre s tail : List Nat) (b v : Nat) :
    (pre ++ s ++ b :: tail).set (pre.length + s.length) v = pre ++ s ++ v :: tail := by
  rw [← List.length_append, List.set_append_right _ _ (le_refl _)]
  simp

/-- Membership in a set grown by insertions. -/
theorem mem_foldl_set_insert : ∀ (l ids : List (List Nat)) (s : List Nat),
    s ∈ l.foldl set_insert ids ↔ s ∈ ids ∨ s ∈ l := by
  intro l
  induction l with
  | nil => intro ids s; simp
  | cons i rest ih =>
    intro ids s
    simp only [List.foldl_cons, ih, List.mem_cons]
    by_cases h : i ∈ ids
    · simp only [set_insert, h, if_true]
      constructor
      · rintro (h1 | h1)
        · exact Or.inl h1
        · exact Or.inr (Or.inr h1)
      · rintro (h1 | h1 | h1)
        · exact Or.inl h1
        · exact Or.inl (h1 ▸ h)
        · exact Or.inr h1
    · simp only [set_insert, h, if_false, List.mem_append, List.mem_singleton]
      tauto

/-- A set grown by insertions holds no id twice. -/
theorem nodup_foldl_set_insert : ∀ (l ids : List (List Nat)),
    ids.Nodup → (l.foldl set_insert ids).Nodup := by
  intro l
  induction l with
  | nil => intro ids h; simpa using h
  | cons i rest ih =>
    intro ids h
    simp only [List.foldl_cons]
    apply ih
    by_cases hi : i ∈ ids
    · simp [set_insert, hi, h]
    · simp only [set_insert, hi, if_false]
      rw [List.nodup_append]
      refine ⟨h, by simp, ?_⟩
      intro a ha hb
      simp only [List.mem_singleton] at hb
      exact hi (hb ▸ ha)

/-- The function parse on the text of a non-empty list of ids, from the start
of an id on: every id is inserted and the buffer is left as it was. -/
theorem parse_from_segment : ∀ (rest : List (List Nat)) (pre i : List Nat)
    (ids : List (List Nat)) (fuel : Nat),
    (i ≠ [] ∧ 124 ∉ i ∧ 0 ∉ i) → (∀ j ∈ rest, j ≠ [] ∧ 124 ∉ j ∧ 0 ∉ j) →
    rest.length < fuel →
    (Prepared_xa_txnids.parse_loop fuel
        (pre ++ i ++ (rest.flatMap (fun j => [124] ++ j) ++ [0])) pre.length ids).bind
        Prepared_xa_txnids.parse_rest =
      some (0, pre ++ i ++ (rest.flatMap (fun j => [124] ++ j) ++ [0]),
        (i :: rest).foldl set_insert ids) := by
  intro rest
  induction rest with
  | nil =>
    intro pre i ids fuel hi _ hf
    obtain ⟨f, rfl⟩ : ∃ f, fuel = f + 1 := ⟨fuel - 1, by simp at hf; omega⟩
    obtain ⟨x, t, rfl⟩ := List.exists_cons_of_ne_nil hi.1
    have hs : ∀ y ∈ x :: t, y ≠ 124 ∧ y ≠ 0 := fun y hy =>
      ⟨fun h => hi.2.1 (h ▸ hy), fun h => hi.2.2 (h ▸ hy)⟩
    have h1 := strchr_skip 124 (x :: t) pre 0 [] ((pre ++ (x :: t) ++ [0]).length + 1) hs
      (Or.inr rfl) (by simp; omega)
    have h2 := c_string_segment pre (x :: t) [] hi.2.2
    have hg : (pre ++ (x :: t) ++ [0])[pre.length]? = some x := by
      rw [List.append_assoc]
      exact getElem?_behind pre x (t ++ [0])
    have hx := hs x (by simp)
    have h0 : ((0 : Nat) = 124) = False := by simp
    simp only [List.flatMap_nil, List.nil_append, Prepared_xa_txnids.parse_loop, h1, h0,
      if_false, Option.bind, Prepared_xa_txnids.parse_rest, hg, h2, ne_eq, hx.2,
      not_false_eq_true, if_true, List.foldl_cons, List.foldl_nil]
  | cons j rest ih =>
    intro pre i ids fuel hi hr hf
    obtain ⟨f, rfl⟩ : ∃ f, fuel = f + 1 := ⟨fuel - 1, by simp at hf; omega⟩
    have hs : ∀ x ∈ i, x ≠ 124 ∧ x ≠ 0 := fun x hx =>
      ⟨fun h => hi.2.1 (h ▸ hx), fun h => hi.2.2 (h ▸ hx)⟩
    have hj := hr j (by simp)
    have hr2 : ∀ k ∈ rest, k ≠ [] ∧ 124 ∉ k ∧ 0 ∉ k := fun k hk => hr k (by simp [hk])
    have hbuf : pre ++ i ++ ((j :: rest).flatMap (fun j => [124] ++ j) ++ [0]) =
        pre ++ i ++ 124 :: (j ++ (rest.flatMap (fun j => [124] ++ j) ++ [0])) := by
      simp
    have h1 := strchr_skip 124 i pre 124 (j ++ (rest.flatMap (fun j => [124] ++ j) ++ [0]))
      ((pre ++ i ++ 124 :: (j ++ (rest.flatMap (fun j => [124] ++ j) ++ [0]))).length + 1)
      hs (Or.inl rfl) (by simp; omega)
    have h2 := c_string_segment pre i (j ++ (rest.flatMap (fun j => [124] ++ j) ++ [0]))
      hi.2.2
    have h3 := ih (pre ++ i ++ [124]) j (set_insert ids i) f hj hr2 (by simp at hf; omega)
    have hbuf2 : pre ++ i ++ [124] ++ j ++ (rest.flatMap (fun j => [124] ++ j) ++ [0]) =
        pre ++ i ++ 124 :: (j ++ (rest.flatMap (fun j => [124] ++ j) ++ [0])) := by
      simp
    rw [hbuf2] at h3
    rw [hbuf]
    simp only [Prepared_xa_txnids.parse_loop, h1, if_true, set_behind_segment, h2]
    simp only [List.length_append, List.length_singleton] at h3
    rw [h3]
    simp

/-- C33: the snapshot of the registry round-trips. For a registry whose ids
are non-empty and hold neither the delimiter 124 nor NUL, serialize onto an
empty string yields the ids of all slots, slot after slot, each once, joined
by single delimiters with none in front or behind (the empty string for a
registry without ids); parse of that string returns 0, leaves the string as it
was, and yields a set whose members are exactly the ids of the registry, none
twice. -/
theorem registry_snapshot_round_trip (reg : Prepared_xa_txnids)
    (h_ids : ∀ s ∈ reg.ids, s ≠ [] ∧ 124 ∉ s ∧ 0 ∉ s) :
    reg.serialize [] = List.intercalate [124] reg.ids ∧
    (reg.ids = [] → reg.serialize [] = []) ∧
    Prepared_xa_txnids.parse (reg.serialize [] ++ [0]) [] =
      some (0, reg.serialize [] ++ [0], reg.ids.foldl set_insert []) ∧
    (reg.ids.foldl set_insert []).Nodup ∧
    (∀ s, s ∈ reg.ids.foldl set_insert [] ↔ s ∈ reg.ids) := by
  have hs : reg.serialize [] = List.intercalate [124] reg.ids := by
    have h := serialize_slots_eq reg.m_slots [] (fun s hs => (h_ids s hs).1)
    simpa [Prepared_xa_txnids.serialize, Prepared_xa_txnids.ids] using h
  refine ⟨hs, ?_, ?_, nodup_foldl_set_insert _ _ List.nodup_nil, ?_⟩
  · intro h
    rw [hs, h]
    rfl
  · rw [hs]
    cases hl : reg.ids with
    | nil => rfl
    | cons i rest =>
      rw [hl] at h_ids
      have h := parse_from_segment rest [] i [] ((List.intercalate [124] (i :: rest) ++
        [0]).length + 1) (h_ids i (by simp)) (fun j hj => h_ids j (by simp [hj]))
        (by
          rw [intercalate_cons_flatMap]
          have hlen : ∀ l : List (List Nat),
              l.length ≤ (l.flatMap (fun j => [124] ++ j)).length := by
            intro l
            induction l with
            | nil => simp
            | cons a l ih => simp only [List.flatMap_cons, List.length_append,
                List.length_cons, List.length_singleton, List.length_nil]; omega
          have := hlen rest
          simp only [List.length_append, List.length_singleton]
          omega)
      simp only [List.nil_append, List.length_nil] at h
      simp only [Prepared_xa_txnids.parse]
      rw [intercalate_cons_flatMap, List.append_assoc]
      rw [intercalate_cons_flatMap, List.append_assoc] at h
      exact h
  · intro s
    simp [mem_foldl_set_insert]

/-- C33 at a sample: three slots holding t1 and t2, nothing, and t3. -/
theorem registry_snapshot_round_trip_witness :
    sample_full_registry.serialize [] = [116, 49, 124, 116, 50, 124, 116, 51] ∧
    Prepared_xa_txnids.parse ([116, 49, 124, 116, 50, 124, 116, 51] ++ [0]) [] =
      some (0, [116, 49, 124, 116, 50, 124, 116, 51, 0],
        [[116, 49], [116, 50], [116, 51]]) := by
  have h := registry_snapshot_round_trip sample_full_registry (by decide)
  have e : sample_full_registry.serialize [] = [116, 49, 124, 116, 50, 124, 116, 51] :=
    h.1.trans (by decide)
  refine ⟨e, ?_⟩
  have p := h.2.2.1
  rw [e] at p
  exact p.trans (by decide)

/-! ## The registry after a failed XA PREPARE -/

/-- C34, the code at the failing inputs. XA PREPARE t1 in a session outside
any transaction returns true raising XAER_RMFAIL; XA PREPARE t1 in state IDLE
with a failing engine prepare returns true raising XA_RBROLLBACK and leaves
the cache empty. In both cases the registry, which did not hold the id t1
before, holds it afterwards, while no entry of the cache is a PREPARED branch
with that id. A failing XA COMMIT t1 and a failing XA ROLLBACK t1 leave the
registry as it was. -/
theorem failed_prepare_leaves_id_in_registry :
    (Sql_cmd_xa_prepare.execute sample_env List.length false sample_xid sample_registry
      (sample_server xa_states.XA_NOTR 0 []) sample_thd).1 = true ∧
    (Sql_cmd_xa_prepare.execute sample_env List.length false sample_xid sample_registry
      (sample_server xa_states.XA_NOTR 0 []) sample_thd).2.2.2.da = [ER_XAER_RMFAIL] ∧
    get_xa_txnid sample_xid ∉ sample_registry.ids ∧
    get_xa_txnid sample_xid ∈
      (Sql_cmd_xa_prepare.execute sample_env List.length false sample_xid sample_registry
        (sample_server xa_states.XA_NOTR 0 []) sample_thd).2.1.ids ∧
    (Sql_cmd_xa_prepare.execute sample_env List.length false sample_xid sample_registry
      (sample_server xa_states.XA_NOTR 0 []) sample_thd).2.2.1.has_prepared_id
        (get_xa_txnid sample_xid) = false ∧
    (Sql_cmd_xa_prepare.execute sample_env_prepare_fails List.length false sample_xid
      sample_registry (sample_server xa_states.XA_IDLE 0 [(sample_xid.key, 0)])
      sample_thd).1 = true ∧
    (Sql_cmd_xa_prepare.execute sample_env_prepare_fails List.length false sample_xid
      sample_registry (sample_server xa_states.XA_IDLE 0 [(sample_xid.key, 0)])
      sample_thd).2.2.2.da = [ER_XA_RBROLLBACK] ∧
    get_xa_txnid sample_xid ∈
      (Sql_cmd_xa_prepare.execute sample_env_prepare_fails List.length false sample_xid
        sample_registry (sample_server xa_states.XA_IDLE 0 [(sample_xid.key, 0)])
        sample_thd).2.1.ids ∧
    (Sql_cmd_xa_prepare.execute sample_env_prepare_fails List.length false sample_xid
      sample_registry (sample_server xa_states.XA_IDLE 0 [(sample_xid.key, 0)])
      sample_thd).2.2.1.transaction_cache = [] ∧
    (Sql_cmd_xa_commit.execute sample_env List.length sample_xid xa_option_words.XA_NONE
      sample_registry (sample_server xa_states.XA_NOTR 0 []) sample_thd).1 = true ∧
    (Sql_cmd_xa_commit.execute sample_env List.length sample_xid xa_option_words.XA_NONE
      sample_registry (sample_server xa_states.XA_NOTR 0 []) sample_thd).2.1 =
      sample_registry ∧
    (Sql_cmd_xa_rollback.execute sample_env List.length sample_xid
      sample_registry (sample_server xa_states.XA_NOTR 0 []) sample_thd).1 = true ∧
    (Sql_cmd_xa_rollback.execute sample_env List.length sample_xid
      sample_registry (sample_server xa_states.XA_NOTR 0 []) sample_thd).2.1 =
      sample_registry := by
  decide

/-! ## The lengths reported by the parser -/

/-- The index found by strlen lies inside the buffer. -/
theorem strlen_lt : ∀ (buf : List Nat) (n : Nat), strlen buf = some n → n < buf.length := by
  intro buf
  induction buf with
  | nil => intro n h; simp [strlen] at h
  | cons c rest ih =>
    intro n h
    by_cases hc : c = 0
    · simp [strlen, hc] at h
      subst h
      simp
    · simp only [strlen, hc, if_false, Option.map_eq_some'] at h
      obtain ⟨m, hm, rfl⟩ := h
      have := ih m hm
      simp
      omega

/-- A hex loop of the parser advances by two characters for every byte it
writes behind the bytes already written. -/
theorem hex_loop_shape (buf : List Nat) : ∀ (fuel i : Nat) (dat : List Nat) (i2 : Nat)
    (dat2 : List Nat), hex_loop buf fuel i dat = some (i2, dat2) →
    ∃ k, i2 = i + 2 * k ∧ dat2.length = dat.length + k := by
  intro fuel
  induction fuel with
  | zero => intro i dat i2 dat2 h; simp [hex_loop] at h
  | succ fuel ih =>
    intro i dat i2 dat2 h
    simp only [hex_loop] at h
    split at h
    · simp at h
    · split at h
      · simp only [Option.some.injEq, Prod.mk.injEq] at h
        exact ⟨0, by omega, by rw [← h.2]; simp⟩
      · split at h
        · simp at h
        · obtain ⟨k, hk1, hk2⟩ := ih _ _ _ _ h
          refine ⟨k + 1, by omega, ?_⟩
          rw [hk2]
          simp
          omega

/-- C39, amended: what a successful return of deserialize_xid guarantees. In
the quoted form gln is the length of the string less the two quotes, at least
1, bln is 0 and gln bytes are written to dat. In the literal form gln is the
number g of bytes written by the first hex loop, at least 0, the second loop
writes b more, and the g + b bytes written take at most half of the input:
2 * (g + b) + 9 is at most the size of the buffer. Neither form bounds the
bytes written by XIDDATASIZE. -/
theorem deserialize_xid_success_lengths (ddc_mode : Bool) (buf : List Nat) (r : Deserialized)
    (h : deserialize_xid ddc_mode buf = some r) (h_ok : r.ret = false) :
    (ddc_mode = true → ∃ bufl : Nat, strlen buf = some bufl ∧ 3 ≤ bufl ∧
      r.gln = some ((bufl : Int) - 2) ∧ r.bln = some 0 ∧ r.dat.length = bufl - 2) ∧
    (ddc_mode = false → ∃ g b : Nat, r.gln = some (g : Int) ∧ r.dat.length = g + b ∧
      2 * (g + b) + 9 ≤ buf.length) := by
  cases ddc_mode with
  | true =>
    refine ⟨fun _ => ?_, by simp⟩
    simp only [deserialize_xid, if_true] at h
    cases hl : strlen buf with
    | none => simp [hl] at h
    | some bufl =>
      simp only [hl] at h
      split at h
      · simp only [Option.some.injEq] at h
        rw [← h] at h_ok
        simp at h_ok
      · rename_i hc
        simp only [Option.some.injEq] at h
        have hlt := strlen_lt buf bufl hl
        refine ⟨bufl, rfl, by omega, by rw [← h], by rw [← h], ?_⟩
        rw [← h]
        simp
        omega
  | false =>
    refine ⟨by simp, fun _ => ?_⟩
    simp only [deserialize_xid, Bool.false_eq_true, if_false] at h
    split at h
    · cases h
    · rename_i b0 hb0
      by_cases h88 : b0 ≠ 88
      · rw [if_pos h88] at h
        simp only [Option.some.injEq] at h
        rw [← h] at h_ok
        simp at h_ok
      · rw [if_neg h88] at h
        split at h
        · cases h
        · rename_i b1 hb1
          by_cases h39 : b1 ≠ 39
          · rw [if_pos h39] at h
            simp only [Option.some.injEq] at h
            rw [← h] at h_ok
            simp at h_ok
          · rw [if_neg h39] at h
            split at h
            · cases h
            · rename_i i dat hl1
              obtain ⟨g, hg1, hg2⟩ := hex_loop_shape buf _ _ _ _ _ hl1
              by_cases c1 : buf[i]? = some 0
              · rw [if_pos c1] at h
                simp only [Option.some.injEq] at h
                rw [← h] at h_ok
                simp at h_ok
              · rw [if_neg c1] at h
                by_cases c2 : buf[i + 1]? = none
                · rw [if_pos c2] at h
                  cases h
                · rw [if_neg c2] at h
                  by_cases c3 : buf[i + 1]? ≠ some 44
                  · rw [if_pos c3] at h
                    simp only [Option.some.injEq] at h
                    rw [← h] at h_ok
                    simp at h_ok
                  · rw [if_neg c3] at h
                    by_cases c4 : buf[i + 2]? = none
                    · rw [if_pos c4] at h
                      cases h
                    · rw [if_neg c4] at h
                      by_cases c5 : buf[i + 2]? ≠ some 88
                      · rw [if_pos c5] at h
                        simp only [Option.some.injEq] at h
                        rw [← h] at h_ok
                        simp at h_ok
                      · rw [if_neg c5] at h
                        by_cases c6 : buf[i + 3]? = none
                        · rw [if_pos c6] at h
                          cases h
                        · rw [if_neg c6] at h
                          by_cases c7 : buf[i + 3]? ≠ some 39
                          · rw [if_pos c7] at h
                            simp only [Option.some.injEq] at h
                            rw [← h] at h_ok
                            simp at h_ok
                          · rw [if_neg c7] at h
                            split at h
                            · cases h
                            · rename_i i2 dat2 hl2
                              obtain ⟨b, hb1, hb2⟩ := hex_loop_shape buf _ _ _ _ _ hl2
                              by_cases c8 : buf[i2 + 1]? = none
                              · rw [if_pos c8] at h
                                cases h
                              · rw [if_neg c8] at h
                                by_cases c9 : buf[i2 + 1]? ≠ some 44
                                · rw [if_pos c9] at h
                                  simp only [Option.some.injEq] at h
                                  rw [← h] at h_ok
                                  simp at h_ok
                                · rw [if_neg c9] at h
                                  by_cases c10 : buf[i2 + 2]? = none
                                  · rw [if_pos c10] at h
                                    cases h
                                  · rw [if_neg c10] at h
                                    by_cases c11 : buf[i2 + 2]? = some 0
                                    · rw [if_pos c11] at h
                                      simp only [Option.some.injEq] at h
                                      rw [← h] at h_ok
                                      simp at h_ok
                                    · rw [if_neg c11] at h
                                      simp only [Option.some.injEq] at h
                                      have hlen : i2 + 2 < buf.length := by
                                        by_contra hge
                                        exact c10 (List.getElem?_eq_none (by omega))
                                      simp only [List.length_nil, Nat.zero_add] at hg2
                                      refine ⟨g, b, ?_, ?_, ?_⟩
                                      · rw [← h]
                                        simp only [Option.some.injEq]
                                        omega
                                      · rw [← h]
                                        simp only
                                        omega
                                      · omega

/-- C39 at two samples: the literal X'61',X'62',1 parses to gln = 1 with two
bytes written, and the quoted form of ab to gln = 2, bln = 0 with two bytes
written. -/
theorem deserialize_xid_success_lengths_witness :
    (deserialize_xid false [88, 39, 54, 49, 39, 44, 88, 39, 54, 50, 39, 44, 49, 0] =
      some { ret := false, fmt := some 1, gln := some 1, bln := some 5, dat := [97, 98] } ∧
    ∃ g b : Nat, some (1 : Int) = some (g : Int) ∧ [97, 98].length = g + b ∧
      2 * (g + b) + 9 ≤ 14) ∧
    (deserialize_xid true [39, 97, 98, 39, 0] =
      some { ret := false, fmt := none, gln := some 2, bln := some 0, dat := [97, 98] } ∧
    ∃ bufl : Nat, strlen [39, 97, 98, 39, 0] = some bufl ∧ 3 ≤ bufl ∧
      some (2 : Int) = some ((bufl : Int) - 2) ∧ some (0 : Int) = some 0 ∧
      [97, 98].length = bufl - 2) :=
  ⟨⟨by decide,
    (deserialize_xid_success_lengths false
      [88, 39, 54, 49, 39, 44, 88, 39, 54, 50, 39, 44, 49, 0]
      { ret := false, fmt := some 1, gln := some 1, bln := some 5, dat := [97, 98] }
      (by decide) rfl).2 rfl⟩,
   ⟨by decide,
    (deserialize_xid_success_lengths true [39, 97, 98, 39, 0]
      { ret := false, fmt := none, gln := some 2, bln := some 0, dat := [97, 98] }
      (by decide) rfl).1 rfl⟩⟩

set_option maxRecDepth 100000 in
/-- C39 fails: deserialize_xid returns false with lengths outside the bounds.
The literal X'',X'',1 is accepted with gln = 0. The quoted form of 129 bytes
is accepted with gln = 129, above 64 and above XIDDATASIZE, and 129 bytes are
written to dat. -/
theorem deserialize_xid_accepts_invalid_lengths :
    deserialize_xid false [88, 39, 39, 44, 88, 39, 39, 44, 49, 0] =
      some { ret := false, fmt := some 1, gln := some 0, bln := some 2, dat := [] } ∧
    (deserialize_xid true ([39] ++ List.replicate 129 97 ++ [39, 0])).map
        (fun r => (r.ret, r.gln, r.bln, r.dat.length)) =
      some (false, some 129, some 0, 129) ∧
    XIDDATASIZE < 129 := by
  decide

/-! ## The debug text of an XID and the array it reads -/

/-- One iteration of the loop of xid_to_str writes at most four bytes, and
three more at the boundary between gtrid and bqual; it reads data at i and,
when i is below XIDDATASIZE, at i + 1. -/
theorem xid_to_str_step_bounds (x : XID) (past : Nat → Nat) (st : List Nat × List Nat)
    (i : Nat) :
    (x.xid_to_str_step past st i).1.length ≤
      st.1.length + 4 + (if (i : Int) = x.gtrid_length then 3 else 0) ∧
    (∀ j ∈ (x.xid_to_str_step past st i).2, j ∈ st.2 ∨ j ≤ i + 1) := by
  constructor
  · simp only [XID.xid_to_str_step]
    split_ifs <;> simp
  · intro j hj
    simp only [XID.xid_to_str_step] at hj
    split_ifs at hj <;> simp only [List.mem_append, List.mem_singleton] at hj
    · rcases hj with (h | h) | h
      · exact Or.inl h
      · exact Or.inr (by omega)
      · exact Or.inr (by omega)
    · rcases hj with h | h
      · exact Or.inl h
      · exact Or.inr (by omega)

/-- The loop of xid_to_str after n iterations. -/
theorem xid_to_str_loop_bounds (x : XID) (past : Nat → Nat) : ∀ n : Nat,
    ((List.range n).foldl (x.xid_to_str_step past) ([39], [])).1.length ≤
      1 + 4 * n + (if x.gtrid_length < (n : Int) then 3 else 0) ∧
    (∀ j ∈ ((List.range n).foldl (x.xid_to_str_step past) ([39], [])).2, j ≤ n) := by
  intro n
  induction n with
  | zero => simp
  | succ n ih =>
    rw [List.range_succ, List.foldl_append]
    simp only [List.foldl_cons, List.foldl_nil]
    obtain ⟨h1, h2⟩ := xid_to_str_step_bounds x past
      ((List.range n).foldl (x.xid_to_str_step past) ([39], [])) n
    constructor
    · refine le_trans h1 ?_
      have := ih.1
      push_cast
      split_ifs at this ⊢ <;> omega
    · intro j hj
      rcases h2 j hj with h | h
      · have := ih.2 j h
        omega
      · exact h

/-- The part of the bounds of xid_to_str that holds: for an XID with
gtrid_length + bqual_length at most XIDDATASIZE, the text written, NUL
included, is at most XIDDATASIZE * 4 + 6 bytes long, and every index at which
data is read is at most XIDDATASIZE. -/
theorem xid_to_str_bounds (x : XID) (past : Nat → Nat)
    (h : x.gtrid_length + x.bqual_length ≤ (XIDDATASIZE : Int)) :
    (x.xid_to_str past).1.length ≤ XIDDATASIZE * 4 + 6 ∧
    (∀ j ∈ (x.xid_to_str past).2, j ≤ XIDDATASIZE) := by
  have hn : (x.gtrid_length + x.bqual_length).toNat ≤ XIDDATASIZE := by
    simp only [XIDDATASIZE] at h ⊢
    omega
  obtain ⟨h1, h2⟩ := xid_to_str_loop_bounds x past (x.gtrid_length + x.bqual_length).toNat
  constructor
  · simp only [XID.xid_to_str, List.length_append, List.length_cons, List.length_nil]
    simp only [XIDDATASIZE] at hn ⊢
    split_ifs at h1 <;> omega
  · intro j hj
    exact le_trans (h2 j hj) hn

set_option maxRecDepth 100000 in
/-- C40, the code at the failing input: an XID whose 64 gtrid bytes and 64
bqual bytes fill the data array. The method xid_to_str reads data at index
128, one behind the array, and the text it writes depends on the byte found
there: the last byte of the XID, the control character 1, is written with
three octal digits when a digit follows the array and with one otherwise. -/
theorem xid_to_str_reads_behind_the_array :
    sample_full_xid.gtrid_length + sample_full_xid.bqual_length = (XIDDATASIZE : Int) ∧
    sample_full_xid.data.length = XIDDATASIZE ∧
    XIDDATASIZE ∈ (sample_full_xid.xid_to_str (fun _ => 48)).2 ∧
    (sample_full_xid.xid_to_str (fun _ => 48)).1.drop 131 = [92, 48, 48, 49, 39, 0] ∧
    (sample_full_xid.xid_to_str (fun _ => 0)).1.drop 131 = [92, 49, 39, 0] := by
  decide

end XA
